import Mathlib

/-!
University scheduling API: request handlers and error translation.

A shallow embedding of the HTTP handlers of `internal/pkg/handlers`, of the
response helpers of `internal/pkg/utils` and of the middleware of
`internal/pkg/cors`.

* A request body is modelled by the result of `json.NewDecoder(r.Body).Decode`:
  `none` when decoding fails, `some v` with the decoded struct otherwise.
* The data store (pgx + PostgreSQL) is an external collaborator.  Each call a
  handler makes to it is recorded as a `Stmt` in the handler's trace, and what
  the store answers is a parameter of the handler (an outcome for every call).
* A handler returns its trace: the store calls it made and the responses it
  wrote, in program order.
-/

namespace University

/-! ## Values shared by the handlers -/

/-- Go's `time.Time`, kept abstract as a count of nanoseconds. -/
structure Time where
  nanos : Int
  deriving DecidableEq

/-- The fields of `*pgconn.PgError` the handlers read. -/
structure PgError where
  Code : String
  Message : String
  ConstraintName : String
  deriving DecidableEq

/-- A Go `error` coming back from the store: `Error` is the string `err.Error()`
(what `%v` prints), `As` is what `errors.As(err, &pgErr)` finds (`none` when the
chain holds no `*pgconn.PgError`), `IsErrNoRows` is `errors.Is(err, pgx.ErrNoRows)`. -/
structure StoreError where
  Error : String
  As : Option PgError
  IsErrNoRows : Bool := false
  deriving DecidableEq

/-! ## schema.go -/

/-- The struct `schema.Student`. -/
structure Student where
  CreatedAt : Time
  UpdatedAt : Time
  StudentID : String
  FirstName : String
  LastName : String
  Email : String
  ID : Int
  deriving DecidableEq

/-- The struct `schema.Section`. -/
structure Section where
  CreatedAt : Time
  UpdatedAt : Time
  SectionCode : String
  StartTime : String
  Days : List String
  ID : Int
  SubjectID : Int
  TeacherID : Int
  ClassroomID : Int
  DurationMinutes : Int
  MaxEnrollment : Int
  CurrentEnrollment : Int
  deriving DecidableEq

/-- The struct `schema.Enrollment`. -/
structure Enrollment where
  EnrollmentDate : Time
  CreatedAt : Time
  ID : Int
  StudentID : Int
  SectionID : Int
  deriving DecidableEq

/-- The struct `schema.ScheduleItem`. -/
structure ScheduleItem where
  SubjectCode : String
  SubjectName : String
  SectionCode : String
  TeacherFirstName : String
  TeacherLastName : String
  Building : String
  RoomNumber : String
  StartTime : String
  EndTime : String
  Days : List String
  SectionID : Int
  DurationMinutes : Int
  deriving DecidableEq

/-- The struct `schema.Teacher`. -/
structure Teacher where
  CreatedAt : Time
  UpdatedAt : Time
  FirstName : String
  LastName : String
  Email : String
  ID : Int
  deriving DecidableEq

/-- The struct `schema.Subject`. -/
structure Subject where
  CreatedAt : Time
  UpdatedAt : Time
  Code : String
  Name : String
  Description : String
  ID : Int
  deriving DecidableEq

/-- The struct `schema.Classroom`. -/
structure Classroom where
  CreatedAt : Time
  UpdatedAt : Time
  Building : String
  RoomNumber : String
  ID : Int
  Capacity : Int
  deriving DecidableEq

/-- The struct `schema.CreateSectionRequest`. -/
structure CreateSectionRequest where
  SectionCode : String
  StartTime : String
  Days : List String
  SubjectID : Int
  TeacherID : Int
  ClassroomID : Int
  DurationMinutes : Int
  MaxEnrollment : Int
  deriving DecidableEq

/-- The struct `schema.CreateStudentRequest`. -/
structure CreateStudentRequest where
  StudentID : String
  FirstName : String
  LastName : String
  Email : String
  deriving DecidableEq

/-- The struct `handlers.EnrollmentRequest` (types.go). -/
structure EnrollmentRequest where
  StudentID : Int
  SectionID : Int
  deriving DecidableEq

/-! ## utils.go: the response codec -/

/-- A Go slice variable: `none` is the nil slice a `var xs []T` declaration
leaves, `some xs` a slice that has been allocated. -/
abbrev Slice (α : Type) := Option (List α)

/-- The built-in `append(xs, x)`: the result is never nil. -/
def Slice.append {α : Type} (xs : Slice α) (x : α) : Slice α :=
  some (xs.getD [] ++ [x])

/-- What is handed to `json.NewEncoder(w).Encode`, or, for `raw`, the bytes
given to `w.Write` directly. -/
inductive Payload where
  | stringMap (m : List (String × String))
  | section (s : Section)
  | student (s : Student)
  | teacher (t : Teacher)
  | subject (s : Subject)
  | classroom (c : Classroom)
  | enrollment (e : Enrollment)
  | students (xs : Slice Student)
  | teachers (xs : Slice Teacher)
  | subjects (xs : Slice Subject)
  | classrooms (xs : Slice Classroom)
  | sections (xs : Slice Section)
  | schedule (xs : Slice ScheduleItem)
  | raw (bytes : List Nat)
  deriving DecidableEq

/-- The kind of JSON value at the top of an encoded body. -/
inductive JSONShape where
  | null
  | array (length : Nat)
  | object
  | notJSON
  deriving DecidableEq

/-- The JSON value `encoding/json` writes for a slice: `null` for the nil slice,
an array with one element per entry otherwise. -/
def Slice.jsonShape {α : Type} : Slice α → JSONShape
  | none => .null
  | some xs => .array xs.length

/-- The JSON value `encoding/json` writes for a payload: structs and maps encode
as objects, slices as `Slice.jsonShape` says. -/
def Payload.jsonShape : Payload → JSONShape
  | .stringMap _ => .object
  | .section _ => .object
  | .student _ => .object
  | .teacher _ => .object
  | .subject _ => .object
  | .classroom _ => .object
  | .enrollment _ => .object
  | .students xs => xs.jsonShape
  | .teachers xs => xs.jsonShape
  | .subjects xs => xs.jsonShape
  | .classrooms xs => xs.jsonShape
  | .sections xs => xs.jsonShape
  | .schedule xs => xs.jsonShape
  | .raw _ => .notJSON

/-- One written response: the status given to `w.WriteHeader`, the headers set
before it (`Content-Type`, and where the handler sets them `Content-Disposition`
and `Content-Length`), and the body. -/
structure Response where
  status : Nat
  contentType : String
  payload : Payload
  contentDisposition : Option String := none
  contentLength : Option String := none
  deriving DecidableEq

def StatusOK : Nat := 200
def StatusCreated : Nat := 201
def StatusBadRequest : Nat := 400
def StatusNotFound : Nat := 404
def StatusConflict : Nat := 409
def StatusInternalServerError : Nat := 500

/-- Function `utils.SendError`: status, JSON content type, and the map `{"error": message}`. -/
def SendError (status : Nat) (message : String) : Response :=
  { status := status
    contentType := "application/json"
    payload := .stringMap [("error", message)] }

/-- Function `utils.SendJSON`: status, JSON content type, and the data. -/
def SendJSON (status : Nat) (data : Payload) : Response :=
  { status := status
    contentType := "application/json"
    payload := data }

/-! ## The store, as the handlers see it -/

/-- A row of table `sections`, as returned by the `RETURNING` clause of the
section insert (eleven columns, in that order). -/
structure SectionRow where
  id : Int
  subject_id : Int
  teacher_id : Int
  classroom_id : Int
  section_code : String
  start_time : String
  duration_minutes : Int
  max_enrollment : Int
  current_enrollment : Int
  created_at : Time
  updated_at : Time
  deriving DecidableEq

/-- A row of table `section_days`. -/
structure SectionDayRow where
  section_id : Int
  day : String
  deriving DecidableEq

/-- A call made to the store, with the arguments bound to its placeholders. -/
inductive Stmt where
  | Begin
  | InsertSection (subject_id teacher_id classroom_id : Int) (section_code start_time : String)
      (duration_minutes max_enrollment : Int)
  | InsertSectionDay (section_id : Int) (day : String)
  | Commit
  | Rollback
  | InsertStudent (student_id first_name last_name email : String)
  | InsertTeacher (first_name last_name email : String)
  | InsertSubject (code name description : String)
  | InsertClassroom (building room_number : String) (capacity : Int)
  | InsertEnrollment (student_id section_id : Int)
  | SelectStudents
  | SelectStudentByID (id : Int)
  | SelectStudentSchedule (student_id : Int)
  | SelectTeachers
  | SelectSubjects
  | SelectClassrooms
  | SelectSections
  | DeleteEnrollment (student_id section_id : Int)
  | SelectStudentInfo (id : Int)
  | SelectStudentScheduleByDay (student_id : Int)
  deriving DecidableEq

/-- The statements that only read: the `SELECT`s. -/
def Stmt.isRead : Stmt → Bool
  | .SelectStudents => true
  | .SelectStudentByID _ => true
  | .SelectStudentSchedule _ => true
  | .SelectTeachers => true
  | .SelectSubjects => true
  | .SelectClassrooms => true
  | .SelectSections => true
  | .SelectStudentInfo _ => true
  | .SelectStudentScheduleByDay _ => true
  | _ => false

/-- The statements that insert a row of `section_days`. -/
def Stmt.isDayInsert : Stmt → Bool
  | .InsertSectionDay _ _ => true
  | _ => false

/-- What a handler does that can be observed from outside, in program order. -/
inductive Event where
  | db (s : Stmt)
  | respond (r : Response)
  deriving DecidableEq

/-- The responses written in a trace, in order. -/
def responses : List Event → List Response
  | [] => []
  | .respond r :: rest => r :: responses rest
  | .db _ :: rest => responses rest

/-- The store calls made in a trace, in order. -/
def stmts : List Event → List Stmt
  | [] => []
  | .db s :: rest => s :: stmts rest
  | .respond _ :: rest => stmts rest

/-- The tables touched by section creation. -/
structure Tables where
  sections : List SectionRow
  section_days : List SectionDayRow
  deriving DecidableEq

/-- Model of the store's transactional behaviour (PostgreSQL behind pgx): the
committed tables, and the working copy of the transaction that is open, if any.
Statements of a transaction change only its working copy; `Commit` installs the
working copy; `Rollback` discards it and does nothing on a closed transaction;
a `Commit` that reports an error installs nothing and closes the transaction. -/
structure Store where
  committed : Tables
  tx : Option Tables
  deriving DecidableEq

/-- A successful `db.Begin`: a transaction starts from the committed tables. -/
def Store.Begin (st : Store) : Store :=
  { st with tx := some st.committed }

/-- A successful section insert inside the open transaction. -/
def Store.InsertSection (st : Store) (row : SectionRow) : Store :=
  { st with tx := st.tx.map (fun t => { t with sections := t.sections ++ [row] }) }

/-- A successful `section_days` insert inside the open transaction. -/
def Store.InsertSectionDay (st : Store) (row : SectionDayRow) : Store :=
  { st with tx := st.tx.map (fun t => { t with section_days := t.section_days ++ [row] }) }

/-- A successful `tx.Commit`. -/
def Store.Commit (st : Store) : Store :=
  match st.tx with
  | some t => { committed := t, tx := none }
  | none => st

/-- The call `tx.Rollback`, also the fate of a transaction whose commit failed. -/
def Store.Rollback (st : Store) : Store :=
  { st with tx := none }

/-- The store's answers to the calls of one `CreateSection` request: `none` is
success for `Begin`, `Exec` (indexed by the position of the day in the request)
and `Commit`; `QueryRow` is the error or the row scanned from `RETURNING`. -/
structure SectionDB where
  Begin : Option StoreError
  QueryRow : Except StoreError SectionRow
  Exec : Nat → Option StoreError
  Commit : Option StoreError

/-! ## sections.go -/

/-- The map `validDays` of `CreateSection`. -/
def validDaysMap : List (String × Bool) :=
  [("monday", true), ("tuesday", true), ("wednesday", true), ("thursday", true), ("friday", true)]

/-- The lookup `validDays[day]`: a missing key reads as `false`. -/
def validDays (day : String) : Bool :=
  (validDaysMap.lookup day).getD false

/-- The three validation steps of `CreateSection` (sections.go, lines 80-105):
the message of the first check that rejects the request, `none` when all pass. -/
def validateSection (sectionReq : CreateSectionRequest) : Option String :=
  if sectionReq.SubjectID ≤ 0 ∨ sectionReq.TeacherID ≤ 0 ∨ sectionReq.ClassroomID ≤ 0 ∨
      sectionReq.SectionCode = "" ∨ sectionReq.StartTime = "" ∨
      sectionReq.DurationMinutes ≤ 0 ∨ sectionReq.MaxEnrollment ≤ 0 ∨
      sectionReq.Days.length = 0 then
    some "All fields are required"
  else if sectionReq.DurationMinutes ≠ 50 ∧ sectionReq.DurationMinutes ≠ 80 then
    some "Duration minutes must be either 50 or 80"
  else if sectionReq.Days.any (fun day => !validDays day) then
    some "Days must be monday, tuesday, wednesday, thursday, or friday"
  else
    none

/-- The section struct after `Scan` filled it from the returned row; `Days` is
still the nil slice. -/
def scanSection (row : SectionRow) : Section :=
  { ID := row.id
    SubjectID := row.subject_id
    TeacherID := row.teacher_id
    ClassroomID := row.classroom_id
    SectionCode := row.section_code
    StartTime := row.start_time
    DurationMinutes := row.duration_minutes
    MaxEnrollment := row.max_enrollment
    CurrentEnrollment := row.current_enrollment
    CreatedAt := row.created_at
    UpdatedAt := row.updated_at
    Days := [] }

/-- The response to a failed section insert (sections.go, lines 138-155). -/
def sectionInsertError (err : StoreError) : Response :=
  match err.As with
  | some pgErr =>
    if pgErr.Code = "23505" then
      SendError StatusConflict "A section with this subject and section code already exists"
    else if pgErr.Code = "23514" then
      SendError StatusBadRequest "Section details violate constraints. Check time limits and duration."
    else
      SendError StatusInternalServerError ("Database error: " ++ pgErr.Message)
  | none =>
    SendError StatusInternalServerError ("Failed to create section: " ++ err.Error)

/-- The loop over `sectionReq.Days` (sections.go, lines 157-167), from the day at
position `i` on: one insert per day, stopping at the first that fails.  Returns
the trace, the store, and the error that stopped the loop, if any. -/
def insertDays (db : SectionDB) (sectionID : Int) :
    List String → Nat → Store → List Event × Store × Option StoreError
  | [], _, st => ([], st, none)
  | day :: rest, i, st =>
    match db.Exec i with
    | some err => ([.db (.InsertSectionDay sectionID day)], st, some err)
    | none =>
      let r := insertDays db sectionID rest (i + 1) (st.InsertSectionDay ⟨sectionID, day⟩)
      (.db (.InsertSectionDay sectionID day) :: r.1, r.2.1, r.2.2)

/-- The body of `CreateSection` between the deferred `tx.Rollback` and the
return (sections.go, lines 115-177). -/
def createSectionTx (sectionReq : CreateSectionRequest) (db : SectionDB) (st : Store) :
    List Event × Store :=
  let insert : Event := .db (.InsertSection sectionReq.SubjectID sectionReq.TeacherID
    sectionReq.ClassroomID sectionReq.SectionCode sectionReq.StartTime
    sectionReq.DurationMinutes sectionReq.MaxEnrollment)
  match db.QueryRow with
  | .error err => ([insert, .respond (sectionInsertError err)], st)
  | .ok row =>
    let sectionRec := scanSection row
    let loop := insertDays db sectionRec.ID sectionReq.Days 0 (st.InsertSection row)
    match loop.2.2 with
    | some err =>
      (insert :: loop.1 ++
        [.respond (SendError StatusInternalServerError ("Failed to add section day: " ++ err.Error))],
        loop.2.1)
    | none =>
      match db.Commit with
      | some _ =>
        (insert :: loop.1 ++
          [.db .Commit, .respond (SendError StatusInternalServerError "Failed to commit transaction")],
          loop.2.1.Rollback)
      | none =>
        (insert :: loop.1 ++
          [.db .Commit,
           .respond (SendJSON StatusCreated (.section { sectionRec with Days := sectionReq.Days }))],
          loop.2.1.Commit)

/-- The handler `CreateSection` (sections.go, lines 71-178).  The deferred
`tx.Rollback` runs last on every path that opened a transaction. -/
def CreateSection (body : Option CreateSectionRequest) (db : SectionDB) (st : Store) :
    List Event × Store :=
  match body with
  | none => ([.respond (SendError StatusBadRequest "Invalid request body")], st)
  | some sectionReq =>
    match validateSection sectionReq with
    | some message => ([.respond (SendError StatusBadRequest message)], st)
    | none =>
      match db.Begin with
      | some _ =>
        ([.db .Begin, .respond (SendError StatusInternalServerError "Failed to begin transaction")], st)
      | none =>
        let r := createSectionTx sectionReq db st.Begin
        (.db .Begin :: r.1 ++ [.db .Rollback], r.2.Rollback)

/-! ## enrollments.go -/

/-- The zero value of `time.Time`. -/
def Time.zero : Time := ⟨0⟩

/-- The handler `EnrollStudent` (enrollments.go, lines 19-70).  `QueryRow` is the
store's answer to the insert: the error, or the returned `id` and
`enrollment_date`. -/
def EnrollStudent (body : Option EnrollmentRequest) (QueryRow : Except StoreError (Int × Time)) :
    List Event :=
  match body with
  | none => [.respond (SendError StatusBadRequest "Invalid request body")]
  | some enrollment =>
    let insert : Event := .db (.InsertEnrollment enrollment.StudentID enrollment.SectionID)
    match QueryRow with
    | .error err =>
      let fallthrough : List Event :=
        [insert, .respond (SendError StatusInternalServerError
          ("Failed to enroll student: " ++ err.Error))]
      match err.As with
      | some pgErr =>
        if pgErr.Message = "Schedule conflict detected. Cannot enroll in this section." then
          [insert, .respond (SendError StatusConflict "Schedule conflict detected")]
        else if pgErr.Message = "Section is full. Cannot enroll." then
          [insert, .respond (SendError StatusConflict "Section is full")]
        else
          fallthrough
      | none => fallthrough
    | .ok (id, enrollmentDate) =>
      let result : Enrollment :=
        { ID := id
          StudentID := enrollment.StudentID
          SectionID := enrollment.SectionID
          EnrollmentDate := enrollmentDate
          CreatedAt := Time.zero }
      [insert, .respond (SendJSON StatusCreated (.enrollment result))]

/-! ## students.go -/

/-- A row of table `students`, as returned by the `RETURNING` clause of the
student insert (seven columns, in that order). -/
structure StudentRow where
  id : Int
  student_id : String
  first_name : String
  last_name : String
  email : String
  created_at : Time
  updated_at : Time
  deriving DecidableEq

/-- The student struct after `Scan` filled it from the returned row. -/
def scanStudent (row : StudentRow) : Student :=
  { ID := row.id
    StudentID := row.student_id
    FirstName := row.first_name
    LastName := row.last_name
    Email := row.email
    CreatedAt := row.created_at
    UpdatedAt := row.updated_at }

/-- The handler `CreateStudent` (students.go, lines 157-212). -/
def CreateStudent (body : Option CreateStudentRequest) (QueryRow : Except StoreError StudentRow) :
    List Event :=
  match body with
  | none => [.respond (SendError StatusBadRequest "Invalid request body")]
  | some studentReq =>
    if studentReq.StudentID = "" ∨ studentReq.FirstName = "" ∨ studentReq.LastName = "" ∨
        studentReq.Email = "" then
      [.respond (SendError StatusBadRequest "All fields are required")]
    else
      let insert : Event := .db (.InsertStudent studentReq.StudentID studentReq.FirstName
        studentReq.LastName studentReq.Email)
      match QueryRow with
      | .error err =>
        let fallthrough : List Event :=
          [insert, .respond (SendError StatusInternalServerError
            ("Failed to create student: " ++ err.Error))]
        match err.As with
        | some pgErr =>
          if pgErr.Code = "23505" then
            if pgErr.ConstraintName = "students_student_id_key" then
              [insert, .respond (SendError StatusConflict
                "A student with this student ID already exists")]
            else if pgErr.ConstraintName = "students_email_key" then
              [insert, .respond (SendError StatusConflict
                "A student with this email already exists")]
            else
              [insert, .respond (SendError StatusConflict "A duplicate entry exists")]
          else
            fallthrough
        | none => fallthrough
      | .ok row => [insert, .respond (SendJSON StatusCreated (.student (scanStudent row)))]

/-! ## teachers.go -/

/-- The handler `CreateTeacher` (teachers.go, lines 56-99).  The body is decoded
into a `schema.Teacher`; on success `Scan` overwrites its `ID`, `CreatedAt` and
`UpdatedAt` with the returned `id`, `created_at`, `updated_at`. -/
def CreateTeacher (body : Option Teacher) (QueryRow : Except StoreError (Int × Time × Time)) :
    List Event :=
  match body with
  | none => [.respond (SendError StatusBadRequest "Invalid request body")]
  | some teacher =>
    if teacher.FirstName = "" ∨ teacher.LastName = "" ∨ teacher.Email = "" then
      [.respond (SendError StatusBadRequest "First name, last name, and email are required")]
    else
      let insert : Event := .db (.InsertTeacher teacher.FirstName teacher.LastName teacher.Email)
      match QueryRow with
      | .error err =>
        let fallthrough : List Event :=
          [insert, .respond (SendError StatusInternalServerError
            ("Failed to create teacher: " ++ err.Error))]
        match err.As with
        | some pgErr =>
          if pgErr.Code = "23505" then
            [insert, .respond (SendError StatusConflict "A teacher with this email already exists")]
          else
            fallthrough
        | none => fallthrough
      | .ok (id, created_at, updated_at) =>
        [insert, .respond (SendJSON StatusCreated
          (.teacher { teacher with ID := id, CreatedAt := created_at, UpdatedAt := updated_at }))]

/-! ## subjects.go -/

/-- The handler `CreateSubject` (subjects.go, lines 53-88). -/
def CreateSubject (body : Option Subject) (QueryRow : Except StoreError (Int × Time × Time)) :
    List Event :=
  match body with
  | none => [.respond (SendError StatusBadRequest "Invalid request body")]
  | some subject =>
    if subject.Code = "" ∨ subject.Name = "" then
      [.respond (SendError StatusBadRequest "Code and name are required")]
    else
      let insert : Event := .db (.InsertSubject subject.Code subject.Name subject.Description)
      match QueryRow with
      | .error err =>
        [insert, .respond (SendError StatusInternalServerError
          ("Failed to create subject: " ++ err.Error))]
      | .ok (id, created_at, updated_at) =>
        [insert, .respond (SendJSON StatusCreated
          (.subject { subject with ID := id, CreatedAt := created_at, UpdatedAt := updated_at }))]

/-! ## classrooms.go -/

/-- The handler `CreateClassroom` (classrooms.go, lines 55-98). -/
def CreateClassroom (body : Option Classroom) (QueryRow : Except StoreError (Int × Time × Time)) :
    List Event :=
  match body with
  | none => [.respond (SendError StatusBadRequest "Invalid request body")]
  | some classroom =>
    if classroom.Building = "" ∨ classroom.RoomNumber = "" ∨ classroom.Capacity ≤ 0 then
      [.respond (SendError StatusBadRequest
        "Building, room number, and a positive capacity are required")]
    else
      let insert : Event := .db (.InsertClassroom classroom.Building classroom.RoomNumber
        classroom.Capacity)
      match QueryRow with
      | .error err =>
        let fallthrough : List Event :=
          [insert, .respond (SendError StatusInternalServerError
            ("Failed to create classroom: " ++ err.Error))]
        match err.As with
        | some pgErr =>
          if pgErr.Code = "23505" then
            [insert, .respond (SendError StatusConflict
              "A classroom with this building and room number already exists")]
          else
            fallthrough
        | none => fallthrough
      | .ok (id, created_at, updated_at) =>
        [insert, .respond (SendJSON StatusCreated
          (.classroom { classroom with ID := id, CreatedAt := created_at, UpdatedAt := updated_at }))]

/-! ## Path parameters and result sets -/

/-- The value of a string of decimal digits, `none` when the string is empty or
holds a byte that is not a digit (48 is the code of the digit zero). -/
def atoiDigits (cs : List Char) : Option Nat :=
  if cs.isEmpty || !cs.all Char.isDigit then none
  else some (cs.foldl (fun n ch => n * 10 + (ch.toNat - 48)) 0)

/-- Model of the library function `strconv.Atoi` for the 64-bit `int`: an
optional sign followed by one or more decimal digits, whose value fits in 64
bits; `none` stands for the error return. -/
def Atoi (s : String) : Option Int :=
  match s.toList with
  | '-' :: cs => (atoiDigits cs).bind (fun n => if n ≤ 2 ^ 63 then some (-(n : Int)) else none)
  | '+' :: cs => (atoiDigits cs).bind (fun n => if n < 2 ^ 63 then some (n : Int) else none)
  | cs => (atoiDigits cs).bind (fun n => if n < 2 ^ 63 then some (n : Int) else none)

/-- The `pgx.Rows` a successful `db.Query` returns, as the handler loop sees it:
`scans` holds, for every time `rows.Next()` returned true, what `rows.Scan` gave
(the error, or the struct it filled); `Err` is what `rows.Err()` holds once
`rows.Next()` has returned false (`some` when the iteration stopped on an error
before the end of the result). -/
structure Rows (α : Type) where
  scans : List (Except StoreError α)
  Err : Option StoreError

/-- The loop `for rows.Next() { Scan; append }` of the list handlers: the slice
built from the rows, or the first `Scan` error.  Nothing reads `rows.Err()`. -/
def scanRows {α : Type} : List (Except StoreError α) → Slice α → Except StoreError (Slice α)
  | [], acc => .ok acc
  | .error err :: _, _ => .error err
  | .ok row :: rest, acc => scanRows rest (acc.append row)

/-! ## students.go: the read handlers and DropSection -/

/-- The handler `GetStudents` (students.go, lines 23-57). -/
def GetStudents (Query : Except StoreError (Rows Student)) : List Event :=
  match Query with
  | .error _ =>
    [.db .SelectStudents, .respond (SendError StatusInternalServerError "Failed to fetch students")]
  | .ok rows =>
    match scanRows rows.scans none with
    | .error _ =>
      [.db .SelectStudents,
       .respond (SendError StatusInternalServerError "Failed to scan student")]
    | .ok students => [.db .SelectStudents, .respond (SendJSON StatusOK (.students students))]

/-- The handler `GetStudentByID` (students.go, lines 61-96).  `QueryRow id` is
the store's answer to the lookup of `id`. -/
def GetStudentByID (idStr : String) (QueryRow : Int → Except StoreError StudentRow) :
    List Event :=
  match Atoi idStr with
  | none => [.respond (SendError StatusBadRequest "Invalid student ID")]
  | some id =>
    match QueryRow id with
    | .error err =>
      if err.IsErrNoRows then
        [.db (.SelectStudentByID id), .respond (SendError StatusNotFound "Student not found")]
      else
        [.db (.SelectStudentByID id),
         .respond (SendError StatusInternalServerError "Failed to fetch student")]
    | .ok row =>
      [.db (.SelectStudentByID id), .respond (SendJSON StatusOK (.student (scanStudent row)))]

/-- The handler `GetStudentSchedule` (students.go, lines 100-152). -/
def GetStudentSchedule (idStr : String) (Query : Int → Except StoreError (Rows ScheduleItem)) :
    List Event :=
  match Atoi idStr with
  | none => [.respond (SendError StatusBadRequest "Invalid student ID")]
  | some id =>
    match Query id with
    | .error _ =>
      [.db (.SelectStudentSchedule id),
       .respond (SendError StatusInternalServerError "Failed to fetch schedule")]
    | .ok rows =>
      match scanRows rows.scans none with
      | .error _ =>
        [.db (.SelectStudentSchedule id),
         .respond (SendError StatusInternalServerError "Failed to scan schedule item")]
      | .ok schedule =>
        [.db (.SelectStudentSchedule id), .respond (SendJSON StatusOK (.schedule schedule))]

/-- The handler `DropSection` (students.go, lines 217-254).  `Exec` is the
store's answer to the delete: the error, or `result.RowsAffected()`. -/
def DropSection (studentIDStr sectionIDStr : String)
    (Exec : Int → Int → Except StoreError Int) : List Event :=
  match Atoi studentIDStr with
  | none => [.respond (SendError StatusBadRequest "Invalid student ID")]
  | some studentID =>
    match Atoi sectionIDStr with
    | none => [.respond (SendError StatusBadRequest "Invalid section ID")]
    | some sectionID =>
      match Exec studentID sectionID with
      | .error _ =>
        [.db (.DeleteEnrollment studentID sectionID),
         .respond (SendError StatusInternalServerError "Failed to drop section")]
      | .ok rowsAffected =>
        if rowsAffected = 0 then
          [.db (.DeleteEnrollment studentID sectionID),
           .respond (SendError StatusNotFound "Enrollment not found")]
        else
          [.db (.DeleteEnrollment studentID sectionID),
           .respond (SendJSON StatusOK
             (.stringMap [("message", "Section dropped successfully")]))]

/-! ## utils.go: FormatDays -/

/-- The map `dayAbbr` of `FormatDays`. -/
def dayAbbr : List (String × String) :=
  [("monday", "M"), ("tuesday", "Tu"), ("wednesday", "W"), ("thursday", "Th"), ("friday", "F")]

/-- The function `utils.FormatDays`: a missing key reads as the empty string. -/
def FormatDays (days : List String) : List String :=
  days.map (fun day => (dayAbbr.lookup day).getD "")

/-! ## students.go: the schedule download -/

/-- The five columns the download handler reads of a student. -/
structure StudentInfoRow where
  id : Int
  student_id : String
  first_name : String
  last_name : String
  email : String
  deriving DecidableEq

/-- The six cells of a schedule row of the document (students.go, lines 374-389). -/
def scheduleCells (item : ScheduleItem) : List String :=
  [String.intercalate ", " (FormatDays item.Days),
   item.StartTime ++ " - " ++ item.EndTime,
   item.SubjectCode,
   item.SubjectName,
   item.TeacherFirstName ++ " " ++ item.TeacherLastName,
   item.Building ++ " " ++ item.RoomNumber]

/-- The handler `DownloadStudentSchedule` (students.go, lines 259-410).  The PDF
library is a parameter: `Output title table` is what `pdf.Output` yields for the
document with that title line and those table rows. -/
def DownloadStudentSchedule (idStr : String)
    (QueryRow : Int → Except StoreError StudentInfoRow)
    (Query : Int → Except StoreError (Rows ScheduleItem))
    (Output : String → List (List String) → Except String (List Nat)) : List Event :=
  match Atoi idStr with
  | none => [.respond (SendError StatusBadRequest "Invalid student ID")]
  | some id =>
    match QueryRow id with
    | .error _ =>
      [.db (.SelectStudentInfo id),
       .respond (SendError StatusInternalServerError "Failed to fetch student info")]
    | .ok student =>
      match Query id with
      | .error _ =>
        [.db (.SelectStudentInfo id), .db (.SelectStudentScheduleByDay id),
         .respond (SendError StatusInternalServerError "Failed to fetch schedule")]
      | .ok rows =>
        match scanRows rows.scans none with
        | .error _ =>
          [.db (.SelectStudentInfo id), .db (.SelectStudentScheduleByDay id),
           .respond (SendError StatusInternalServerError "Failed to scan schedule item")]
        | .ok scheduleItems =>
          let title := "Schedule for " ++ student.first_name ++ " " ++ student.last_name ++
            " (" ++ student.student_id ++ ")"
          match Output title ((scheduleItems.getD []).map scheduleCells) with
          | .error _ =>
            [.db (.SelectStudentInfo id), .db (.SelectStudentScheduleByDay id),
             .respond (SendError StatusInternalServerError "Failed to generate PDF")]
          | .ok buf =>
            let fileName := "schedule_" ++ student.first_name ++ "_" ++ student.last_name ++ ".pdf"
            [.db (.SelectStudentInfo id), .db (.SelectStudentScheduleByDay id),
             .respond
              { status := StatusOK
                contentType := "application/pdf"
                contentDisposition := some ("attachment; filename=" ++ fileName)
                contentLength := some (toString buf.length)
                payload := .raw buf }]

/-! ## The other list handlers -/

/-- The handler `GetTeachers` (teachers.go, lines 17-51). -/
def GetTeachers (Query : Except StoreError (Rows Teacher)) : List Event :=
  match Query with
  | .error _ =>
    [.db .SelectTeachers, .respond (SendError StatusInternalServerError "Failed to fetch teachers")]
  | .ok rows =>
    match scanRows rows.scans none with
    | .error _ =>
      [.db .SelectTeachers,
       .respond (SendError StatusInternalServerError "Failed to scan teacher")]
    | .ok teachers => [.db .SelectTeachers, .respond (SendJSON StatusOK (.teachers teachers))]

/-- The handler `GetSubjects` (subjects.go, lines 13-48). -/
def GetSubjects (Query : Except StoreError (Rows Subject)) : List Event :=
  match Query with
  | .error _ =>
    [.db .SelectSubjects, .respond (SendError StatusInternalServerError "Failed to fetch subjects")]
  | .ok rows =>
    match scanRows rows.scans none with
    | .error _ =>
      [.db .SelectSubjects,
       .respond (SendError StatusInternalServerError "Failed to scan subject")]
    | .ok subjects => [.db .SelectSubjects, .respond (SendJSON StatusOK (.subjects subjects))]

/-- The handler `GetClassrooms` (classrooms.go, lines 17-51). -/
def GetClassrooms (Query : Except StoreError (Rows Classroom)) : List Event :=
  match Query with
  | .error _ =>
    [.db .SelectClassrooms,
     .respond (SendError StatusInternalServerError "Failed to fetch classrooms")]
  | .ok rows =>
    match scanRows rows.scans none with
    | .error _ =>
      [.db .SelectClassrooms,
       .respond (SendError StatusInternalServerError "Failed to scan classroom")]
    | .ok classrooms =>
      [.db .SelectClassrooms, .respond (SendJSON StatusOK (.classrooms classrooms))]

/-- The handler `GetSections` (sections.go, lines 19-65). -/
def GetSections (Query : Except StoreError (Rows Section)) : List Event :=
  match Query with
  | .error _ =>
    [.db .SelectSections, .respond (SendError StatusInternalServerError "Failed to fetch sections")]
  | .ok rows =>
    match scanRows rows.scans none with
    | .error _ =>
      [.db .SelectSections,
       .respond (SendError StatusInternalServerError "Failed to scan section")]
    | .ok sections => [.db .SelectSections, .respond (SendJSON StatusOK (.sections sections))]

/-! ## A store answering reads from its state -/

/-- What a store in a given state answers to the read statements of the GET
handlers (failures included). -/
structure ReadAnswers where
  Students : Except StoreError (Rows Student)
  StudentByID : Int → Except StoreError StudentRow
  StudentSchedule : Int → Except StoreError (Rows ScheduleItem)
  Teachers : Except StoreError (Rows Teacher)
  Subjects : Except StoreError (Rows Subject)
  Classrooms : Except StoreError (Rows Classroom)
  Sections : Except StoreError (Rows Section)

/-- The seven GET routes of main.go that answer with JSON, with their path
parameter. -/
inductive GetRequest where
  | Students
  | StudentByID (idStr : String)
  | StudentSchedule (idStr : String)
  | Teachers
  | Subjects
  | Classrooms
  | Sections

/-- The handler the router calls for a GET request, given the store's answers. -/
def serveGet (a : ReadAnswers) : GetRequest → List Event
  | .Students => GetStudents a.Students
  | .StudentByID idStr => GetStudentByID idStr a.StudentByID
  | .StudentSchedule idStr => GetStudentSchedule idStr a.StudentSchedule
  | .Teachers => GetTeachers a.Teachers
  | .Subjects => GetSubjects a.Subjects
  | .Classrooms => GetClassrooms a.Classrooms
  | .Sections => GetSections a.Sections

/-- A store with states of type `σ`: how a state answers reads, and what a
statement does to the state. -/
structure StoreModel (σ : Type) where
  answers : σ → ReadAnswers
  exec : Stmt → σ → σ

/-- One GET request served against a store in state `st`: the trace, and the
state after the statements of the trace were executed in order. -/
def StoreModel.serve {σ : Type} (m : StoreModel σ) (req : GetRequest) (st : σ) :
    List Event × σ :=
  (serveGet (m.answers st) req,
   (stmts (serveGet (m.answers st) req)).foldl (fun s q => m.exec q s) st)

/-! ## cors.go -/

/-- What the CORS middleware does, in program order: set a response header,
write the status line, or call the wrapped handler (`next.ServeHTTP`). -/
inductive CorsEvent where
  | setHeader (key value : String)
  | writeHeader (status : Nat)
  | serveNext
  deriving DecidableEq

def MethodGet : String := "GET"
def MethodPost : String := "POST"
def MethodPut : String := "PUT"
def MethodDelete : String := "DELETE"
def MethodOptions : String := "OPTIONS"

/-- The handler `cors.Register` returns (cors.go, lines 10-38), run on a request
with method `Method`. -/
def Register (Method : String) : List CorsEvent :=
  [.setHeader "Access-Control-Allow-Origin" "*",
   .setHeader "Access-Control-Allow-Methods"
     (String.intercalate ", " [MethodGet, MethodPost, MethodPut, MethodDelete, MethodOptions]),
   .setHeader "Access-Control-Allow-Headers" "Content-Type, Authorization"] ++
  (if Method = MethodOptions then [.writeHeader StatusOK] else [.serveNext])

/-! ## A store of enrollments -/

/-- Modelled from the spec: the table `enrollments` and the view
`student_schedule_view` belong to the schema of the data store, which is not
among the sources.  Enrollments are a set of (student, section) pairs, kept
here as a list in which a pair is entered at most once. -/
structure EnrollmentStore where
  pairs : List (Int × Int)
  deriving DecidableEq

/-- Modelled from the spec: the effect on the `enrollments` table of a
statement that succeeds.  The enrollment insert adds the pair, the delete
removes it, every other statement leaves the table as it is. -/
def EnrollmentStore.exec (en : EnrollmentStore) : Stmt → EnrollmentStore
  | .InsertEnrollment student_id section_id =>
    if (student_id, section_id) ∈ en.pairs then en
    else { pairs := en.pairs ++ [(student_id, section_id)] }
  | .DeleteEnrollment student_id section_id =>
    { pairs := en.pairs.filter (fun p => p ≠ (student_id, section_id)) }
  | _ => en

/-- The table after the statements of a trace took effect, in order. -/
def EnrollmentStore.after (en : EnrollmentStore) (tr : List Event) : EnrollmentStore :=
  (stmts tr).foldl (fun e q => e.exec q) en

/-- Modelled from the spec: the answer of the store to the delete of
`DropSection`, the number of rows the delete removes. -/
def EnrollmentStore.Exec (en : EnrollmentStore) (student_id section_id : Int) :
    Except StoreError Int :=
  .ok (en.pairs.count (student_id, section_id))

/-- Modelled from the spec: the answer of `student_schedule_view` for a student,
one item per section the student is enrolled in; `view` supplies the joined
columns of a section, and the order of the rows is left as the table has it. -/
def EnrollmentStore.Query (en : EnrollmentStore) (view : Int → ScheduleItem)
    (student_id : Int) : Except StoreError (Rows ScheduleItem) :=
  .ok { scans := (en.pairs.filter (fun p => p.1 = student_id)).map
          (fun p => .ok { view p.2 with SectionID := p.2 })
        Err := none }

/-- The handler `EnrollStudent` run against the store: its trace, and the table
afterwards (unchanged when the store refused the insert). -/
def EnrollmentStore.enroll (en : EnrollmentStore) (student_id section_id : Int)
    (QueryRow : Except StoreError (Int × Time)) : List Event × EnrollmentStore :=
  (EnrollStudent (some { StudentID := student_id, SectionID := section_id }) QueryRow,
   match QueryRow with
   | .ok _ =>
     en.after (EnrollStudent (some { StudentID := student_id, SectionID := section_id })
       QueryRow)
   | .error _ => en)

/-- The handler `DropSection` run against the store: its trace, and the table
afterwards. -/
def EnrollmentStore.drop (en : EnrollmentStore) (studentIDStr sectionIDStr : String) :
    List Event × EnrollmentStore :=
  (DropSection studentIDStr sectionIDStr en.Exec,
   en.after (DropSection studentIDStr sectionIDStr en.Exec))

/-- The handler `GetStudentSchedule` run against the store. -/
def EnrollmentStore.schedule (en : EnrollmentStore) (view : Int → ScheduleItem)
    (idStr : String) : List Event :=
  GetStudentSchedule idStr (en.Query view)

/-- The student enrolled in each section of a list in turn, the store accepting
every insert. -/
def EnrollmentStore.enrollAll (en : EnrollmentStore) (student_id : Int)
    (generated : Int × Time) : List Int → EnrollmentStore
  | [] => en
  | section_id :: rest =>
    EnrollmentStore.enrollAll (en.enroll student_id section_id (.ok generated)).2
      student_id generated rest

/-- The sections named by a list of path parameters dropped in turn. -/
def EnrollmentStore.dropAll (en : EnrollmentStore) (studentIDStr : String) :
    List String → EnrollmentStore
  | [] => en
  | sectionIDStr :: rest =>
    EnrollmentStore.dropAll (en.drop studentIDStr sectionIDStr).2 studentIDStr rest

/-- The status codes of the responses of a trace. -/
def statuses (tr : List Event) : List Nat :=
  (responses tr).map (fun r => r.status)

/-- The section ids of the schedule items a trace responded with. -/
def scheduleSections (tr : List Event) : List Int :=
  (responses tr).flatMap (fun r =>
    match r.payload with
    | .schedule xs => (xs.getD []).map (fun item => item.SectionID)
    | _ => [])

/-- The sections a student is enrolled in, in the order of the table. -/
def EnrollmentStore.sectionsOf (en : EnrollmentStore) (student_id : Int) : List Int :=
  (en.pairs.filter (fun p => p.1 = student_id)).map (fun p => p.2)

/-! ## The routes of main.go -/

/-- One invocation of a handler registered in main.go: the request data the
handler reads, and what the store (and, for the download, the PDF library)
answers to its calls. -/
inductive Call where
  | GetStudents (Query : Except StoreError (Rows Student))
  | GetStudentByID (idStr : String) (QueryRow : Int → Except StoreError StudentRow)
  | GetStudentSchedule (idStr : String) (Query : Int → Except StoreError (Rows ScheduleItem))
  | CreateStudent (body : Option CreateStudentRequest) (QueryRow : Except StoreError StudentRow)
  | DownloadStudentSchedule (idStr : String)
      (QueryRow : Int → Except StoreError StudentInfoRow)
      (Query : Int → Except StoreError (Rows ScheduleItem))
      (Output : String → List (List String) → Except String (List Nat))
  | DropSection (studentIDStr sectionIDStr : String) (Exec : Int → Int → Except StoreError Int)
  | GetTeachers (Query : Except StoreError (Rows Teacher))
  | CreateTeacher (body : Option Teacher) (QueryRow : Except StoreError (Int × Time × Time))
  | GetSubjects (Query : Except StoreError (Rows Subject))
  | CreateSubject (body : Option Subject) (QueryRow : Except StoreError (Int × Time × Time))
  | GetClassrooms (Query : Except StoreError (Rows Classroom))
  | CreateClassroom (body : Option Classroom) (QueryRow : Except StoreError (Int × Time × Time))
  | GetSections (Query : Except StoreError (Rows Section))
  | CreateSection (body : Option CreateSectionRequest) (db : SectionDB) (st : Store)
  | EnrollStudent (body : Option EnrollmentRequest) (QueryRow : Except StoreError (Int × Time))

/-- The trace of the handler a call runs. -/
def Call.trace : Call → List Event
  | .GetStudents Query => University.GetStudents Query
  | .GetStudentByID idStr QueryRow => University.GetStudentByID idStr QueryRow
  | .GetStudentSchedule idStr Query => University.GetStudentSchedule idStr Query
  | .CreateStudent body QueryRow => University.CreateStudent body QueryRow
  | .DownloadStudentSchedule idStr QueryRow Query Output =>
    University.DownloadStudentSchedule idStr QueryRow Query Output
  | .DropSection studentIDStr sectionIDStr Exec =>
    University.DropSection studentIDStr sectionIDStr Exec
  | .GetTeachers Query => University.GetTeachers Query
  | .CreateTeacher body QueryRow => University.CreateTeacher body QueryRow
  | .GetSubjects Query => University.GetSubjects Query
  | .CreateSubject body QueryRow => University.CreateSubject body QueryRow
  | .GetClassrooms Query => University.GetClassrooms Query
  | .CreateClassroom body QueryRow => University.CreateClassroom body QueryRow
  | .GetSections Query => University.GetSections Query
  | .CreateSection body db st => (University.CreateSection body db st).1
  | .EnrollStudent body QueryRow => University.EnrollStudent body QueryRow

/-- A response is either a success (200 or 201) or built by `SendError` with
status 400, 404, 409 or 500. -/
def Response.wellFormed (r : Response) : Prop :=
  (r.status = 200 ∨ r.status = 201) ∨
  ∃ status message, r = SendError status message ∧
    (status = 400 ∨ status = 404 ∨ status = 409 ∨ status = 500)

/-- Every statement of the list that is not a day insert occurs in it once. -/
def issuedOnce (qs : List Stmt) : Prop :=
  ∀ q, q ∈ qs → q.isDayInsert = false → qs.count q = 1

/-! ## Sample inputs -/

/-- The error `pgx.ErrNoRows`. -/
def errNoRows : StoreError :=
  { Error := "no rows in result set", As := none, IsErrNoRows := true }

/-- A connection lost while rows were being read. -/
def connectionLost : StoreError :=
  { Error := "unexpected EOF", As := none }

/-- A subject as decoded from a request body whose code is already in use. -/
def duplicateSubjectReq : Subject :=
  { Code := "CHEM101", Name := "General Chemistry 1", Description := "", ID := 0,
    CreatedAt := Time.zero, UpdatedAt := Time.zero }

/-- The uniqueness violation the store reports for a reused subject code. -/
def subjectDuplicate : StoreError :=
  { Error := "ERROR: duplicate key value violates unique constraint (SQLSTATE 23505)"
    As := some { Code := "23505"
                 Message := "duplicate key value violates unique constraint"
                 ConstraintName := "subjects_code_key" } }

/-- A stored student. -/
def sampleStudent : Student :=
  { ID := 1, StudentID := "2024001", FirstName := "Test", LastName := "Student",
    Email := "test.student@university.edu", CreatedAt := ⟨1000⟩, UpdatedAt := ⟨1000⟩ }

/-- The row of `sampleStudent`. -/
def sampleStudentRow : StudentRow :=
  { id := 1, student_id := "2024001", first_name := "Test", last_name := "Student",
    email := "test.student@university.edu", created_at := ⟨1000⟩, updated_at := ⟨1000⟩ }

/-- A store whose state is its table of students: it finds a student by id or
reports no rows, lists the students, and has nothing else; a student insert
adds a row and reads change nothing. -/
def studentsStore : StoreModel (List StudentRow) where
  answers := fun st =>
    { Students := .ok { scans := st.map (fun row => .ok (scanStudent row)), Err := none }
      StudentByID := fun id =>
        match st.find? (fun row => row.id == id) with
        | some row => .ok row
        | none => .error errNoRows
      StudentSchedule := fun _ => .ok { scans := [], Err := none }
      Teachers := .ok { scans := [], Err := none }
      Subjects := .ok { scans := [], Err := none }
      Classrooms := .ok { scans := [], Err := none }
      Sections := .ok { scans := [], Err := none } }
  exec := fun q st =>
    match q with
    | .InsertStudent student_id first_name last_name email =>
      st ++ [{ id := st.length + 1, student_id := student_id, first_name := first_name,
               last_name := last_name, email := email, created_at := ⟨0⟩, updated_at := ⟨0⟩ }]
    | _ => st


/-- The request of the integration test `CreateSections`. -/
def sampleSectionReq : CreateSectionRequest :=
  { SubjectID := 1, TeacherID := 1, ClassroomID := 1, SectionCode := "001",
    StartTime := "08:00:00", DurationMinutes := 50, MaxEnrollment := 30,
    Days := ["monday", "wednesday", "friday"] }

/-- The row the store returns for `sampleSectionReq`. -/
def sampleSectionRow : SectionRow :=
  { id := 7, subject_id := 1, teacher_id := 1, classroom_id := 1, section_code := "001",
    start_time := "08:00:00", duration_minutes := 50, max_enrollment := 30,
    current_enrollment := 0, created_at := ⟨1000⟩, updated_at := ⟨1000⟩ }

/-- A store in which every call succeeds. -/
def sampleDB : SectionDB :=
  { Begin := none, QueryRow := .ok sampleSectionRow, Exec := fun _ => none, Commit := none }

/-- A store with empty tables and no open transaction. -/
def emptyStore : Store :=
  { committed := { sections := [], section_days := [] }, tx := none }

/-- A store error that is a uniqueness violation on the section key. -/
def sectionDuplicate : StoreError :=
  { Error := "ERROR: duplicate key value violates unique constraint (SQLSTATE 23505)"
    As := some { Code := "23505"
                 Message := "duplicate key value violates unique constraint"
                 ConstraintName := "sections_subject_id_section_code_key" } }

/-- A store that opens the transaction and refuses the section insert as a
duplicate. -/
def duplicateDB : SectionDB :=
  { Begin := none, QueryRow := .error sectionDuplicate, Exec := fun _ => none, Commit := none }

/-- The error the capacity trigger raises on an enrollment insert. -/
def sectionFull : StoreError :=
  { Error := "ERROR: Section is full. Cannot enroll. (SQLSTATE P0001)"
    As := some { Code := "P0001"
                 Message := "Section is full. Cannot enroll."
                 ConstraintName := "" } }

/-- The request of the integration test `InvalidSectionDuration`. -/
def invalidDurationReq : CreateSectionRequest :=
  { sampleSectionReq with SectionCode := "invalid002", DurationMinutes := 45 }

/-- The request of the integration test `InvalidSectionDays`. -/
def invalidDaysReq : CreateSectionRequest :=
  { sampleSectionReq with SectionCode := "invalid001", Days := ["saturday"] }

/-- A request with no day at all. -/
def noDaysReq : CreateSectionRequest :=
  { sampleSectionReq with Days := [] }

/-- The request of the integration test `MissingRequiredFields`. -/
def missingStudentIDReq : CreateStudentRequest :=
  { StudentID := "", FirstName := "Missing", LastName := "Fields",
    Email := "missing.fields@university.edu" }

/-- The second request of the integration test `DuplicateStudentID`. -/
def duplicateStudentReq : CreateStudentRequest :=
  { StudentID := "dup_test_001", FirstName := "Another", LastName := "Student",
    Email := "another.student@university.edu" }

/-- The uniqueness violation the store reports for a reused `student_id`. -/
def studentIDDuplicate : StoreError :=
  { Error := "ERROR: duplicate key value violates unique constraint (SQLSTATE 23505)"
    As := some { Code := "23505"
                 Message := "duplicate key value violates unique constraint"
                 ConstraintName := "students_student_id_key" } }

/-- The second request of the integration test `DuplicateClassroom`. -/
def duplicateClassroomReq : Classroom :=
  { Building := "Test Building", RoomNumber := "101", Capacity := 40, ID := 0,
    CreatedAt := Time.zero, UpdatedAt := Time.zero }

/-- The uniqueness violation the store reports for a reused building and room. -/
def classroomDuplicate : StoreError :=
  { Error := "ERROR: duplicate key value violates unique constraint (SQLSTATE 23505)"
    As := some { Code := "23505"
                 Message := "duplicate key value violates unique constraint"
                 ConstraintName := "classrooms_building_room_number_key" } }

/-- A teacher as decoded from a request body. -/
def sampleTeacher : Teacher :=
  { FirstName := "Ada", LastName := "Lovelace", Email := "ada.lovelace@university.edu",
    ID := 0, CreatedAt := Time.zero, UpdatedAt := Time.zero }

/-- A request that is valid except that its start time is no time of day. -/
def noonReq : CreateSectionRequest :=
  { sampleSectionReq with StartTime := "noon" }

/-- A request that names monday twice. -/
def mondayTwiceReq : CreateSectionRequest :=
  { sampleSectionReq with Days := ["monday", "monday"] }

/-- A request with six valid day names. -/
def sixDaysReq : CreateSectionRequest :=
  { sampleSectionReq with
    Days := ["monday", "tuesday", "wednesday", "thursday", "friday", "monday"] }

/-- The student the download handler looks up. -/
def sampleStudentInfo : StudentInfoRow :=
  { id := 1, student_id := "2024001", first_name := "Test", last_name := "Student",
    email := "test.student@university.edu" }

/-- A duplicate enrollment: uniqueness code 23505, with a message of its own. -/
def enrollmentDuplicate : StoreError :=
  { Error := "ERROR: duplicate key value violates unique constraint (SQLSTATE 23505)"
    As := some { Code := "23505"
                 Message := "duplicate key value violates unique constraint"
                 ConstraintName := "enrollments_student_id_section_id_key" } }

/-- A store error carrying the given message under code P0001. -/
def raised (message : String) : StoreError :=
  { Error := "ERROR: " ++ message ++ " (SQLSTATE P0001)"
    As := some { Code := "P0001", Message := message, ConstraintName := "" } }

/-- An error that is no store error, whose text is the given one. -/
def plainError (text : String) : StoreError :=
  { Error := text, As := none }


/-- A store that accepts the section and the first day and fails on the second
day insert. -/
def secondDayFailsDB : SectionDB :=
  { Begin := none, QueryRow := .ok sampleSectionRow,
    Exec := fun k => if k = 1 then some connectionLost else none, Commit := none }

/-- The joined columns of a section, for the schedule view. -/
def sampleView (section_id : Int) : ScheduleItem :=
  { SubjectCode := "CHEM101", SubjectName := "General Chemistry 1", SectionCode := "001",
    TeacherFirstName := "Sarah", TeacherLastName := "Johnson", Building := "Science Building",
    RoomNumber := "101", StartTime := "08:00:00", EndTime := "08:50:00",
    Days := ["monday", "wednesday", "friday"], SectionID := section_id, DurationMinutes := 50 }

/-- A store without enrollments. -/
def noEnrollments : EnrollmentStore :=
  { pairs := [] }

/-! ## Traces -/

@[simp] theorem responses_nil : responses [] = [] := rfl

@[simp] theorem responses_respond (r : Response) (es : List Event) :
    responses (.respond r :: es) = r :: responses es := rfl

@[simp] theorem responses_db (s : Stmt) (es : List Event) :
    responses (.db s :: es) = responses es := rfl

@[simp] theorem stmts_nil : stmts [] = [] := rfl

@[simp] theorem stmts_respond (r : Response) (es : List Event) :
    stmts (.respond r :: es) = stmts es := rfl

@[simp] theorem stmts_db (s : Stmt) (es : List Event) :
    stmts (.db s :: es) = s :: stmts es := rfl

@[simp] theorem responses_append (xs ys : List Event) :
    responses (xs ++ ys) = responses xs ++ responses ys := by
  induction xs with
  | nil => rfl
  | cons e es ih => cases e <;> simp [ih]

@[simp] theorem stmts_append (xs ys : List Event) :
    stmts (xs ++ ys) = stmts xs ++ stmts ys := by
  induction xs with
  | nil => rfl
  | cons e es ih => cases e <;> simp [ih]

/-! ## The day loop -/

/-- The day loop writes no response and never touches the committed tables. -/
theorem insertDays_quiet (db : SectionDB) (sectionID : Int) :
    ∀ (days : List String) (i : Nat) (st : Store),
      responses (insertDays db sectionID days i st).1 = [] ∧
      (insertDays db sectionID days i st).2.1.committed = st.committed := by
  intro days
  induction days with
  | nil => intro i st; simp [insertDays]
  | cons day rest ih =>
    intro i st
    unfold insertDays
    cases h : db.Exec i with
    | some err => simp
    | none =>
      have := ih (i + 1) (st.InsertSectionDay ⟨sectionID, day⟩)
      simpa [Store.InsertSectionDay] using this

/-- A day loop that ends without error made every insert succeed, issued one
insert per day in order, and added one row per day to the working copy. -/
theorem insertDays_ok (db : SectionDB) (sectionID : Int) :
    ∀ (days : List String) (i : Nat) (st : Store),
      (insertDays db sectionID days i st).2.2 = none →
      (∀ k, k < days.length → db.Exec (i + k) = none) ∧
      stmts (insertDays db sectionID days i st).1 =
        days.map (fun day => Stmt.InsertSectionDay sectionID day) ∧
      (insertDays db sectionID days i st).2.1.tx =
        st.tx.map (fun t =>
          { t with section_days :=
              t.section_days ++ days.map (fun day => (⟨sectionID, day⟩ : SectionDayRow)) }) := by
  intro days
  induction days with
  | nil =>
    intro i st _
    refine ⟨by simp, by simp [insertDays], ?_⟩
    cases h : st.tx <;> simp [insertDays, h]
  | cons day rest ih =>
    intro i st hnone
    unfold insertDays at hnone ⊢
    cases h : db.Exec i with
    | some err => simp [h] at hnone
    | none =>
      simp only [h] at hnone ⊢
      obtain ⟨hk, hs, ht⟩ := ih (i + 1) (st.InsertSectionDay ⟨sectionID, day⟩) hnone
      refine ⟨?_, ?_, ?_⟩
      · intro k hklt
        cases k with
        | zero => simpa using h
        | succ k =>
          have := hk k (by simpa using hklt)
          simpa [Nat.add_assoc, Nat.add_comm 1 k] using this
      · simp [hs]
      · rw [ht]
        cases htx : st.tx <;> simp [Store.InsertSectionDay, htx]

/-- A day loop that ends with an error stopped at the first insert the store
refused, and reports that insert's error. -/
theorem insertDays_error (db : SectionDB) (sectionID : Int) :
    ∀ (days : List String) (i : Nat) (st : Store) (err : StoreError),
      (insertDays db sectionID days i st).2.2 = some err →
      ∃ k, k < days.length ∧ db.Exec (i + k) = some err ∧
        ∀ j, j < k → db.Exec (i + j) = none := by
  intro days
  induction days with
  | nil => intro i st err h; simp [insertDays] at h
  | cons day rest ih =>
    intro i st err herr
    unfold insertDays at herr
    cases h : db.Exec i with
    | some e =>
      simp only [h] at herr
      exact ⟨0, by simp, by simpa [h] using herr, by intro j hj; omega⟩
    | none =>
      simp only [h] at herr
      obtain ⟨k, hk, hex, hmin⟩ := ih (i + 1) _ err herr
      refine ⟨k + 1, by simpa using hk, by simpa [Nat.add_assoc, Nat.add_comm 1 k] using hex, ?_⟩
      intro j hj
      cases j with
      | zero => simpa using h
      | succ j =>
        have := hmin j (by omega)
        simpa [Nat.add_assoc, Nat.add_comm 1 j] using this

/-- The day loop fails as soon as the store refuses one of the inserts. -/
theorem insertDays_fails (db : SectionDB) (sectionID : Int) (days : List String) (i : Nat)
    (st : Store) (k : Nat) (e : StoreError) (hk : k < days.length)
    (hexec : db.Exec (i + k) = some e) :
    ∃ err, (insertDays db sectionID days i st).2.2 = some err := by
  cases h : (insertDays db sectionID days i st).2.2 with
  | some err => exact ⟨err, rfl⟩
  | none =>
    have := (insertDays_ok db sectionID days i st h).1 k hk
    rw [hexec] at this
    exact absurd this (by simp)

/-- The day loop ends without error when the store accepts every insert. -/
theorem insertDays_succeeds (db : SectionDB) (sectionID : Int) (days : List String) (i : Nat)
    (st : Store) (hexec : ∀ k, k < days.length → db.Exec (i + k) = none) :
    (insertDays db sectionID days i st).2.2 = none := by
  cases h : (insertDays db sectionID days i st).2.2 with
  | none => rfl
  | some err =>
    obtain ⟨k, hk, hex, _⟩ := insertDays_error db sectionID days i st err h
    rw [hexec k hk] at hex
    exact absurd hex (by simp)

/-! ## Validation of a section request -/

/-- The lookup in `validDays` accepts exactly the five lowercase weekday names. -/
theorem validDays_iff (day : String) :
    validDays day = true ↔
      day = "monday" ∨ day = "tuesday" ∨ day = "wednesday" ∨ day = "thursday" ∨
        day = "friday" := by
  unfold validDays validDaysMap
  by_cases h1 : day = "monday"
  · subst h1; decide
  by_cases h2 : day = "tuesday"
  · subst h2; decide
  by_cases h3 : day = "wednesday"
  · subst h3; decide
  by_cases h4 : day = "thursday"
  · subst h4; decide
  by_cases h5 : day = "friday"
  · subst h5; decide
  have e1 : (day == "monday") = false := by simpa using h1
  have e2 : (day == "tuesday") = false := by simpa using h2
  have e3 : (day == "wednesday") = false := by simpa using h3
  have e4 : (day == "thursday") = false := by simpa using h4
  have e5 : (day == "friday") = false := by simpa using h5
  simp [List.lookup, h1, h2, h3, h4, h5, e1, e2, e3, e4, e5]

/-- A request that validation rejects gets one 400 response carrying the
message of the failed check; the store is neither called nor changed. -/
theorem CreateSection_rejected (sectionReq : CreateSectionRequest) (db : SectionDB) (st : Store)
    (message : String) (h : validateSection sectionReq = some message) :
    CreateSection (some sectionReq) db st =
      ([.respond (SendError StatusBadRequest message)], st) := by
  simp [CreateSection, h]

/-- Validation rejects a request if any of its three checks fires. -/
theorem validateSection_rejects (sectionReq : CreateSectionRequest)
    (h : (sectionReq.SubjectID ≤ 0 ∨ sectionReq.TeacherID ≤ 0 ∨ sectionReq.ClassroomID ≤ 0 ∨
        sectionReq.SectionCode = "" ∨ sectionReq.StartTime = "" ∨
        sectionReq.DurationMinutes ≤ 0 ∨ sectionReq.MaxEnrollment ≤ 0 ∨
        sectionReq.Days.length = 0) ∨
      (sectionReq.DurationMinutes ≠ 50 ∧ sectionReq.DurationMinutes ≠ 80) ∨
      (∃ day, day ∈ sectionReq.Days ∧ validDays day = false)) :
    ∃ message, validateSection sectionReq = some message := by
  unfold validateSection
  split
  · exact ⟨_, rfl⟩
  · split
    · exact ⟨_, rfl⟩
    · split
      · exact ⟨_, rfl⟩
      · rename_i h1 h2 h3
        rcases h with h | h | ⟨day, hmem, hday⟩
        · exact absurd h h1
        · exact absurd h h2
        · exact absurd (List.any_eq_true.mpr ⟨day, hmem, by simp [hday]⟩) h3

/-! ## Section creation -/

/-- No response to a failed section insert has status 201. -/
theorem sectionInsertError_status (err : StoreError) :
    (sectionInsertError err).status = StatusConflict ∨
    (sectionInsertError err).status = StatusBadRequest ∨
    (sectionInsertError err).status = StatusInternalServerError := by
  unfold sectionInsertError
  cases err.As with
  | none => simp [SendError]
  | some pgErr =>
    by_cases h1 : pgErr.Code = "23505"
    · simp [h1, SendError]
    · by_cases h2 : pgErr.Code = "23514" <;> simp [h1, h2, SendError]

/-- C1: `CreateSection` is all-or-nothing.  For a request that passes validation,
either every store step succeeded, the single response is 201 and the committed
tables are the old ones plus the new section row and one `section_days` row per
requested day carrying the new section id; or some step (begin, section insert,
a day insert, commit) failed, the single response is not 201 and the committed
tables are what they were before the request. -/
theorem CreateSection_all_or_nothing (sectionReq : CreateSectionRequest) (db : SectionDB)
    (st : Store) (hvalid : validateSection sectionReq = none) :
    (∃ row,
      db.Begin = none ∧ db.QueryRow = .ok row ∧
      (∀ k, k < sectionReq.Days.length → db.Exec k = none) ∧ db.Commit = none ∧
      responses (CreateSection (some sectionReq) db st).1 =
        [SendJSON StatusCreated (.section { scanSection row with Days := sectionReq.Days })] ∧
      (CreateSection (some sectionReq) db st).2.committed =
        { sections := st.committed.sections ++ [row]
          section_days := st.committed.section_days ++
            sectionReq.Days.map (fun day => (⟨row.id, day⟩ : SectionDayRow)) })
    ∨
    ((db.Begin ≠ none ∨ (∃ err, db.QueryRow = .error err) ∨
        (∃ k, k < sectionReq.Days.length ∧ db.Exec k ≠ none) ∨ db.Commit ≠ none) ∧
      (∃ r, responses (CreateSection (some sectionReq) db st).1 = [r] ∧
        r.status ≠ StatusCreated) ∧
      (CreateSection (some sectionReq) db st).2.committed = st.committed) := by
  unfold CreateSection
  simp only [hvalid]
  cases hb : db.Begin with
  | some e =>
    right
    exact ⟨Or.inl (by simp),
      ⟨SendError StatusInternalServerError "Failed to begin transaction", by simp, by decide⟩, rfl⟩
  | none =>
    simp only [createSectionTx]
    cases hq : db.QueryRow with
    | error err =>
      right
      refine ⟨Or.inr (Or.inl ⟨err, rfl⟩), ⟨sectionInsertError err, by simp, ?_⟩, ?_⟩
      · rcases sectionInsertError_status err with h | h | h <;> rw [h] <;> decide
      · simp [Store.Rollback, Store.Begin]
    | ok row =>
      simp only []
      have hquiet := insertDays_quiet db (scanSection row).ID sectionReq.Days 0
        (st.Begin.InsertSection row)
      cases hl : (insertDays db (scanSection row).ID sectionReq.Days 0
          (st.Begin.InsertSection row)).2.2 with
      | some err =>
        right
        obtain ⟨k, hk, hex, _⟩ := insertDays_error db _ _ _ _ err hl
        refine ⟨Or.inr (Or.inr (Or.inl ⟨k, hk, ?_⟩)),
          ⟨SendError StatusInternalServerError ("Failed to add section day: " ++ err.Error),
            ?_, ?_⟩, ?_⟩
        · simp at hex; simp [hex]
        · simp [hquiet.1]
        · simp [SendError, StatusInternalServerError, StatusCreated]
        · simpa [Store.Rollback, Store.InsertSection, Store.Begin] using hquiet.2
      | none =>
        obtain ⟨hk, _, htx⟩ := insertDays_ok db _ _ _ _ hl
        cases hc : db.Commit with
        | some e =>
          right
          refine ⟨Or.inr (Or.inr (Or.inr (by simp))),
            ⟨SendError StatusInternalServerError "Failed to commit transaction", ?_, ?_⟩, ?_⟩
          · simp [hquiet.1]
          · decide
          · simpa [Store.Rollback, Store.InsertSection, Store.Begin] using hquiet.2
        | none =>
          left
          refine ⟨row, by simp, by simp, ?_, by simp, ?_, ?_⟩
          · intro k hklt
            simpa using hk k hklt
          · simp [hquiet.1]
          · simp only [Store.Rollback, Store.Commit, htx]
            simp [Store.InsertSection, Store.Begin, scanSection]

/-- C1 at the request of the integration test, every store step succeeding. -/
theorem CreateSection_all_or_nothing_witness :
    validateSection sampleSectionReq = none ∧
    ((∃ row,
      sampleDB.Begin = none ∧ sampleDB.QueryRow = .ok row ∧
      (∀ k, k < sampleSectionReq.Days.length → sampleDB.Exec k = none) ∧
      sampleDB.Commit = none ∧
      responses (CreateSection (some sampleSectionReq) sampleDB emptyStore).1 =
        [SendJSON StatusCreated
          (.section { scanSection row with Days := sampleSectionReq.Days })] ∧
      (CreateSection (some sampleSectionReq) sampleDB emptyStore).2.committed =
        { sections := emptyStore.committed.sections ++ [row]
          section_days := emptyStore.committed.section_days ++
            sampleSectionReq.Days.map (fun day => (⟨row.id, day⟩ : SectionDayRow)) })
    ∨
    ((sampleDB.Begin ≠ none ∨ (∃ err, sampleDB.QueryRow = .error err) ∨
        (∃ k, k < sampleSectionReq.Days.length ∧ sampleDB.Exec k ≠ none) ∨
        sampleDB.Commit ≠ none) ∧
      (∃ r, responses (CreateSection (some sampleSectionReq) sampleDB emptyStore).1 = [r] ∧
        r.status ≠ StatusCreated) ∧
      (CreateSection (some sampleSectionReq) sampleDB emptyStore).2.committed =
        emptyStore.committed)) :=
  ⟨by decide, CreateSection_all_or_nothing sampleSectionReq sampleDB emptyStore (by decide)⟩

/-- C2: the status `CreateSection` gives to each store failure, for a request
that passes validation: begin fails, 500; the section insert fails with code
23505, 409; with code 23514, 400; with another code, 500 with the store message
appended; with an error that is no store error, 500 with the error text
appended; a day insert fails, 500 with the error text appended; commit fails,
500.  In each case that is the only response, and it is not 201. -/
theorem CreateSection_status_mapping (sectionReq : CreateSectionRequest) (db : SectionDB)
    (st : Store) (hvalid : validateSection sectionReq = none) :
    (∀ e, db.Begin = some e →
      responses (CreateSection (some sectionReq) db st).1 =
        [SendError StatusInternalServerError "Failed to begin transaction"]) ∧
    (∀ err, db.Begin = none → db.QueryRow = .error err →
      (∀ pgErr, err.As = some pgErr → pgErr.Code = "23505" →
        responses (CreateSection (some sectionReq) db st).1 =
          [SendError StatusConflict
            "A section with this subject and section code already exists"]) ∧
      (∀ pgErr, err.As = some pgErr → pgErr.Code = "23514" →
        responses (CreateSection (some sectionReq) db st).1 =
          [SendError StatusBadRequest
            "Section details violate constraints. Check time limits and duration."]) ∧
      (∀ pgErr, err.As = some pgErr → pgErr.Code ≠ "23505" → pgErr.Code ≠ "23514" →
        responses (CreateSection (some sectionReq) db st).1 =
          [SendError StatusInternalServerError ("Database error: " ++ pgErr.Message)]) ∧
      (err.As = none →
        responses (CreateSection (some sectionReq) db st).1 =
          [SendError StatusInternalServerError ("Failed to create section: " ++ err.Error)])) ∧
    (∀ row k e, db.Begin = none → db.QueryRow = .ok row →
      k < sectionReq.Days.length → db.Exec k = some e →
      ∃ j err, j ≤ k ∧ db.Exec j = some err ∧
        responses (CreateSection (some sectionReq) db st).1 =
          [SendError StatusInternalServerError ("Failed to add section day: " ++ err.Error)]) ∧
    (∀ row e, db.Begin = none → db.QueryRow = .ok row →
      (∀ k, k < sectionReq.Days.length → db.Exec k = none) → db.Commit = some e →
      responses (CreateSection (some sectionReq) db st).1 =
        [SendError StatusInternalServerError "Failed to commit transaction"]) ∧
    ((db.Begin ≠ none ∨ (∃ err, db.QueryRow = .error err) ∨
        (∃ k, k < sectionReq.Days.length ∧ db.Exec k ≠ none) ∨ db.Commit ≠ none) →
      ∃ r, responses (CreateSection (some sectionReq) db st).1 = [r] ∧
        (r.status = StatusInternalServerError ∨ r.status = StatusConflict ∨
          r.status = StatusBadRequest) ∧ r.status ≠ StatusCreated) := by
  have hbegin : ∀ e, db.Begin = some e →
      responses (CreateSection (some sectionReq) db st).1 =
        [SendError StatusInternalServerError "Failed to begin transaction"] := by
    intro e hb
    simp [CreateSection, hvalid, hb]
  have hinsert : ∀ err, db.Begin = none → db.QueryRow = .error err →
      responses (CreateSection (some sectionReq) db st).1 = [sectionInsertError err] := by
    intro err hb hq
    simp [CreateSection, hvalid, hb, createSectionTx, hq]
  have hday : ∀ row err, db.Begin = none → db.QueryRow = .ok row →
      (insertDays db (scanSection row).ID sectionReq.Days 0
        (st.Begin.InsertSection row)).2.2 = some err →
      responses (CreateSection (some sectionReq) db st).1 =
        [SendError StatusInternalServerError ("Failed to add section day: " ++ err.Error)] := by
    intro row err hb hq hl
    have hquiet := (insertDays_quiet db (scanSection row).ID sectionReq.Days 0
      (st.Begin.InsertSection row)).1
    simp [CreateSection, hvalid, hb, createSectionTx, hq, hl, hquiet]
  have hcommit : ∀ row e, db.Begin = none → db.QueryRow = .ok row →
      (insertDays db (scanSection row).ID sectionReq.Days 0
        (st.Begin.InsertSection row)).2.2 = none → db.Commit = some e →
      responses (CreateSection (some sectionReq) db st).1 =
        [SendError StatusInternalServerError "Failed to commit transaction"] := by
    intro row e hb hq hl hc
    have hquiet := (insertDays_quiet db (scanSection row).ID sectionReq.Days 0
      (st.Begin.InsertSection row)).1
    simp [CreateSection, hvalid, hb, createSectionTx, hq, hl, hc, hquiet]
  refine ⟨hbegin, ?_, ?_, ?_, ?_⟩
  · intro err hb hq
    rw [hinsert err hb hq]
    refine ⟨?_, ?_, ?_, ?_⟩
    · intro pgErr has hcode
      simp [sectionInsertError, has, hcode]
    · intro pgErr has hcode
      simp [sectionInsertError, has, hcode]
    · intro pgErr has h1 h2
      simp [sectionInsertError, has, h1, h2]
    · intro has
      simp [sectionInsertError, has]
  · intro row k e hb hq hk hex
    obtain ⟨err, herr⟩ := insertDays_fails db (scanSection row).ID sectionReq.Days 0
      (st.Begin.InsertSection row) k e hk (by simpa using hex)
    obtain ⟨j, _, hexj, hmin⟩ := insertDays_error db _ _ _ _ err herr
    have hjk : j ≤ k := by
      by_contra hlt
      have := hmin k (by omega)
      simp [hex] at this
    exact ⟨j, err, hjk, by simpa using hexj, hday row err hb hq herr⟩
  · intro row e hb hq hall hc
    exact hcommit row e hb hq
      (insertDays_succeeds db _ _ _ _ (by intro k hk; simpa using hall k hk)) hc
  · intro hfail
    cases hb : db.Begin with
    | some e =>
      exact ⟨_, hbegin e hb, Or.inl rfl, by decide⟩
    | none =>
      cases hq : db.QueryRow with
      | error err =>
        refine ⟨_, hinsert err hb hq, ?_, ?_⟩
        · rcases sectionInsertError_status err with h | h | h
          · exact Or.inr (Or.inl h)
          · exact Or.inr (Or.inr h)
          · exact Or.inl h
        · rcases sectionInsertError_status err with h | h | h <;> rw [h] <;> decide
      | ok row =>
        cases hl : (insertDays db (scanSection row).ID sectionReq.Days 0
            (st.Begin.InsertSection row)).2.2 with
        | some err =>
          exact ⟨_, hday row err hb hq hl, Or.inl rfl, by
            simp [SendError, StatusInternalServerError, StatusCreated]⟩
        | none =>
          cases hc : db.Commit with
          | some e => exact ⟨_, hcommit row e hb hq hl hc, Or.inl rfl, by decide⟩
          | none =>
            exfalso
            rcases hfail with h | ⟨err, h⟩ | ⟨k, hk, h⟩ | h
            · exact h hb
            · rw [hq] at h; cases h
            · have := (insertDays_ok db _ _ _ _ hl).1 k hk
              exact h (by simpa using this)
            · exact h hc

/-- C2 at a duplicate section: the insert is refused with code 23505 and the
response is 409. -/
theorem CreateSection_status_mapping_witness :
    validateSection sampleSectionReq = none ∧
    responses (CreateSection (some sampleSectionReq) duplicateDB emptyStore).1 =
      [SendError StatusConflict "A section with this subject and section code already exists"] :=
  ⟨by decide,
    ((CreateSection_status_mapping sampleSectionReq duplicateDB emptyStore (by decide)).2.1
      sectionDuplicate rfl rfl).1 _ rfl rfl⟩

/-- C4: a request whose `duration_minutes` is neither 50 nor 80 gets one 400
response, whatever its other fields; no call reaches the store and the store
is unchanged. -/
theorem CreateSection_rejects_duration (sectionReq : CreateSectionRequest) (db : SectionDB)
    (st : Store) (h50 : sectionReq.DurationMinutes ≠ 50) (h80 : sectionReq.DurationMinutes ≠ 80) :
    (∃ r, responses (CreateSection (some sectionReq) db st).1 = [r] ∧
      r.status = StatusBadRequest) ∧
    stmts (CreateSection (some sectionReq) db st).1 = [] ∧
    (CreateSection (some sectionReq) db st).2 = st := by
  obtain ⟨message, hmsg⟩ := validateSection_rejects sectionReq (Or.inr (Or.inl ⟨h50, h80⟩))
  rw [CreateSection_rejected sectionReq db st message hmsg]
  exact ⟨⟨_, rfl, rfl⟩, rfl, rfl⟩

/-- C4 at duration 45, the request of the integration test. -/
theorem CreateSection_rejects_duration_witness :
    (∃ r, responses (CreateSection (some invalidDurationReq) sampleDB emptyStore).1 = [r] ∧
      r.status = StatusBadRequest) ∧
    stmts (CreateSection (some invalidDurationReq) sampleDB emptyStore).1 = [] ∧
    (CreateSection (some invalidDurationReq) sampleDB emptyStore).2 = emptyStore :=
  CreateSection_rejects_duration invalidDurationReq sampleDB emptyStore (by decide) (by decide)

/-- C5: a request with a day that is not exactly one of the five lowercase
weekday names gets one 400 response, whatever its other fields; no call
reaches the store and the store is unchanged. -/
theorem CreateSection_rejects_day (sectionReq : CreateSectionRequest) (db : SectionDB)
    (st : Store) (day : String) (hmem : day ∈ sectionReq.Days)
    (hday : ¬(day = "monday" ∨ day = "tuesday" ∨ day = "wednesday" ∨ day = "thursday" ∨
      day = "friday")) :
    (∃ r, responses (CreateSection (some sectionReq) db st).1 = [r] ∧
      r.status = StatusBadRequest) ∧
    stmts (CreateSection (some sectionReq) db st).1 = [] ∧
    (CreateSection (some sectionReq) db st).2 = st := by
  have hfalse : validDays day = false := by
    cases hv : validDays day with
    | false => rfl
    | true => exact absurd ((validDays_iff day).mp hv) hday
  obtain ⟨message, hmsg⟩ :=
    validateSection_rejects sectionReq (Or.inr (Or.inr ⟨day, hmem, hfalse⟩))
  rw [CreateSection_rejected sectionReq db st message hmsg]
  exact ⟨⟨_, rfl, rfl⟩, rfl, rfl⟩

/-- C5 at the day "saturday", the request of the integration test. -/
theorem CreateSection_rejects_day_witness :
    (∃ r, responses (CreateSection (some invalidDaysReq) sampleDB emptyStore).1 = [r] ∧
      r.status = StatusBadRequest) ∧
    stmts (CreateSection (some invalidDaysReq) sampleDB emptyStore).1 = [] ∧
    (CreateSection (some invalidDaysReq) sampleDB emptyStore).2 = emptyStore :=
  CreateSection_rejects_day invalidDaysReq sampleDB emptyStore "saturday" (by decide) (by decide)

/-- C6: when the body fails to decode, or an id is not positive, or the section
code or start time is empty, or the day list is empty, the handler answers with
one 400 response, makes no call to the store (so opens no transaction) and
leaves the store unchanged. -/
theorem CreateSection_rejects_missing (body : Option CreateSectionRequest) (db : SectionDB)
    (st : Store)
    (h : body = none ∨ ∃ sectionReq, body = some sectionReq ∧
      (sectionReq.SubjectID ≤ 0 ∨ sectionReq.TeacherID ≤ 0 ∨ sectionReq.ClassroomID ≤ 0 ∨
        sectionReq.SectionCode = "" ∨ sectionReq.StartTime = "" ∨ sectionReq.Days = [])) :
    (∃ r, responses (CreateSection body db st).1 = [r] ∧ r.status = StatusBadRequest) ∧
    stmts (CreateSection body db st).1 = [] ∧
    (CreateSection body db st).2 = st := by
  rcases h with h | ⟨sectionReq, hbody, hfield⟩
  · subst h
    exact ⟨⟨_, rfl, rfl⟩, rfl, rfl⟩
  · subst hbody
    have hfirst : sectionReq.SubjectID ≤ 0 ∨ sectionReq.TeacherID ≤ 0 ∨
        sectionReq.ClassroomID ≤ 0 ∨ sectionReq.SectionCode = "" ∨ sectionReq.StartTime = "" ∨
        sectionReq.DurationMinutes ≤ 0 ∨ sectionReq.MaxEnrollment ≤ 0 ∨
        sectionReq.Days.length = 0 := by
      rcases hfield with h | h | h | h | h | h <;> simp [h]
    obtain ⟨message, hmsg⟩ := validateSection_rejects sectionReq (Or.inl hfirst)
    rw [CreateSection_rejected sectionReq db st message hmsg]
    exact ⟨⟨_, rfl, rfl⟩, rfl, rfl⟩

/-- C6 at a request with an empty day list. -/
theorem CreateSection_rejects_missing_witness :
    (∃ r, responses (CreateSection (some noDaysReq) sampleDB emptyStore).1 = [r] ∧
      r.status = StatusBadRequest) ∧
    stmts (CreateSection (some noDaysReq) sampleDB emptyStore).1 = [] ∧
    (CreateSection (some noDaysReq) sampleDB emptyStore).2 = emptyStore :=
  CreateSection_rejects_missing (some noDaysReq) sampleDB emptyStore
    (Or.inr ⟨noDaysReq, rfl, by decide⟩)

/-- C7: when a request passes validation and every store step succeeds, the
single response is 201 and carries a section whose `days` is the request's day
list itself, every other field being the column of the row the store returned;
the store is called only to begin, insert, commit and (deferred) roll back, so
the days are not read back. -/
theorem CreateSection_success_response (sectionReq : CreateSectionRequest) (db : SectionDB)
    (st : Store) (row : SectionRow) (hvalid : validateSection sectionReq = none)
    (hb : db.Begin = none) (hq : db.QueryRow = .ok row)
    (hexec : ∀ k, k < sectionReq.Days.length → db.Exec k = none) (hc : db.Commit = none) :
    responses (CreateSection (some sectionReq) db st).1 =
      [{ status := 201
         contentType := "application/json"
         payload := .section
          { ID := row.id
            SubjectID := row.subject_id
            TeacherID := row.teacher_id
            ClassroomID := row.classroom_id
            SectionCode := row.section_code
            StartTime := row.start_time
            DurationMinutes := row.duration_minutes
            MaxEnrollment := row.max_enrollment
            CurrentEnrollment := row.current_enrollment
            CreatedAt := row.created_at
            UpdatedAt := row.updated_at
            Days := sectionReq.Days } }] ∧
    stmts (CreateSection (some sectionReq) db st).1 =
      Stmt.Begin ::
        Stmt.InsertSection sectionReq.SubjectID sectionReq.TeacherID sectionReq.ClassroomID
          sectionReq.SectionCode sectionReq.StartTime sectionReq.DurationMinutes
          sectionReq.MaxEnrollment ::
        (sectionReq.Days.map (fun day => Stmt.InsertSectionDay row.id day) ++
          [Stmt.Commit, Stmt.Rollback]) := by
  have hl := insertDays_succeeds db (scanSection row).ID sectionReq.Days 0
    (st.Begin.InsertSection row) (by intro k hk; simpa using hexec k hk)
  have hquiet := (insertDays_quiet db (scanSection row).ID sectionReq.Days 0
    (st.Begin.InsertSection row)).1
  have hstmts := (insertDays_ok db (scanSection row).ID sectionReq.Days 0
    (st.Begin.InsertSection row) hl).2.1
  have hid : (scanSection row).ID = row.id := rfl
  rw [hid] at hl hquiet hstmts
  constructor
  · simp [CreateSection, hvalid, hb, createSectionTx, hq, hl, hc, hquiet, SendJSON,
      StatusCreated, scanSection]
  · simp [CreateSection, hvalid, hb, createSectionTx, hq, hl, hc, hstmts, scanSection]

/-- C7 at the request of the integration test `CreateSections`. -/
theorem CreateSection_success_response_witness :
    responses (CreateSection (some sampleSectionReq) sampleDB emptyStore).1 =
      [{ status := 201
         contentType := "application/json"
         payload := .section
          { ID := sampleSectionRow.id
            SubjectID := sampleSectionRow.subject_id
            TeacherID := sampleSectionRow.teacher_id
            ClassroomID := sampleSectionRow.classroom_id
            SectionCode := sampleSectionRow.section_code
            StartTime := sampleSectionRow.start_time
            DurationMinutes := sampleSectionRow.duration_minutes
            MaxEnrollment := sampleSectionRow.max_enrollment
            CurrentEnrollment := sampleSectionRow.current_enrollment
            CreatedAt := sampleSectionRow.created_at
            UpdatedAt := sampleSectionRow.updated_at
            Days := sampleSectionReq.Days } }] ∧
    stmts (CreateSection (some sampleSectionReq) sampleDB emptyStore).1 =
      Stmt.Begin ::
        Stmt.InsertSection sampleSectionReq.SubjectID sampleSectionReq.TeacherID
          sampleSectionReq.ClassroomID sampleSectionReq.SectionCode sampleSectionReq.StartTime
          sampleSectionReq.DurationMinutes sampleSectionReq.MaxEnrollment ::
        (sampleSectionReq.Days.map (fun day => Stmt.InsertSectionDay sampleSectionRow.id day) ++
          [Stmt.Commit, Stmt.Rollback]) :=
  CreateSection_success_response sampleSectionReq sampleDB emptyStore sampleSectionRow
    (by decide) rfl rfl (fun _ _ => rfl) rfl

/-! ## Enrollment -/

/-- C3: how `EnrollStudent` classifies a failed insert.  A store error whose
message is the schedule-conflict text gives 409 "Schedule conflict detected";
one whose message is the section-full text gives 409 "Section is full"; every
other error gives 500.  No failed insert is answered with 201. -/
theorem EnrollStudent_error_classification (enrollment : EnrollmentRequest) (err : StoreError) :
    (∀ pgErr, err.As = some pgErr →
      pgErr.Message = "Schedule conflict detected. Cannot enroll in this section." →
      responses (EnrollStudent (some enrollment) (.error err)) =
        [SendError StatusConflict "Schedule conflict detected"]) ∧
    (∀ pgErr, err.As = some pgErr → pgErr.Message = "Section is full. Cannot enroll." →
      responses (EnrollStudent (some enrollment) (.error err)) =
        [SendError StatusConflict "Section is full"]) ∧
    ((∀ pgErr, err.As = some pgErr →
        pgErr.Message ≠ "Schedule conflict detected. Cannot enroll in this section." ∧
        pgErr.Message ≠ "Section is full. Cannot enroll.") →
      responses (EnrollStudent (some enrollment) (.error err)) =
        [SendError StatusInternalServerError ("Failed to enroll student: " ++ err.Error)]) ∧
    (∀ r, r ∈ responses (EnrollStudent (some enrollment) (.error err)) →
      r.status ≠ StatusCreated) := by
  refine ⟨?_, ?_, ?_, ?_⟩
  · intro pgErr has hmsg
    simp [EnrollStudent, has, hmsg]
  · intro pgErr has hmsg
    simp [EnrollStudent, has, hmsg]
  · intro hother
    cases has : err.As with
    | none => simp [EnrollStudent, has]
    | some pgErr =>
      obtain ⟨h1, h2⟩ := hother pgErr has
      simp [EnrollStudent, has, h1, h2]
  · intro r hr
    cases has : err.As with
    | none =>
      simp [EnrollStudent, has] at hr
      subst hr
      simp [SendError, StatusInternalServerError, StatusCreated]
    | some pgErr =>
      by_cases h1 : pgErr.Message = "Schedule conflict detected. Cannot enroll in this section."
      · simp [EnrollStudent, has, h1] at hr
        subst hr
        decide
      · by_cases h2 : pgErr.Message = "Section is full. Cannot enroll."
        · simp [EnrollStudent, has, h2] at hr
          subst hr
          decide
        · simp [EnrollStudent, has, h1, h2] at hr
          subst hr
          simp [SendError, StatusInternalServerError, StatusCreated]

/-- C3 at the second student of the integration test `TestMaxEnrollment`: the
store raises the section-full message and the response is 409. -/
theorem EnrollStudent_error_classification_witness :
    responses (EnrollStudent (some { StudentID := 2, SectionID := 7 }) (.error sectionFull)) =
      [SendError StatusConflict "Section is full"] :=
  (EnrollStudent_error_classification { StudentID := 2, SectionID := 7 } sectionFull).2.1
    _ rfl rfl

/-! ## The single-insert create handlers -/

/-- Handler `CreateStudent` on a body that decodes with every field filled in issues
exactly the student insert. -/
theorem CreateStudent_valid_stmts (studentReq : CreateStudentRequest)
    (QueryRow : Except StoreError StudentRow)
    (h : ¬(studentReq.StudentID = "" ∨ studentReq.FirstName = "" ∨ studentReq.LastName = "" ∨
      studentReq.Email = "")) :
    stmts (CreateStudent (some studentReq) QueryRow) =
      [.InsertStudent studentReq.StudentID studentReq.FirstName studentReq.LastName
        studentReq.Email] := by
  simp only [CreateStudent, h, if_false]
  cases QueryRow with
  | ok row => simp
  | error err =>
    cases has : err.As with
    | none => simp [has]
    | some pgErr =>
      by_cases hc : pgErr.Code = "23505"
      · by_cases h1 : pgErr.ConstraintName = "students_student_id_key"
        · simp [has, hc, h1]
        · by_cases h2 : pgErr.ConstraintName = "students_email_key" <;> simp [has, hc, h1, h2]
      · simp [has, hc]

/-- Handler `CreateTeacher` on a body that decodes with every required field filled in
issues exactly the teacher insert. -/
theorem CreateTeacher_valid_stmts (teacher : Teacher)
    (QueryRow : Except StoreError (Int × Time × Time))
    (h : ¬(teacher.FirstName = "" ∨ teacher.LastName = "" ∨ teacher.Email = "")) :
    stmts (CreateTeacher (some teacher) QueryRow) =
      [.InsertTeacher teacher.FirstName teacher.LastName teacher.Email] := by
  simp only [CreateTeacher, h, if_false]
  cases QueryRow with
  | ok row => simp
  | error err =>
    cases has : err.As with
    | none => simp [has]
    | some pgErr => by_cases hc : pgErr.Code = "23505" <;> simp [has, hc]

/-- Handler `CreateSubject` on a body that decodes with code and name filled in issues
exactly the subject insert. -/
theorem CreateSubject_valid_stmts (subject : Subject)
    (QueryRow : Except StoreError (Int × Time × Time))
    (h : ¬(subject.Code = "" ∨ subject.Name = "")) :
    stmts (CreateSubject (some subject) QueryRow) =
      [.InsertSubject subject.Code subject.Name subject.Description] := by
  simp only [CreateSubject, h, if_false]
  cases QueryRow <;> simp

/-- Handler `CreateClassroom` on a body that decodes with building, room number and a
positive capacity issues exactly the classroom insert. -/
theorem CreateClassroom_valid_stmts (classroom : Classroom)
    (QueryRow : Except StoreError (Int × Time × Time))
    (h : ¬(classroom.Building = "" ∨ classroom.RoomNumber = "" ∨ classroom.Capacity ≤ 0)) :
    stmts (CreateClassroom (some classroom) QueryRow) =
      [.InsertClassroom classroom.Building classroom.RoomNumber classroom.Capacity] := by
  simp only [CreateClassroom, h, if_false]
  cases QueryRow with
  | ok row => simp
  | error err =>
    cases has : err.As with
    | none => simp [has]
    | some pgErr => by_cases hc : pgErr.Code = "23505" <;> simp [has, hc]

/-- Handler `CreateStudent` answers 400 without calling the store exactly when the body
fails to decode or one of the four fields is empty. -/
theorem CreateStudent_bad_request_iff (body : Option CreateStudentRequest) (QueryRow : Except StoreError StudentRow) :
    ((∃ r, responses (CreateStudent body QueryRow) = [r] ∧ r.status = StatusBadRequest) ∧
      stmts (CreateStudent body QueryRow) = []) ↔
    (body = none ∨ ∃ studentReq, body = some studentReq ∧
      (studentReq.StudentID = "" ∨ studentReq.FirstName = "" ∨ studentReq.LastName = "" ∨
        studentReq.Email = "")) := by
  cases body with
  | none =>
    constructor
    · intro _; exact Or.inl rfl
    · intro _; exact ⟨⟨_, rfl, rfl⟩, rfl⟩
  | some studentReq =>
    by_cases h : studentReq.StudentID = "" ∨ studentReq.FirstName = "" ∨ studentReq.LastName = "" ∨
        studentReq.Email = ""
    · constructor
      · intro _; exact Or.inr ⟨studentReq, rfl, h⟩
      · intro _
        simp only [CreateStudent, h, if_true]
        exact ⟨⟨_, rfl, rfl⟩, rfl⟩
    · constructor
      · rintro ⟨_, hs⟩
        rw [CreateStudent_valid_stmts studentReq QueryRow h] at hs
        cases hs
      · rintro (hb | ⟨v, hb, hv⟩)
        · cases hb
        · cases hb
          exact absurd hv h

/-- Handler `CreateTeacher` answers 400 without calling the store exactly when the body
fails to decode or one of first name, last name, email is empty. -/
theorem CreateTeacher_bad_request_iff (body : Option Teacher) (QueryRow : Except StoreError (Int × Time × Time)) :
    ((∃ r, responses (CreateTeacher body QueryRow) = [r] ∧ r.status = StatusBadRequest) ∧
      stmts (CreateTeacher body QueryRow) = []) ↔
    (body = none ∨ ∃ teacher, body = some teacher ∧
      (teacher.FirstName = "" ∨ teacher.LastName = "" ∨ teacher.Email = "")) := by
  cases body with
  | none =>
    constructor
    · intro _; exact Or.inl rfl
    · intro _; exact ⟨⟨_, rfl, rfl⟩, rfl⟩
  | some teacher =>
    by_cases h : teacher.FirstName = "" ∨ teacher.LastName = "" ∨ teacher.Email = ""
    · constructor
      · intro _; exact Or.inr ⟨teacher, rfl, h⟩
      · intro _
        simp only [CreateTeacher, h, if_true]
        exact ⟨⟨_, rfl, rfl⟩, rfl⟩
    · constructor
      · rintro ⟨_, hs⟩
        rw [CreateTeacher_valid_stmts teacher QueryRow h] at hs
        cases hs
      · rintro (hb | ⟨v, hb, hv⟩)
        · cases hb
        · cases hb
          exact absurd hv h

/-- Handler `CreateSubject` answers 400 without calling the store exactly when the body
fails to decode or code or name is empty; the description plays no part. -/
theorem CreateSubject_bad_request_iff (body : Option Subject) (QueryRow : Except StoreError (Int × Time × Time)) :
    ((∃ r, responses (CreateSubject body QueryRow) = [r] ∧ r.status = StatusBadRequest) ∧
      stmts (CreateSubject body QueryRow) = []) ↔
    (body = none ∨ ∃ subject, body = some subject ∧
      (subject.Code = "" ∨ subject.Name = "")) := by
  cases body with
  | none =>
    constructor
    · intro _; exact Or.inl rfl
    · intro _; exact ⟨⟨_, rfl, rfl⟩, rfl⟩
  | some subject =>
    by_cases h : subject.Code = "" ∨ subject.Name = ""
    · constructor
      · intro _; exact Or.inr ⟨subject, rfl, h⟩
      · intro _
        simp only [CreateSubject, h, if_true]
        exact ⟨⟨_, rfl, rfl⟩, rfl⟩
    · constructor
      · rintro ⟨_, hs⟩
        rw [CreateSubject_valid_stmts subject QueryRow h] at hs
        cases hs
      · rintro (hb | ⟨v, hb, hv⟩)
        · cases hb
        · cases hb
          exact absurd hv h

/-- Handler `CreateClassroom` answers 400 without calling the store exactly when the body
fails to decode, building or room number is empty, or capacity is not positive. -/
theorem CreateClassroom_bad_request_iff (body : Option Classroom) (QueryRow : Except StoreError (Int × Time × Time)) :
    ((∃ r, responses (CreateClassroom body QueryRow) = [r] ∧ r.status = StatusBadRequest) ∧
      stmts (CreateClassroom body QueryRow) = []) ↔
    (body = none ∨ ∃ classroom, body = some classroom ∧
      (classroom.Building = "" ∨ classroom.RoomNumber = "" ∨ classroom.Capacity ≤ 0)) := by
  cases body with
  | none =>
    constructor
    · intro _; exact Or.inl rfl
    · intro _; exact ⟨⟨_, rfl, rfl⟩, rfl⟩
  | some classroom =>
    by_cases h : classroom.Building = "" ∨ classroom.RoomNumber = "" ∨ classroom.Capacity ≤ 0
    · constructor
      · intro _; exact Or.inr ⟨classroom, rfl, h⟩
      · intro _
        simp only [CreateClassroom, h, if_true]
        exact ⟨⟨_, rfl, rfl⟩, rfl⟩
    · constructor
      · rintro ⟨_, hs⟩
        rw [CreateClassroom_valid_stmts classroom QueryRow h] at hs
        cases hs
      · rintro (hb | ⟨v, hb, hv⟩)
        · cases hb
        · cases hb
          exact absurd hv h

/-- C8: for `CreateStudent`, `CreateTeacher`, `CreateSubject` and
`CreateClassroom`, the response is 400 with no call to the store if and only if
the body fails to decode or a required field is empty or not positive (student:
student id, first name, last name, email; teacher: first name, last name,
email; subject: code, name; classroom: building, room number, capacity > 0).
In every other case exactly one insert is issued, with the request's fields. -/
theorem Create_bad_request_iff_invalid
    (studentBody : Option CreateStudentRequest) (studentRow : Except StoreError StudentRow)
    (teacherBody : Option Teacher) (teacherRow : Except StoreError (Int × Time × Time))
    (subjectBody : Option Subject) (subjectRow : Except StoreError (Int × Time × Time))
    (classroomBody : Option Classroom) (classroomRow : Except StoreError (Int × Time × Time)) :
    ((((∃ r, responses (CreateStudent studentBody studentRow) = [r] ∧
          r.status = StatusBadRequest) ∧
        stmts (CreateStudent studentBody studentRow) = []) ↔
      (studentBody = none ∨ ∃ studentReq, studentBody = some studentReq ∧
        (studentReq.StudentID = "" ∨ studentReq.FirstName = "" ∨ studentReq.LastName = "" ∨
          studentReq.Email = ""))) ∧
      (∀ studentReq, studentBody = some studentReq →
        ¬(studentReq.StudentID = "" ∨ studentReq.FirstName = "" ∨ studentReq.LastName = "" ∨
          studentReq.Email = "") →
        stmts (CreateStudent studentBody studentRow) =
          [.InsertStudent studentReq.StudentID studentReq.FirstName studentReq.LastName
            studentReq.Email])) ∧
    ((((∃ r, responses (CreateTeacher teacherBody teacherRow) = [r] ∧
          r.status = StatusBadRequest) ∧
        stmts (CreateTeacher teacherBody teacherRow) = []) ↔
      (teacherBody = none ∨ ∃ teacher, teacherBody = some teacher ∧
        (teacher.FirstName = "" ∨ teacher.LastName = "" ∨ teacher.Email = ""))) ∧
      (∀ teacher, teacherBody = some teacher →
        ¬(teacher.FirstName = "" ∨ teacher.LastName = "" ∨ teacher.Email = "") →
        stmts (CreateTeacher teacherBody teacherRow) =
          [.InsertTeacher teacher.FirstName teacher.LastName teacher.Email])) ∧
    ((((∃ r, responses (CreateSubject subjectBody subjectRow) = [r] ∧
          r.status = StatusBadRequest) ∧
        stmts (CreateSubject subjectBody subjectRow) = []) ↔
      (subjectBody = none ∨ ∃ subject, subjectBody = some subject ∧
        (subject.Code = "" ∨ subject.Name = ""))) ∧
      (∀ subject, subjectBody = some subject →
        ¬(subject.Code = "" ∨ subject.Name = "") →
        stmts (CreateSubject subjectBody subjectRow) =
          [.InsertSubject subject.Code subject.Name subject.Description])) ∧
    ((((∃ r, responses (CreateClassroom classroomBody classroomRow) = [r] ∧
          r.status = StatusBadRequest) ∧
        stmts (CreateClassroom classroomBody classroomRow) = []) ↔
      (classroomBody = none ∨ ∃ classroom, classroomBody = some classroom ∧
        (classroom.Building = "" ∨ classroom.RoomNumber = "" ∨ classroom.Capacity ≤ 0))) ∧
      (∀ classroom, classroomBody = some classroom →
        ¬(classroom.Building = "" ∨ classroom.RoomNumber = "" ∨ classroom.Capacity ≤ 0) →
        stmts (CreateClassroom classroomBody classroomRow) =
          [.InsertClassroom classroom.Building classroom.RoomNumber classroom.Capacity])) := by
  refine ⟨⟨CreateStudent_bad_request_iff _ _, ?_⟩, ⟨CreateTeacher_bad_request_iff _ _, ?_⟩,
    ⟨CreateSubject_bad_request_iff _ _, ?_⟩, ⟨CreateClassroom_bad_request_iff _ _, ?_⟩⟩
  · intro studentReq hb h
    subst hb
    exact CreateStudent_valid_stmts studentReq studentRow h
  · intro teacher hb h
    subst hb
    exact CreateTeacher_valid_stmts teacher teacherRow h
  · intro subject hb h
    subst hb
    exact CreateSubject_valid_stmts subject subjectRow h
  · intro classroom hb h
    subst hb
    exact CreateClassroom_valid_stmts classroom classroomRow h

/-- C8 at the student of the integration test `MissingRequiredFields` (400, no
call to the store) and at a complete classroom (one insert). -/
theorem Create_bad_request_iff_invalid_witness :
    ((∃ r, responses (CreateStudent (some missingStudentIDReq) (.error studentIDDuplicate)) = [r] ∧
        r.status = StatusBadRequest) ∧
      stmts (CreateStudent (some missingStudentIDReq) (.error studentIDDuplicate)) = []) ∧
    stmts (CreateClassroom (some duplicateClassroomReq) (.error classroomDuplicate)) =
      [.InsertClassroom "Test Building" "101" 40] :=
  ⟨(Create_bad_request_iff_invalid (some missingStudentIDReq) (.error studentIDDuplicate)
      none (.error studentIDDuplicate) none (.error studentIDDuplicate)
      (some duplicateClassroomReq) (.error classroomDuplicate)).1.1.mpr
      (Or.inr ⟨missingStudentIDReq, rfl, by decide⟩),
    (Create_bad_request_iff_invalid (some missingStudentIDReq) (.error studentIDDuplicate)
      none (.error studentIDDuplicate) none (.error studentIDDuplicate)
      (some duplicateClassroomReq) (.error classroomDuplicate)).2.2.2.2
      duplicateClassroomReq rfl (by decide)⟩

/-! ## Uniqueness violations -/

/-- C9: `CreateStudent` on a uniqueness violation (code 23505) answers 409, with
the student-id message for constraint `students_student_id_key`, the email
message for `students_email_key`, and the generic duplicate message for any
other constraint; every other store error gives 500; no store error gives 201. -/
theorem CreateStudent_unique_violation (studentReq : CreateStudentRequest) (err : StoreError)
    (hvalid : ¬(studentReq.StudentID = "" ∨ studentReq.FirstName = "" ∨
      studentReq.LastName = "" ∨ studentReq.Email = "")) :
    (∀ pgErr, err.As = some pgErr → pgErr.Code = "23505" →
      (pgErr.ConstraintName = "students_student_id_key" →
        responses (CreateStudent (some studentReq) (.error err)) =
          [SendError StatusConflict "A student with this student ID already exists"]) ∧
      (pgErr.ConstraintName = "students_email_key" →
        responses (CreateStudent (some studentReq) (.error err)) =
          [SendError StatusConflict "A student with this email already exists"]) ∧
      (pgErr.ConstraintName ≠ "students_student_id_key" →
        pgErr.ConstraintName ≠ "students_email_key" →
        responses (CreateStudent (some studentReq) (.error err)) =
          [SendError StatusConflict "A duplicate entry exists"])) ∧
    ((∀ pgErr, err.As = some pgErr → pgErr.Code ≠ "23505") →
      responses (CreateStudent (some studentReq) (.error err)) =
        [SendError StatusInternalServerError ("Failed to create student: " ++ err.Error)]) ∧
    (∀ r, r ∈ responses (CreateStudent (some studentReq) (.error err)) →
      r.status ≠ StatusCreated ∧
        (r.status = StatusConflict ∨ r.status = StatusInternalServerError)) := by
  refine ⟨?_, ?_, ?_⟩
  · intro pgErr has hcode
    refine ⟨?_, ?_, ?_⟩
    · intro hname
      simp [CreateStudent, hvalid, has, hcode, hname]
    · intro hname
      simp [CreateStudent, hvalid, has, hcode, hname]
    · intro h1 h2
      simp [CreateStudent, hvalid, has, hcode, h1, h2]
  · intro hother
    cases has : err.As with
    | none => simp [CreateStudent, hvalid, has]
    | some pgErr => simp [CreateStudent, hvalid, has, hother pgErr has]
  · intro r hr
    cases has : err.As with
    | none =>
      simp [CreateStudent, hvalid, has] at hr
      subst hr
      exact ⟨by simp [SendError, StatusCreated, StatusInternalServerError], Or.inr rfl⟩
    | some pgErr =>
      by_cases hcode : pgErr.Code = "23505"
      · by_cases h1 : pgErr.ConstraintName = "students_student_id_key"
        · simp [CreateStudent, hvalid, has, hcode, h1] at hr
          subst hr
          exact ⟨by decide, Or.inl rfl⟩
        · by_cases h2 : pgErr.ConstraintName = "students_email_key"
          · simp [CreateStudent, hvalid, has, hcode, h2] at hr
            subst hr
            exact ⟨by decide, Or.inl rfl⟩
          · simp [CreateStudent, hvalid, has, hcode, h1, h2] at hr
            subst hr
            exact ⟨by decide, Or.inl rfl⟩
      · simp [CreateStudent, hvalid, has, hcode] at hr
        subst hr
        exact ⟨by simp [SendError, StatusCreated, StatusInternalServerError], Or.inr rfl⟩

/-- C9 at the second request of the integration test `DuplicateStudentID`. -/
theorem CreateStudent_unique_violation_witness :
    responses (CreateStudent (some duplicateStudentReq) (.error studentIDDuplicate)) =
      [SendError StatusConflict "A student with this student ID already exists"] :=
  ((CreateStudent_unique_violation duplicateStudentReq studentIDDuplicate (by decide)).1
    _ rfl rfl).1 rfl

/-- C10: `CreateTeacher` and `CreateClassroom` on a uniqueness violation (code
23505) answer 409 with their entity's message; every other store error gives
500 with the error's text appended to the message; no store error gives 201. -/
theorem CreateTeacher_CreateClassroom_unique_violation (teacher : Teacher)
    (classroom : Classroom) (err : StoreError)
    (hteacher : ¬(teacher.FirstName = "" ∨ teacher.LastName = "" ∨ teacher.Email = ""))
    (hclassroom : ¬(classroom.Building = "" ∨ classroom.RoomNumber = "" ∨
      classroom.Capacity ≤ 0)) :
    (∀ pgErr, err.As = some pgErr → pgErr.Code = "23505" →
      responses (CreateTeacher (some teacher) (.error err)) =
        [SendError StatusConflict "A teacher with this email already exists"] ∧
      responses (CreateClassroom (some classroom) (.error err)) =
        [SendError StatusConflict
          "A classroom with this building and room number already exists"]) ∧
    ((∀ pgErr, err.As = some pgErr → pgErr.Code ≠ "23505") →
      responses (CreateTeacher (some teacher) (.error err)) =
        [SendError StatusInternalServerError ("Failed to create teacher: " ++ err.Error)] ∧
      responses (CreateClassroom (some classroom) (.error err)) =
        [SendError StatusInternalServerError ("Failed to create classroom: " ++ err.Error)]) ∧
    (∀ r, r ∈ responses (CreateTeacher (some teacher) (.error err)) ∨
        r ∈ responses (CreateClassroom (some classroom) (.error err)) →
      r.status ≠ StatusCreated ∧
        (r.status = StatusConflict ∨ r.status = StatusInternalServerError)) := by
  refine ⟨?_, ?_, ?_⟩
  · intro pgErr has hcode
    constructor
    · simp [CreateTeacher, hteacher, has, hcode]
    · simp [CreateClassroom, hclassroom, has, hcode]
  · intro hother
    cases has : err.As with
    | none =>
      constructor
      · simp [CreateTeacher, hteacher, has]
      · simp [CreateClassroom, hclassroom, has]
    | some pgErr =>
      constructor
      · simp [CreateTeacher, hteacher, has, hother pgErr has]
      · simp [CreateClassroom, hclassroom, has, hother pgErr has]
  · intro r hr
    cases has : err.As with
    | none =>
      simp [CreateTeacher, CreateClassroom, hteacher, hclassroom, has] at hr
      rcases hr with hr | hr <;> subst hr <;>
        exact ⟨by simp [SendError, StatusCreated, StatusInternalServerError], Or.inr rfl⟩
    | some pgErr =>
      by_cases hcode : pgErr.Code = "23505"
      · simp [CreateTeacher, CreateClassroom, hteacher, hclassroom, has, hcode] at hr
        rcases hr with hr | hr <;> subst hr <;> exact ⟨by decide, Or.inl rfl⟩
      · simp [CreateTeacher, CreateClassroom, hteacher, hclassroom, has, hcode] at hr
        rcases hr with hr | hr <;> subst hr <;>
          exact ⟨by simp [SendError, StatusCreated, StatusInternalServerError], Or.inr rfl⟩

/-- C10 at the second request of the integration test `DuplicateClassroom`, and
at a teacher whose email is taken. -/
theorem CreateTeacher_CreateClassroom_unique_violation_witness :
    responses (CreateTeacher (some sampleTeacher) (.error classroomDuplicate)) =
      [SendError StatusConflict "A teacher with this email already exists"] ∧
    responses (CreateClassroom (some duplicateClassroomReq) (.error classroomDuplicate)) =
      [SendError StatusConflict
        "A classroom with this building and room number already exists"] :=
  (CreateTeacher_CreateClassroom_unique_violation sampleTeacher duplicateClassroomReq
    classroomDuplicate (by decide) (by decide)).1 _ rfl rfl

/-- C11: on a uniqueness violation (code 23505) `CreateSubject` does not answer
409: the handler never inspects the store error, so the duplicate subject is
answered with 500 and the error text, as any other store failure is. -/
theorem CreateSubject_unique_violation_is_500 :
    responses (CreateSubject (some duplicateSubjectReq) (.error subjectDuplicate)) =
      [SendError StatusInternalServerError
        "Failed to create subject: ERROR: duplicate key value violates unique constraint (SQLSTATE 23505)"] ∧
    (∀ r, r ∈ responses (CreateSubject (some duplicateSubjectReq) (.error subjectDuplicate)) →
      r.status ≠ StatusConflict) := by
  decide

/-! ## Lookups by path parameter -/

/-- C12: `GetStudentByID` answers 400 without a query when the id does not parse;
404 "Student not found" when it parses and the store reports no row; 500 when
the store fails otherwise; and 200 with exactly the returned row otherwise.  In
the last three cases the one statement issued is the lookup of the parsed id. -/
theorem GetStudentByID_outcomes (idStr : String)
    (QueryRow : Int → Except StoreError StudentRow) :
    (Atoi idStr = none →
      responses (GetStudentByID idStr QueryRow) =
        [SendError StatusBadRequest "Invalid student ID"] ∧
      stmts (GetStudentByID idStr QueryRow) = []) ∧
    (∀ id err, Atoi idStr = some id → QueryRow id = .error err → err.IsErrNoRows = true →
      responses (GetStudentByID idStr QueryRow) =
        [SendError StatusNotFound "Student not found"] ∧
      stmts (GetStudentByID idStr QueryRow) = [.SelectStudentByID id]) ∧
    (∀ id err, Atoi idStr = some id → QueryRow id = .error err → err.IsErrNoRows = false →
      responses (GetStudentByID idStr QueryRow) =
        [SendError StatusInternalServerError "Failed to fetch student"] ∧
      stmts (GetStudentByID idStr QueryRow) = [.SelectStudentByID id]) ∧
    (∀ id row, Atoi idStr = some id → QueryRow id = .ok row →
      responses (GetStudentByID idStr QueryRow) =
        [{ status := 200
           contentType := "application/json"
           payload := .student
            { ID := row.id
              StudentID := row.student_id
              FirstName := row.first_name
              LastName := row.last_name
              Email := row.email
              CreatedAt := row.created_at
              UpdatedAt := row.updated_at } }] ∧
      stmts (GetStudentByID idStr QueryRow) = [.SelectStudentByID id]) := by
  refine ⟨?_, ?_, ?_, ?_⟩
  · intro hparse
    simp [GetStudentByID, hparse]
  · intro id err hparse hq hno
    simp [GetStudentByID, hparse, hq, hno]
  · intro id err hparse hq hno
    simp [GetStudentByID, hparse, hq, hno]
  · intro id row hparse hq
    simp [GetStudentByID, hparse, hq, SendJSON, StatusOK, scanStudent]

/-- C12 at the request of the integration test `NonExistentStudent`. -/
theorem GetStudentByID_outcomes_witness :
    responses (GetStudentByID "9999999" (fun _ => .error errNoRows)) =
      [SendError StatusNotFound "Student not found"] ∧
    stmts (GetStudentByID "9999999" (fun _ => .error errNoRows)) =
      [.SelectStudentByID 9999999] :=
  (GetStudentByID_outcomes "9999999" (fun _ => .error errNoRows)).2.1
    9999999 errNoRows (by decide) rfl rfl

/-- C13: `DropSection` answers 400 without a delete when either path parameter
does not parse; 500 when the delete fails; when it succeeds, 404 "Enrollment not
found" exactly when no row was affected, and otherwise 200 with the one-entry
map from "message" to "Section dropped successfully". -/
theorem DropSection_outcomes (studentIDStr sectionIDStr : String)
    (Exec : Int → Int → Except StoreError Int) :
    (Atoi studentIDStr = none ∨ Atoi sectionIDStr = none →
      (∃ r, responses (DropSection studentIDStr sectionIDStr Exec) = [r] ∧
        r.status = StatusBadRequest) ∧
      stmts (DropSection studentIDStr sectionIDStr Exec) = []) ∧
    (∀ studentID sectionID, Atoi studentIDStr = some studentID →
      Atoi sectionIDStr = some sectionID →
      stmts (DropSection studentIDStr sectionIDStr Exec) =
        [.DeleteEnrollment studentID sectionID] ∧
      (∀ err, Exec studentID sectionID = .error err →
        responses (DropSection studentIDStr sectionIDStr Exec) =
          [SendError StatusInternalServerError "Failed to drop section"]) ∧
      (∀ rowsAffected, Exec studentID sectionID = .ok rowsAffected →
        (rowsAffected = 0 →
          responses (DropSection studentIDStr sectionIDStr Exec) =
            [SendError StatusNotFound "Enrollment not found"]) ∧
        (rowsAffected ≠ 0 →
          responses (DropSection studentIDStr sectionIDStr Exec) =
            [{ status := 200
               contentType := "application/json"
               payload := .stringMap [("message", "Section dropped successfully")] }]))) := by
  refine ⟨?_, ?_⟩
  · intro hparse
    cases h1 : Atoi studentIDStr with
    | none =>
      exact ⟨⟨SendError StatusBadRequest "Invalid student ID", by simp [DropSection, h1], rfl⟩,
        by simp [DropSection, h1]⟩
    | some studentID =>
      have h2 : Atoi sectionIDStr = none := by
        rcases hparse with h | h
        · rw [h1] at h; cases h
        · exact h
      exact ⟨⟨SendError StatusBadRequest "Invalid section ID",
        by simp [DropSection, h1, h2], rfl⟩, by simp [DropSection, h1, h2]⟩
  · intro studentID sectionID h1 h2
    refine ⟨?_, ?_, ?_⟩
    · cases hx : Exec studentID sectionID with
      | error err => simp [DropSection, h1, h2, hx]
      | ok rowsAffected =>
        by_cases h0 : rowsAffected = 0 <;> simp [DropSection, h1, h2, hx, h0]
    · intro err hx
      simp [DropSection, h1, h2, hx]
    · intro rowsAffected hx
      constructor
      · intro h0
        simp [DropSection, h1, h2, hx, h0]
      · intro h0
        simp [DropSection, h1, h2, hx, h0, SendJSON, StatusOK]

/-- C13 at the request of the integration test `NonExistentEnrollment`. -/
theorem DropSection_outcomes_witness :
    responses (DropSection "1" "9999999" (fun _ _ => .ok 0)) =
      [SendError StatusNotFound "Enrollment not found"] :=
  (((DropSection_outcomes "1" "9999999" (fun _ _ => .ok 0)).2
    1 9999999 (by decide) (by decide)).2.2 0 rfl).1 rfl

/-- C14: the student lookup of `DownloadStudentSchedule` does not map a zero-row
result to 404.  For an id that matches no student the store reports
`pgx.ErrNoRows`; `GetStudentByID` answers that with 404, the download handler
answers it with 500 "Failed to fetch student info", whatever the rest of the
store and the PDF library would do. -/
theorem DownloadStudentSchedule_no_rows_is_500
    (Query : Int → Except StoreError (Rows ScheduleItem))
    (Output : String → List (List String) → Except String (List Nat)) :
    DownloadStudentSchedule "9999999" (fun _ => .error errNoRows) Query Output =
      [.db (.SelectStudentInfo 9999999),
       .respond (SendError StatusInternalServerError "Failed to fetch student info")] ∧
    responses (GetStudentByID "9999999" (fun _ => .error errNoRows)) =
      [SendError StatusNotFound "Student not found"] := by
  have hparse : Atoi "9999999" = some 9999999 := by decide
  constructor
  · simp [DownloadStudentSchedule, hparse]
  · simp [GetStudentByID, hparse, errNoRows]

/-! ## List handlers -/

/-- C15, as stated, fails: when the read succeeds with zero rows `GetStudents`
answers 200 with the nil slice it declared, which is encoded as JSON `null`,
not as the empty array. -/
theorem GetStudents_empty_is_null :
    responses (GetStudents (.ok { scans := [], Err := none })) =
      [SendJSON StatusOK (.students none)] ∧
    (SendJSON StatusOK (.students none)).payload.jsonShape = JSONShape.null ∧
    ¬ (∃ r, r ∈ responses (GetStudents (.ok { scans := [], Err := none })) ∧
        r.payload.jsonShape = JSONShape.array 0) := by
  refine ⟨rfl, rfl, ?_⟩
  rintro ⟨r, hr, hshape⟩
  have hr2 : r = SendJSON StatusOK (.students none) := by
    simpa [GetStudents, scanRows] using hr
  subst hr2
  simp [SendJSON, Payload.jsonShape, Slice.jsonShape] at hshape

/-- C15, amended: for each list handler, when the read succeeds and returns zero
rows the single response has status 200 and its body is the encoding of the nil
slice, JSON `null`; it is not an error. -/
theorem list_handlers_empty_result (idStr : String) (id : Int)
    (Query : Int → Except StoreError (Rows ScheduleItem))
    (hparse : Atoi idStr = some id)
    (hquery : Query id = .ok { scans := [], Err := none }) :
    (∃ r, responses (GetStudents (.ok { scans := [], Err := none })) = [r] ∧
      r.status = 200 ∧ r.payload = .students none ∧ r.payload.jsonShape = .null) ∧
    (∃ r, responses (GetTeachers (.ok { scans := [], Err := none })) = [r] ∧
      r.status = 200 ∧ r.payload = .teachers none ∧ r.payload.jsonShape = .null) ∧
    (∃ r, responses (GetSubjects (.ok { scans := [], Err := none })) = [r] ∧
      r.status = 200 ∧ r.payload = .subjects none ∧ r.payload.jsonShape = .null) ∧
    (∃ r, responses (GetClassrooms (.ok { scans := [], Err := none })) = [r] ∧
      r.status = 200 ∧ r.payload = .classrooms none ∧ r.payload.jsonShape = .null) ∧
    (∃ r, responses (GetSections (.ok { scans := [], Err := none })) = [r] ∧
      r.status = 200 ∧ r.payload = .sections none ∧ r.payload.jsonShape = .null) ∧
    (∃ r, responses (GetStudentSchedule idStr Query) = [r] ∧
      r.status = 200 ∧ r.payload = .schedule none ∧ r.payload.jsonShape = .null) := by
  refine ⟨⟨_, rfl, rfl, rfl, rfl⟩, ⟨_, rfl, rfl, rfl, rfl⟩, ⟨_, rfl, rfl, rfl, rfl⟩,
    ⟨_, rfl, rfl, rfl, rfl⟩, ⟨_, rfl, rfl, rfl, rfl⟩, ?_⟩
  refine ⟨SendJSON StatusOK (.schedule none), ?_, rfl, rfl, rfl⟩
  simp [GetStudentSchedule, hparse, hquery, scanRows]

/-- C15, amended, at a student without enrollments. -/
theorem list_handlers_empty_result_witness :
    ∃ r, responses (GetStudentSchedule "1" (fun _ => .ok { scans := [], Err := none })) = [r] ∧
      r.status = 200 ∧ r.payload = .schedule none ∧ r.payload.jsonShape = .null :=
  (list_handlers_empty_result "1" 1 (fun _ => .ok { scans := [], Err := none })
    (by decide) rfl).2.2.2.2.2

/-- C16: the list handlers never read `rows.Err()`.  When the iteration stops on
an error after one student was read, `GetStudents` answers 200 with that one
student; when it stops before any section was read, `GetSections` answers 200
with the nil slice.  Neither answers 500. -/
theorem list_handlers_ignore_iteration_error (err : StoreError) :
    responses (GetStudents (.ok { scans := [.ok sampleStudent], Err := some err })) =
      [SendJSON StatusOK (.students (some [sampleStudent]))] ∧
    responses (GetSections (.ok { scans := [], Err := some err })) =
      [SendJSON StatusOK (.sections none)] := by
  constructor
  · simp [GetStudents, scanRows, Slice.append]
  · simp [GetSections, scanRows]

/-! ## Created entities -/

/-- C17: on store success `CreateTeacher`, `CreateSubject` and `CreateClassroom`
answer 201 with the decoded entity in which `id`, `created_at` and `updated_at`
are replaced by the values the store returned (whatever the body held there)
and every other field is the request's; `EnrollStudent` answers 201 with the
request's `student_id` and `section_id` and the store's `id` and
`enrollment_date`. -/
theorem Create_success_merges_generated (teacher : Teacher) (subject : Subject)
    (classroom : Classroom) (enrollment : EnrollmentRequest) (id : Int)
    (created_at updated_at enrollmentDate : Time)
    (hteacher : ¬(teacher.FirstName = "" ∨ teacher.LastName = "" ∨ teacher.Email = ""))
    (hsubject : ¬(subject.Code = "" ∨ subject.Name = ""))
    (hclassroom : ¬(classroom.Building = "" ∨ classroom.RoomNumber = "" ∨
      classroom.Capacity ≤ 0)) :
    responses (CreateTeacher (some teacher) (.ok (id, created_at, updated_at))) =
      [{ status := 201
         contentType := "application/json"
         payload := .teacher
          { FirstName := teacher.FirstName
            LastName := teacher.LastName
            Email := teacher.Email
            ID := id
            CreatedAt := created_at
            UpdatedAt := updated_at } }] ∧
    responses (CreateSubject (some subject) (.ok (id, created_at, updated_at))) =
      [{ status := 201
         contentType := "application/json"
         payload := .subject
          { Code := subject.Code
            Name := subject.Name
            Description := subject.Description
            ID := id
            CreatedAt := created_at
            UpdatedAt := updated_at } }] ∧
    responses (CreateClassroom (some classroom) (.ok (id, created_at, updated_at))) =
      [{ status := 201
         contentType := "application/json"
         payload := .classroom
          { Building := classroom.Building
            RoomNumber := classroom.RoomNumber
            Capacity := classroom.Capacity
            ID := id
            CreatedAt := created_at
            UpdatedAt := updated_at } }] ∧
    responses (EnrollStudent (some enrollment) (.ok (id, enrollmentDate))) =
      [{ status := 201
         contentType := "application/json"
         payload := .enrollment
          { ID := id
            StudentID := enrollment.StudentID
            SectionID := enrollment.SectionID
            EnrollmentDate := enrollmentDate
            CreatedAt := Time.zero } }] := by
  refine ⟨?_, ?_, ?_, ?_⟩
  · simp [CreateTeacher, hteacher, SendJSON, StatusCreated]
  · simp [CreateSubject, hsubject, SendJSON, StatusCreated]
  · simp [CreateClassroom, hclassroom, SendJSON, StatusCreated]
  · simp [EnrollStudent, SendJSON, StatusCreated]

/-- C17 at a classroom whose body carried an id of its own: the response holds
the id and timestamps of the store. -/
theorem Create_success_merges_generated_witness :
    responses (CreateClassroom (some { duplicateClassroomReq with ID := 99 })
        (.ok (5, ⟨2000⟩, ⟨3000⟩))) =
      [{ status := 201
         contentType := "application/json"
         payload := .classroom
          { Building := "Test Building"
            RoomNumber := "101"
            Capacity := 40
            ID := 5
            CreatedAt := ⟨2000⟩
            UpdatedAt := ⟨3000⟩ } }] :=
  (Create_success_merges_generated sampleTeacher duplicateSubjectReq
    { duplicateClassroomReq with ID := 99 } { StudentID := 1, SectionID := 7 } 5 ⟨2000⟩ ⟨3000⟩
    ⟨4000⟩ (by decide) (by decide) (by decide)).2.2.1

/-- Every body that decodes makes `EnrollStudent` issue exactly the enrollment
insert with the decoded fields, and the response is never 400. -/
theorem EnrollStudent_decoded (enrollment : EnrollmentRequest)
    (QueryRow : Except StoreError (Int × Time)) :
    stmts (EnrollStudent (some enrollment) QueryRow) =
      [.InsertEnrollment enrollment.StudentID enrollment.SectionID] ∧
    (∀ r, r ∈ responses (EnrollStudent (some enrollment) QueryRow) →
      r.status ≠ StatusBadRequest) := by
  cases QueryRow with
  | ok row =>
    obtain ⟨id, enrollmentDate⟩ := row
    refine ⟨by simp [EnrollStudent], ?_⟩
    intro r hr
    simp [EnrollStudent] at hr
    subst hr
    simp [SendJSON, StatusCreated, StatusBadRequest]
  | error err =>
    cases has : err.As with
    | none =>
      refine ⟨by simp [EnrollStudent, has], ?_⟩
      intro r hr
      simp [EnrollStudent, has] at hr
      subst hr
      simp [SendError, StatusInternalServerError, StatusBadRequest]
    | some pgErr =>
      by_cases h1 : pgErr.Message = "Schedule conflict detected. Cannot enroll in this section."
      · refine ⟨by simp [EnrollStudent, has, h1], ?_⟩
        intro r hr
        simp [EnrollStudent, has, h1] at hr
        subst hr
        decide
      · by_cases h2 : pgErr.Message = "Section is full. Cannot enroll."
        · refine ⟨by simp [EnrollStudent, has, h2], ?_⟩
          intro r hr
          simp [EnrollStudent, has, h2] at hr
          subst hr
          decide
        · refine ⟨by simp [EnrollStudent, has, h1, h2], ?_⟩
          intro r hr
          simp [EnrollStudent, has, h1, h2] at hr
          subst hr
          simp [SendError, StatusInternalServerError, StatusBadRequest]

/-- C18: `EnrollStudent` does not reject a body that omits a field.  The bodies
`{}` and `{"student_id": 1}` decode with the missing fields at zero, and the
handler forwards them to the store as the insert of (0, 0) and of (1, 0); the
response is never 400, whatever the store answers. -/
theorem EnrollStudent_forwards_missing_fields (QueryRow : Except StoreError (Int × Time)) :
    stmts (EnrollStudent (some { StudentID := 0, SectionID := 0 }) QueryRow) =
      [.InsertEnrollment 0 0] ∧
    stmts (EnrollStudent (some { StudentID := 1, SectionID := 0 }) QueryRow) =
      [.InsertEnrollment 1 0] ∧
    (∀ r, r ∈ responses (EnrollStudent (some { StudentID := 0, SectionID := 0 }) QueryRow) ∨
        r ∈ responses (EnrollStudent (some { StudentID := 1, SectionID := 0 }) QueryRow) →
      r.status ≠ StatusBadRequest) := by
  refine ⟨(EnrollStudent_decoded _ QueryRow).1, (EnrollStudent_decoded _ QueryRow).1, ?_⟩
  rintro r (hr | hr)
  · exact (EnrollStudent_decoded _ QueryRow).2 r hr
  · exact (EnrollStudent_decoded _ QueryRow).2 r hr

/-! ## Path parameters -/

/-- C19, as stated, fails: the path parameters "0" and "-3" parse, and the
handlers send them to the store.  `GetStudentByID` looks student 0 up and, the
store finding no row, answers 404; `DropSection` issues the delete for student
-3 and section 0 and, no row being affected, answers 404.  Neither answers 400. -/
theorem path_parameter_zero_reaches_store :
    stmts (GetStudentByID "0" (fun _ => .error errNoRows)) = [.SelectStudentByID 0] ∧
    responses (GetStudentByID "0" (fun _ => .error errNoRows)) =
      [SendError StatusNotFound "Student not found"] ∧
    stmts (DropSection "-3" "0" (fun _ _ => .ok 0)) = [.DeleteEnrollment (-3) 0] ∧
    responses (DropSection "-3" "0" (fun _ _ => .ok 0)) =
      [SendError StatusNotFound "Enrollment not found"] := by
  decide

/-- C19, amended: a path id parameter must parse as an integer.  For
`GetStudentByID` and `DropSection` a parameter that does not parse is rejected
with 400 without reaching the store; one that parses, be it zero or negative,
is sent to the store as it is, and the response is not 400. -/
theorem path_parameters_need_only_parse (idStr studentIDStr sectionIDStr : String)
    (QueryRow : Int → Except StoreError StudentRow)
    (Exec : Int → Int → Except StoreError Int) :
    (Atoi idStr = none →
      (∃ r, responses (GetStudentByID idStr QueryRow) = [r] ∧ r.status = StatusBadRequest) ∧
      stmts (GetStudentByID idStr QueryRow) = []) ∧
    (∀ id, Atoi idStr = some id →
      stmts (GetStudentByID idStr QueryRow) = [.SelectStudentByID id] ∧
      (∀ r, r ∈ responses (GetStudentByID idStr QueryRow) → r.status ≠ StatusBadRequest)) ∧
    (Atoi studentIDStr = none ∨ Atoi sectionIDStr = none →
      (∃ r, responses (DropSection studentIDStr sectionIDStr Exec) = [r] ∧
        r.status = StatusBadRequest) ∧
      stmts (DropSection studentIDStr sectionIDStr Exec) = []) ∧
    (∀ studentID sectionID, Atoi studentIDStr = some studentID →
      Atoi sectionIDStr = some sectionID →
      stmts (DropSection studentIDStr sectionIDStr Exec) =
        [.DeleteEnrollment studentID sectionID] ∧
      (∀ r, r ∈ responses (DropSection studentIDStr sectionIDStr Exec) →
        r.status ≠ StatusBadRequest)) := by
  refine ⟨?_, ?_, ?_, ?_⟩
  · intro hparse
    exact ⟨⟨SendError StatusBadRequest "Invalid student ID", by simp [GetStudentByID, hparse],
      rfl⟩, by simp [GetStudentByID, hparse]⟩
  · intro id hparse
    cases hq : QueryRow id with
    | ok row =>
      refine ⟨by simp [GetStudentByID, hparse, hq], ?_⟩
      intro r hr
      simp [GetStudentByID, hparse, hq] at hr
      subst hr
      simp [SendJSON, StatusOK, StatusBadRequest]
    | error err =>
      cases hno : err.IsErrNoRows with
      | true =>
        refine ⟨by simp [GetStudentByID, hparse, hq, hno], ?_⟩
        intro r hr
        simp [GetStudentByID, hparse, hq, hno] at hr
        subst hr
        decide
      | false =>
        refine ⟨by simp [GetStudentByID, hparse, hq, hno], ?_⟩
        intro r hr
        simp [GetStudentByID, hparse, hq, hno] at hr
        subst hr
        decide
  · intro hparse
    cases h1 : Atoi studentIDStr with
    | none =>
      exact ⟨⟨SendError StatusBadRequest "Invalid student ID", by simp [DropSection, h1], rfl⟩,
        by simp [DropSection, h1]⟩
    | some studentID =>
      have h2 : Atoi sectionIDStr = none := by
        rcases hparse with h | h
        · rw [h1] at h; cases h
        · exact h
      exact ⟨⟨SendError StatusBadRequest "Invalid section ID",
        by simp [DropSection, h1, h2], rfl⟩, by simp [DropSection, h1, h2]⟩
  · intro studentID sectionID h1 h2
    cases hx : Exec studentID sectionID with
    | error err =>
      refine ⟨by simp [DropSection, h1, h2, hx], ?_⟩
      intro r hr
      simp [DropSection, h1, h2, hx] at hr
      subst hr
      decide
    | ok rowsAffected =>
      by_cases h0 : rowsAffected = 0
      · refine ⟨by simp [DropSection, h1, h2, hx, h0], ?_⟩
        intro r hr
        simp [DropSection, h1, h2, hx, h0] at hr
        subst hr
        decide
      · refine ⟨by simp [DropSection, h1, h2, hx, h0], ?_⟩
        intro r hr
        simp [DropSection, h1, h2, hx, h0] at hr
        subst hr
        decide

/-- C19, amended, at the path parameter "-3". -/
theorem path_parameters_need_only_parse_witness :
    stmts (GetStudentByID "-3" (fun _ => .error errNoRows)) = [.SelectStudentByID (-3)] ∧
    (∀ r, r ∈ responses (GetStudentByID "-3" (fun _ => .error errNoRows)) →
      r.status ≠ StatusBadRequest) :=
  (path_parameters_need_only_parse "-3" "-3" "0" (fun _ => .error errNoRows)
    (fun _ _ => .ok 0)).2.1 (-3) (by decide)

/-! ## Reads -/

/-- A list handler issues its one query, whatever the store answers. -/
theorem GetStudents_stmts (Query : Except StoreError (Rows Student)) :
    stmts (GetStudents Query) = [.SelectStudents] := by
  unfold GetStudents
  cases Query with
  | error err => rfl
  | ok rows =>
    simp only []
    split <;> rfl

/-- The teacher list handler issues its one query, whatever the store answers. -/
theorem GetTeachers_stmts (Query : Except StoreError (Rows Teacher)) :
    stmts (GetTeachers Query) = [.SelectTeachers] := by
  unfold GetTeachers
  cases Query with
  | error err => rfl
  | ok rows =>
    simp only []
    split <;> rfl

/-- The subject list handler issues its one query, whatever the store answers. -/
theorem GetSubjects_stmts (Query : Except StoreError (Rows Subject)) :
    stmts (GetSubjects Query) = [.SelectSubjects] := by
  unfold GetSubjects
  cases Query with
  | error err => rfl
  | ok rows =>
    simp only []
    split <;> rfl

/-- The classroom list handler issues its one query, whatever the store answers. -/
theorem GetClassrooms_stmts (Query : Except StoreError (Rows Classroom)) :
    stmts (GetClassrooms Query) = [.SelectClassrooms] := by
  unfold GetClassrooms
  cases Query with
  | error err => rfl
  | ok rows =>
    simp only []
    split <;> rfl

/-- The section list handler issues its one query, whatever the store answers. -/
theorem GetSections_stmts (Query : Except StoreError (Rows Section)) :
    stmts (GetSections Query) = [.SelectSections] := by
  unfold GetSections
  cases Query with
  | error err => rfl
  | ok rows =>
    simp only []
    split <;> rfl

/-- The lookup by id issues nothing or the one lookup. -/
theorem GetStudentByID_stmts (idStr : String) (QueryRow : Int → Except StoreError StudentRow) :
    stmts (GetStudentByID idStr QueryRow) = [] ∨
    ∃ id, stmts (GetStudentByID idStr QueryRow) = [.SelectStudentByID id] := by
  unfold GetStudentByID
  cases Atoi idStr with
  | none => exact Or.inl rfl
  | some id =>
    right
    refine ⟨id, ?_⟩
    cases hq : QueryRow id with
    | ok row => simp [hq]
    | error err => cases hno : err.IsErrNoRows <;> simp [hq, hno]

/-- The schedule handler issues nothing or the one schedule query. -/
theorem GetStudentSchedule_stmts (idStr : String)
    (Query : Int → Except StoreError (Rows ScheduleItem)) :
    stmts (GetStudentSchedule idStr Query) = [] ∨
    ∃ id, stmts (GetStudentSchedule idStr Query) = [.SelectStudentSchedule id] := by
  unfold GetStudentSchedule
  cases Atoi idStr with
  | none => exact Or.inl rfl
  | some id =>
    right
    refine ⟨id, ?_⟩
    cases hq : Query id with
    | error err => simp [hq]
    | ok rows =>
      simp only [hq]
      split <;> rfl

/-- Every statement a GET handler issues is a read. -/
theorem serveGet_reads (a : ReadAnswers) (req : GetRequest) :
    ∀ q, q ∈ stmts (serveGet a req) → q.isRead = true := by
  intro q hq
  cases req with
  | Students => simp [serveGet, GetStudents_stmts] at hq; subst hq; rfl
  | Teachers => simp [serveGet, GetTeachers_stmts] at hq; subst hq; rfl
  | Subjects => simp [serveGet, GetSubjects_stmts] at hq; subst hq; rfl
  | Classrooms => simp [serveGet, GetClassrooms_stmts] at hq; subst hq; rfl
  | Sections => simp [serveGet, GetSections_stmts] at hq; subst hq; rfl
  | StudentByID idStr =>
    simp only [serveGet] at hq
    rcases GetStudentByID_stmts idStr a.StudentByID with h | ⟨id, h⟩
    · rw [h] at hq; cases hq
    · rw [h] at hq; simp at hq; subst hq; rfl
  | StudentSchedule idStr =>
    simp only [serveGet] at hq
    rcases GetStudentSchedule_stmts idStr a.StudentSchedule with h | ⟨id, h⟩
    · rw [h] at hq; cases hq
    · rw [h] at hq; simp at hq; subst hq; rfl

/-- Executing statements that a store treats as no-ops leaves its state as it was. -/
theorem foldl_exec_unchanged {σ : Type} (exec : Stmt → σ → σ) (qs : List Stmt) (st : σ)
    (h : ∀ q, q ∈ qs → exec q st = st) :
    qs.foldl (fun s q => exec q s) st = st := by
  induction qs with
  | nil => rfl
  | cons q rest ih =>
    simp only [List.foldl_cons]
    rw [h q (by simp)]
    exact ih (fun q2 hq2 => h q2 (by simp [hq2]))

/-- C20: reads are idempotent.  Over any store whose reads leave its state as it
is, every GET handler issues only read statements, the state after the request
is the state before it, and serving the same request again yields the same
trace, hence the same status and the same body. -/
theorem GET_idempotent {σ : Type} (m : StoreModel σ) (req : GetRequest) (st : σ)
    (hread : ∀ q s, q.isRead = true → m.exec q s = s) :
    (∀ q, q ∈ stmts (m.serve req st).1 → q.isRead = true) ∧
    (m.serve req st).2 = st ∧
    (m.serve req (m.serve req st).2).1 = (m.serve req st).1 ∧
    responses (m.serve req (m.serve req st).2).1 = responses (m.serve req st).1 := by
  have hreads := serveGet_reads (m.answers st) req
  have hstate : (m.serve req st).2 = st :=
    foldl_exec_unchanged m.exec _ st (fun q hq => hread q st (hreads q hq))
  refine ⟨hreads, hstate, ?_, ?_⟩
  · rw [hstate]
  · rw [hstate]

/-- C20 at a store holding one student, asked twice for that student. -/
theorem GET_idempotent_witness :
    (∀ q, q ∈ stmts (studentsStore.serve (.StudentByID "1") [sampleStudentRow]).1 →
      q.isRead = true) ∧
    (studentsStore.serve (.StudentByID "1") [sampleStudentRow]).2 = [sampleStudentRow] ∧
    (studentsStore.serve (.StudentByID "1")
      (studentsStore.serve (.StudentByID "1") [sampleStudentRow]).2).1 =
      (studentsStore.serve (.StudentByID "1") [sampleStudentRow]).1 ∧
    responses (studentsStore.serve (.StudentByID "1")
      (studentsStore.serve (.StudentByID "1") [sampleStudentRow]).2).1 =
      responses (studentsStore.serve (.StudentByID "1") [sampleStudentRow]).1 :=
  GET_idempotent studentsStore (.StudentByID "1") [sampleStudentRow]
    (by intro q s hq; cases q <;> simp_all [studentsStore, Stmt.isRead])

/-! ## The CORS middleware -/

/-- C24: on every request, whatever its method, the CORS middleware first sets
`Access-Control-Allow-Origin` to "*", `Access-Control-Allow-Methods` to
"GET, POST, PUT, DELETE, OPTIONS" and `Access-Control-Allow-Headers` to
"Content-Type, Authorization"; for OPTIONS it then writes status 200 and never
calls the wrapped handler; for every other method it calls the wrapped handler
exactly once and writes no status itself. -/
theorem Register_cors (Method : String) :
    (Register Method).take 3 =
      [.setHeader "Access-Control-Allow-Origin" "*",
       .setHeader "Access-Control-Allow-Methods" "GET, POST, PUT, DELETE, OPTIONS",
       .setHeader "Access-Control-Allow-Headers" "Content-Type, Authorization"] ∧
    (Method = "OPTIONS" →
      (Register Method).drop 3 = [.writeHeader 200] ∧
      (Register Method).count .serveNext = 0) ∧
    (Method ≠ "OPTIONS" →
      (Register Method).drop 3 = [.serveNext] ∧
      (Register Method).count .serveNext = 1) := by
  refine ⟨?_, ?_, ?_⟩
  · have hjoin : String.intercalate ", "
        [MethodGet, MethodPost, MethodPut, MethodDelete, MethodOptions] =
        "GET, POST, PUT, DELETE, OPTIONS" := by decide
    by_cases h : Method = MethodOptions <;> simp [Register, h, hjoin]
  · intro h
    subst h
    decide
  · intro h
    have h2 : ¬ Method = MethodOptions := h
    simp [Register, h2]

/-- C24 at a preflight request. -/
theorem Register_cors_witness :
    (Register "OPTIONS").drop 3 = [.writeHeader 200] ∧
    (Register "OPTIONS").count .serveNext = 0 :=
  (Register_cors "OPTIONS").2.1 rfl

/-! ## The schedule download -/

/-- C25: when `DownloadStudentSchedule` succeeds (the id parses, the student is
found, the schedule is read and the PDF is generated), the single response has
status 200, `Content-Type` "application/pdf", `Content-Disposition` equal to
"attachment; filename=schedule_" followed by the first name, "_", the last name
and ".pdf" of the student that was looked up, `Content-Length` equal to the
decimal length of the generated bytes, and those bytes as its body. -/
theorem DownloadStudentSchedule_success (idStr : String) (id : Int)
    (QueryRow : Int → Except StoreError StudentInfoRow)
    (Query : Int → Except StoreError (Rows ScheduleItem))
    (Output : String → List (List String) → Except String (List Nat))
    (student : StudentInfoRow) (rows : Rows ScheduleItem) (scheduleItems : Slice ScheduleItem)
    (buf : List Nat)
    (hparse : Atoi idStr = some id) (hlookup : QueryRow id = .ok student)
    (hquery : Query id = .ok rows) (hscan : scanRows rows.scans none = .ok scheduleItems)
    (hpdf : Output ("Schedule for " ++ student.first_name ++ " " ++ student.last_name ++
        " (" ++ student.student_id ++ ")")
      ((scheduleItems.getD []).map scheduleCells) = .ok buf) :
    responses (DownloadStudentSchedule idStr QueryRow Query Output) =
      [{ status := 200
         contentType := "application/pdf"
         contentDisposition := some ("attachment; filename=schedule_" ++ student.first_name ++
           "_" ++ student.last_name ++ ".pdf")
         contentLength := some (toString buf.length)
         payload := .raw buf }] := by
  have hname : "attachment; filename=" ++
      ("schedule_" ++ student.first_name ++ "_" ++ student.last_name ++ ".pdf") =
      "attachment; filename=schedule_" ++ student.first_name ++ "_" ++ student.last_name ++
        ".pdf" := by
    have hlit : "attachment; filename=" ++ "schedule_" = "attachment; filename=schedule_" := by
      decide
    rw [← hlit]
    simp only [String.append_assoc]
  simp [DownloadStudentSchedule, hparse, hlookup, hquery, hscan, hpdf, StatusOK, hname]

/-- C25 at a student without enrollments whose document has four bytes. -/
theorem DownloadStudentSchedule_success_witness :
    responses (DownloadStudentSchedule "1" (fun _ => .ok sampleStudentInfo)
        (fun _ => .ok { scans := [], Err := none }) (fun _ _ => .ok [37, 80, 68, 70])) =
      [{ status := 200
         contentType := "application/pdf"
         contentDisposition := some ("attachment; filename=schedule_" ++
           sampleStudentInfo.first_name ++ "_" ++ sampleStudentInfo.last_name ++ ".pdf")
         contentLength := some (toString [37, 80, 68, 70].length)
         payload := .raw [37, 80, 68, 70] }] :=
  DownloadStudentSchedule_success "1" 1 (fun _ => .ok sampleStudentInfo)
    (fun _ => .ok { scans := [], Err := none }) (fun _ _ => .ok [37, 80, 68, 70])
    sampleStudentInfo { scans := [], Err := none } none [37, 80, 68, 70]
    (by decide) rfl rfl rfl rfl

/-! ## FormatDays -/

/-- The lookup in `dayAbbr` finds nothing for a string that is none of the five
lowercase weekday names. -/
theorem dayAbbr_lookup_other (day : String)
    (h : ¬(day = "monday" ∨ day = "tuesday" ∨ day = "wednesday" ∨ day = "thursday" ∨
      day = "friday")) :
    dayAbbr.lookup day = none := by
  have e1 : (day == "monday") = false := by
    simpa using fun hd => h (by simp [hd])
  have e2 : (day == "tuesday") = false := by
    simpa using fun hd => h (by simp [hd])
  have e3 : (day == "wednesday") = false := by
    simpa using fun hd => h (by simp [hd])
  have e4 : (day == "thursday") = false := by
    simpa using fun hd => h (by simp [hd])
  have e5 : (day == "friday") = false := by
    simpa using fun hd => h (by simp [hd])
  simp [dayAbbr, List.lookup, e1, e2, e3, e4, e5]

/-- The result of `FormatDays` at a position is the abbreviation of the input at
that position. -/
theorem FormatDays_at (days : List String) (i : Nat) :
    (FormatDays days)[i]? = (days[i]?).map (fun day => (dayAbbr.lookup day).getD "") := by
  simp [FormatDays]

/-- C26: on a list of names drawn from monday..friday, `FormatDays` returns a
list of the same length whose element at each position is the abbreviation of
the name at that position: M, Tu, W, Th, F for monday, tuesday, wednesday,
thursday, friday. -/
theorem FormatDays_weekdays (days : List String)
    (hdays : ∀ day, day ∈ days →
      day = "monday" ∨ day = "tuesday" ∨ day = "wednesday" ∨ day = "thursday" ∨
        day = "friday") :
    (FormatDays days).length = days.length ∧
    ∀ (i : Nat) (day : String), days[i]? = some day →
      ∃ out, (FormatDays days)[i]? = some out ∧
        ((day = "monday" ∧ out = "M") ∨ (day = "tuesday" ∧ out = "Tu") ∨
          (day = "wednesday" ∧ out = "W") ∨ (day = "thursday" ∧ out = "Th") ∨
          (day = "friday" ∧ out = "F")) := by
  refine ⟨by simp [FormatDays], ?_⟩
  intro i day hget
  refine ⟨(dayAbbr.lookup day).getD "", by simp [FormatDays_at, hget], ?_⟩
  have hmem : day ∈ days := List.getElem?_mem hget
  rcases hdays day hmem with h | h | h | h | h <;> subst h <;> decide

/-- C26 at the days of the integration test section. -/
theorem FormatDays_weekdays_witness :
    (FormatDays ["monday", "wednesday", "friday"]).length = 3 ∧
    ∀ (i : Nat) (day : String), ["monday", "wednesday", "friday"][i]? = some day →
      ∃ out, (FormatDays ["monday", "wednesday", "friday"])[i]? = some out ∧
        ((day = "monday" ∧ out = "M") ∨ (day = "tuesday" ∧ out = "Tu") ∨
          (day = "wednesday" ∧ out = "W") ∨ (day = "thursday" ∧ out = "Th") ∨
          (day = "friday" ∧ out = "F")) :=
  FormatDays_weekdays ["monday", "wednesday", "friday"] (by decide)

/-- C30: `FormatDays` is defined on every list of strings and keeps its length;
every element that is not exactly one of the five lowercase weekday names is
mapped to the empty string (so are "saturday", "Monday" and ""); the five
abbreviations are non-empty and pairwise distinct. -/
theorem FormatDays_total (days : List String) :
    (FormatDays days).length = days.length ∧
    (∀ (i : Nat) (day : String), days[i]? = some day →
      ¬(day = "monday" ∨ day = "tuesday" ∨ day = "wednesday" ∨ day = "thursday" ∨
        day = "friday") →
      (FormatDays days)[i]? = some "") ∧
    FormatDays ["saturday", "Monday", ""] = ["", "", ""] ∧
    FormatDays ["monday", "tuesday", "wednesday", "thursday", "friday"] =
      ["M", "Tu", "W", "Th", "F"] ∧
    ["M", "Tu", "W", "Th", "F"].Nodup ∧
    (∀ abbr, abbr ∈ ["M", "Tu", "W", "Th", "F"] → abbr ≠ "") := by
  refine ⟨by simp [FormatDays], ?_, by decide, by decide, by decide, by decide⟩
  intro i day hget hother
  simp [FormatDays_at, hget, dayAbbr_lookup_other day hother]

/-- C30 at the list of the three examples. -/
theorem FormatDays_total_witness :
    (FormatDays ["saturday", "Monday", ""])[1]? = some "" :=
  (FormatDays_total ["saturday", "Monday", ""]).2.1 1 "Monday" rfl (by decide)

/-! ## The acceptance condition of section creation -/

/-- Validation passes exactly when every id and the enrollment limit is
positive, code and start time are non-empty, the duration is 50 or 80, and the
days are a non-empty list of weekday names. -/
theorem validateSection_eq_none_iff (sectionReq : CreateSectionRequest) :
    validateSection sectionReq = none ↔
      0 < sectionReq.SubjectID ∧ 0 < sectionReq.TeacherID ∧ 0 < sectionReq.ClassroomID ∧
      sectionReq.SectionCode ≠ "" ∧ sectionReq.StartTime ≠ "" ∧
      (sectionReq.DurationMinutes = 50 ∨ sectionReq.DurationMinutes = 80) ∧
      0 < sectionReq.MaxEnrollment ∧ sectionReq.Days ≠ [] ∧
      ∀ day, day ∈ sectionReq.Days →
        day = "monday" ∨ day = "tuesday" ∨ day = "wednesday" ∨ day = "thursday" ∨
          day = "friday" := by
  constructor
  · intro h
    unfold validateSection at h
    split at h
    · cases h
    · split at h
      · cases h
      · split at h
        · cases h
        · rename_i h1 h2 h3
          simp only [not_or, not_le] at h1
          obtain ⟨a1, a2, a3, a4, a5, _, a7, a8⟩ := h1
          refine ⟨a1, a2, a3, a4, a5, ?_, a7, ?_, ?_⟩
          · by_contra hd
            exact h2 ⟨fun e => hd (Or.inl e), fun e => hd (Or.inr e)⟩
          · intro hnil
            exact a8 (by simp [hnil])
          · intro day hmem
            apply (validDays_iff day).mp
            by_contra hv
            exact h3 (List.any_eq_true.mpr ⟨day, hmem, by simpa using hv⟩)
  · rintro ⟨a1, a2, a3, a4, a5, a6, a7, a8, a9⟩
    have hd : 0 < sectionReq.DurationMinutes := by
      rcases a6 with e | e <;> omega
    have hlen : sectionReq.Days.length ≠ 0 := by
      simpa using a8
    have h1 : ¬(sectionReq.SubjectID ≤ 0 ∨ sectionReq.TeacherID ≤ 0 ∨
        sectionReq.ClassroomID ≤ 0 ∨ sectionReq.SectionCode = "" ∨ sectionReq.StartTime = "" ∨
        sectionReq.DurationMinutes ≤ 0 ∨ sectionReq.MaxEnrollment ≤ 0 ∨
        sectionReq.Days.length = 0) := by
      simp only [not_or, not_le]
      exact ⟨a1, a2, a3, a4, a5, hd, a7, hlen⟩
    have h2 : ¬(sectionReq.DurationMinutes ≠ 50 ∧ sectionReq.DurationMinutes ≠ 80) := by
      rintro ⟨n50, n80⟩
      rcases a6 with e | e
      · exact n50 e
      · exact n80 e
    have h3 : ¬(sectionReq.Days.any (fun day => !validDays day) = true) := by
      intro hany
      obtain ⟨day, hmem, hbad⟩ := List.any_eq_true.mp hany
      have := (validDays_iff day).mpr (a9 day hmem)
      simp [this] at hbad
    unfold validateSection
    rw [if_neg h1, if_neg h2, if_neg h3]

/-- The handler opens a transaction exactly for the bodies that decode and pass
validation. -/
theorem CreateSection_begin_iff (body : Option CreateSectionRequest) (db : SectionDB)
    (st : Store) :
    Stmt.Begin ∈ stmts (CreateSection body db st).1 ↔
      ∃ sectionReq, body = some sectionReq ∧ validateSection sectionReq = none := by
  cases body with
  | none => simp [CreateSection]
  | some sectionReq =>
    cases hv : validateSection sectionReq with
    | some message => simp [CreateSection, hv]
    | none =>
      cases hb : db.Begin with
      | some e => simp [CreateSection, hv, hb]
      | none => simp [CreateSection, hv, hb]

/-- C27: `CreateSection` opens a transaction if and only if the body decodes,
subject, teacher and classroom id are positive, section code and start time
are non-empty, the duration is 50 or 80, the enrollment limit is positive, and
the days are a non-empty list of the five weekday names.  A request with an
enrollment limit of zero or less gets 400 without a store call, and a request
whose start time is "noon" passes: its insert is sent to the store. -/
theorem CreateSection_accepts_iff (body : Option CreateSectionRequest) (db : SectionDB)
    (st : Store) :
    (Stmt.Begin ∈ stmts (CreateSection body db st).1 ↔
      ∃ sectionReq, body = some sectionReq ∧
        0 < sectionReq.SubjectID ∧ 0 < sectionReq.TeacherID ∧ 0 < sectionReq.ClassroomID ∧
        sectionReq.SectionCode ≠ "" ∧ sectionReq.StartTime ≠ "" ∧
        (sectionReq.DurationMinutes = 50 ∨ sectionReq.DurationMinutes = 80) ∧
        0 < sectionReq.MaxEnrollment ∧ sectionReq.Days ≠ [] ∧
        ∀ day, day ∈ sectionReq.Days →
          day = "monday" ∨ day = "tuesday" ∨ day = "wednesday" ∨ day = "thursday" ∨
            day = "friday") ∧
    (∀ sectionReq, body = some sectionReq → sectionReq.MaxEnrollment ≤ 0 →
      responses (CreateSection body db st).1 =
        [SendError StatusBadRequest "All fields are required"] ∧
      stmts (CreateSection body db st).1 = []) ∧
    (db.Begin = none →
      stmts (CreateSection (some noonReq) db st).1 ≠ [] ∧
      (stmts (CreateSection (some noonReq) db st).1).take 2 =
        [Stmt.Begin, Stmt.InsertSection 1 1 1 "001" "noon" 50 30]) := by
  refine ⟨?_, ?_, ?_⟩
  · rw [CreateSection_begin_iff]
    constructor
    · rintro ⟨sectionReq, hbody, hv⟩
      exact ⟨sectionReq, hbody, (validateSection_eq_none_iff sectionReq).mp hv⟩
    · rintro ⟨sectionReq, hbody, hcond⟩
      exact ⟨sectionReq, hbody, (validateSection_eq_none_iff sectionReq).mpr hcond⟩
  · intro sectionReq hbody hmax
    subst hbody
    have hv : validateSection sectionReq = some "All fields are required" := by
      unfold validateSection
      rw [if_pos]
      simp [hmax]
    rw [CreateSection_rejected sectionReq db st _ hv]
    exact ⟨rfl, rfl⟩
  · intro hb
    have hv : validateSection noonReq = none := by decide
    cases hq : db.QueryRow with
    | error err =>
      simp only [CreateSection, hv, hb, createSectionTx, hq]
      simp [noonReq, sampleSectionReq]
    | ok row =>
      simp only [CreateSection, hv, hb, createSectionTx, hq]
      split
      · simp [noonReq, sampleSectionReq]
      · split <;> simp [noonReq, sampleSectionReq]

/-- C27 at a request whose enrollment limit is zero. -/
theorem CreateSection_accepts_iff_witness :
    responses (CreateSection (some { sampleSectionReq with MaxEnrollment := 0 })
        sampleDB emptyStore).1 =
      [SendError StatusBadRequest "All fields are required"] ∧
    stmts (CreateSection (some { sampleSectionReq with MaxEnrollment := 0 })
        sampleDB emptyStore).1 = [] :=
  (CreateSection_accepts_iff (some { sampleSectionReq with MaxEnrollment := 0 })
    sampleDB emptyStore).2.1 { sampleSectionReq with MaxEnrollment := 0 } rfl (by decide)

/-! ## Days as a sequence -/

/-- Keeping only the day inserts of a list of day inserts keeps them all. -/
theorem filter_dayInserts (sectionID : Int) (days : List String) :
    (days.map (fun day => Stmt.InsertSectionDay sectionID day)).filter Stmt.isDayInsert =
      days.map (fun day => Stmt.InsertSectionDay sectionID day) := by
  induction days with
  | nil => rfl
  | cons day rest ih => simp [Stmt.isDayInsert, ih]

/-- C28: validation treats the days as a sequence.  Replacing the days of a valid
request by any non-empty list of weekday names, with repetitions and of any
length, gives a valid request (so do the days monday, monday, and a list of six
names); and when the store accepts the section and every day insert, the day
inserts the handler issues are one per list element, in list order, each with
the new section id. -/
theorem CreateSection_days_sequence (sectionReq : CreateSectionRequest) (days : List String)
    (db : SectionDB) (st : Store) (row : SectionRow)
    (hvalid : validateSection sectionReq = none) (hne : days ≠ [])
    (hdays : ∀ day, day ∈ days →
      day = "monday" ∨ day = "tuesday" ∨ day = "wednesday" ∨ day = "thursday" ∨
        day = "friday")
    (hb : db.Begin = none) (hq : db.QueryRow = .ok row)
    (hexec : ∀ k, k < days.length → db.Exec k = none) :
    validateSection { sectionReq with Days := days } = none ∧
    (stmts (CreateSection (some { sectionReq with Days := days }) db st).1).filter
        Stmt.isDayInsert =
      days.map (fun day => Stmt.InsertSectionDay row.id day) ∧
    validateSection mondayTwiceReq = none ∧
    validateSection sixDaysReq = none := by
  have hv : validateSection { sectionReq with Days := days } = none := by
    obtain ⟨a1, a2, a3, a4, a5, a6, a7, _, _⟩ := (validateSection_eq_none_iff sectionReq).mp hvalid
    exact (validateSection_eq_none_iff _).mpr ⟨a1, a2, a3, a4, a5, a6, a7, hne, hdays⟩
  refine ⟨hv, ?_, by decide, by decide⟩
  have hl := insertDays_succeeds db (scanSection row).ID days 0
    (st.Begin.InsertSection row) (by intro k hk; simpa using hexec k hk)
  have hstmts := (insertDays_ok db (scanSection row).ID days 0
    (st.Begin.InsertSection row) hl).2.1
  have hid : (scanSection row).ID = row.id := rfl
  rw [hid] at hl hstmts
  have hfilter := filter_dayInserts row.id days
  cases hc : db.Commit with
  | some e =>
    simp [CreateSection, hv, hb, createSectionTx, hq, hl, hc, hstmts, scanSection,
      List.filter_cons, Stmt.isDayInsert, hfilter]
  | none =>
    simp [CreateSection, hv, hb, createSectionTx, hq, hl, hc, hstmts, scanSection,
      List.filter_cons, Stmt.isDayInsert, hfilter]

/-- C28 at the days monday, monday. -/
theorem CreateSection_days_sequence_witness :
    (stmts (CreateSection (some { sampleSectionReq with Days := ["monday", "monday"] })
        sampleDB emptyStore).1).filter Stmt.isDayInsert =
      [Stmt.InsertSectionDay 7 "monday", Stmt.InsertSectionDay 7 "monday"] :=
  (CreateSection_days_sequence sampleSectionReq ["monday", "monday"] sampleDB emptyStore
    sampleSectionRow (by decide) (by decide) (by decide) rfl rfl (fun _ _ => rfl)).2.1

/-! ## Exact matching of enrollment errors -/

/-- C29: `EnrollStudent` answers a failed insert with 409 exactly when the error
is a store error whose whole message equals one of the two recognised strings;
the error code plays no part.  So a duplicate enrollment (code 23505), a message
in other case, one without its final period, one with text around it, and an
error that is no store error but whose text is a recognised message all get
500. -/
theorem EnrollStudent_exact_message (enrollment : EnrollmentRequest) (err : StoreError) :
    ((∃ r, r ∈ responses (EnrollStudent (some enrollment) (.error err)) ∧
        r.status = StatusConflict) ↔
      ∃ pgErr, err.As = some pgErr ∧
        (pgErr.Message = "Schedule conflict detected. Cannot enroll in this section." ∨
          pgErr.Message = "Section is full. Cannot enroll.")) ∧
    responses (EnrollStudent (some enrollment) (.error enrollmentDuplicate)) =
      [SendError StatusInternalServerError
        ("Failed to enroll student: " ++ enrollmentDuplicate.Error)] ∧
    responses (EnrollStudent (some enrollment)
        (.error (raised "section is full. cannot enroll."))) =
      [SendError StatusInternalServerError
        ("Failed to enroll student: " ++ (raised "section is full. cannot enroll.").Error)] ∧
    responses (EnrollStudent (some enrollment)
        (.error (raised "Section is full. Cannot enroll"))) =
      [SendError StatusInternalServerError
        ("Failed to enroll student: " ++ (raised "Section is full. Cannot enroll").Error)] ∧
    responses (EnrollStudent (some enrollment)
        (.error (raised "ERROR: Section is full. Cannot enroll. (section 7)"))) =
      [SendError StatusInternalServerError
        ("Failed to enroll student: " ++
          (raised "ERROR: Section is full. Cannot enroll. (section 7)").Error)] ∧
    responses (EnrollStudent (some enrollment)
        (.error (plainError "Section is full. Cannot enroll."))) =
      [SendError StatusInternalServerError
        "Failed to enroll student: Section is full. Cannot enroll."] := by
  refine ⟨?_, ?_, ?_, ?_, ?_, ?_⟩
  · cases has : err.As with
    | none => simp [EnrollStudent, has, SendError, StatusInternalServerError, StatusConflict]
    | some pgErr =>
      by_cases h1 : pgErr.Message = "Schedule conflict detected. Cannot enroll in this section."
      · simp [EnrollStudent, has, h1, SendError]
      · by_cases h2 : pgErr.Message = "Section is full. Cannot enroll."
        · simp [EnrollStudent, has, h2, SendError]
        · simp [EnrollStudent, has, h1, h2, SendError, StatusInternalServerError,
            StatusConflict]
  · simp [EnrollStudent, enrollmentDuplicate]
  · simp [EnrollStudent, raised]
  · simp [EnrollStudent, raised]
  · simp [EnrollStudent, raised]
  · simp [EnrollStudent, plainError]

/-! ## One response per request -/
/-- The student list handler writes one well-formed response. -/
theorem GetStudents_shape (Query : Except StoreError (Rows Student)) :
    ∃ r, responses (GetStudents Query) = [r] ∧ r.wellFormed := by
  simp only [GetStudents]
  repeat' split
  all_goals first
    | exact ⟨_, rfl, Or.inl (Or.inl rfl)⟩
    | exact ⟨_, rfl, Or.inl (Or.inr rfl)⟩
    | exact ⟨_, rfl, Or.inr ⟨_, _, rfl, by decide⟩⟩

/-- The student list handler issues no statement twice. -/
theorem GetStudents_once (Query : Except StoreError (Rows Student)) :
    issuedOnce (stmts (GetStudents Query)) := by
  simp only [GetStudents]
  repeat' split
  all_goals (intro q hq _; simp at hq; subst hq; simp)

/-- The lookup by id writes one well-formed response. -/
theorem GetStudentByID_shape (idStr : String) (QueryRow : Int → Except StoreError StudentRow) :
    ∃ r, responses (GetStudentByID idStr QueryRow) = [r] ∧ r.wellFormed := by
  simp only [GetStudentByID]
  repeat' split
  all_goals first
    | exact ⟨_, rfl, Or.inl (Or.inl rfl)⟩
    | exact ⟨_, rfl, Or.inl (Or.inr rfl)⟩
    | exact ⟨_, rfl, Or.inr ⟨_, _, rfl, by decide⟩⟩

/-- The lookup by id issues no statement twice. -/
theorem GetStudentByID_once (idStr : String) (QueryRow : Int → Except StoreError StudentRow) :
    issuedOnce (stmts (GetStudentByID idStr QueryRow)) := by
  simp only [GetStudentByID]
  repeat' split
  all_goals (intro q hq _; simp at hq <;> subst hq <;> simp)

/-- The schedule handler writes one well-formed response. -/
theorem GetStudentSchedule_shape (idStr : String) (Query : Int → Except StoreError (Rows ScheduleItem)) :
    ∃ r, responses (GetStudentSchedule idStr Query) = [r] ∧ r.wellFormed := by
  simp only [GetStudentSchedule]
  repeat' split
  all_goals first
    | exact ⟨_, rfl, Or.inl (Or.inl rfl)⟩
    | exact ⟨_, rfl, Or.inl (Or.inr rfl)⟩
    | exact ⟨_, rfl, Or.inr ⟨_, _, rfl, by decide⟩⟩

/-- The schedule handler issues no statement twice. -/
theorem GetStudentSchedule_once (idStr : String) (Query : Int → Except StoreError (Rows ScheduleItem)) :
    issuedOnce (stmts (GetStudentSchedule idStr Query)) := by
  simp only [GetStudentSchedule]
  repeat' split
  all_goals (intro q hq _; simp at hq <;> subst hq <;> simp)

/-- The student create handler writes one well-formed response. -/
theorem CreateStudent_shape (body : Option CreateStudentRequest) (QueryRow : Except StoreError StudentRow) :
    ∃ r, responses (CreateStudent body QueryRow) = [r] ∧ r.wellFormed := by
  simp only [CreateStudent]
  repeat' split
  all_goals first
    | exact ⟨_, rfl, Or.inl (Or.inl rfl)⟩
    | exact ⟨_, rfl, Or.inl (Or.inr rfl)⟩
    | exact ⟨_, rfl, Or.inr ⟨_, _, rfl, by decide⟩⟩

/-- The student create handler issues no statement twice. -/
theorem CreateStudent_once (body : Option CreateStudentRequest) (QueryRow : Except StoreError StudentRow) :
    issuedOnce (stmts (CreateStudent body QueryRow)) := by
  simp only [CreateStudent]
  repeat' split
  all_goals (intro q hq _; simp at hq <;> subst hq <;> simp)

/-- The drop handler writes one well-formed response. -/
theorem DropSection_shape (studentIDStr sectionIDStr : String) (Exec : Int → Int → Except StoreError Int) :
    ∃ r, responses (DropSection studentIDStr sectionIDStr Exec) = [r] ∧ r.wellFormed := by
  simp only [DropSection]
  repeat' split
  all_goals first
    | exact ⟨_, rfl, Or.inl (Or.inl rfl)⟩
    | exact ⟨_, rfl, Or.inl (Or.inr rfl)⟩
    | exact ⟨_, rfl, Or.inr ⟨_, _, rfl, by decide⟩⟩

/-- The drop handler issues no statement twice. -/
theorem DropSection_once (studentIDStr sectionIDStr : String) (Exec : Int → Int → Except StoreError Int) :
    issuedOnce (stmts (DropSection studentIDStr sectionIDStr Exec)) := by
  simp only [DropSection]
  repeat' split
  all_goals (intro q hq _; simp at hq <;> subst hq <;> simp)

/-- The teacher list handler writes one well-formed response. -/
theorem GetTeachers_shape (Query : Except StoreError (Rows Teacher)) :
    ∃ r, responses (GetTeachers Query) = [r] ∧ r.wellFormed := by
  simp only [GetTeachers]
  repeat' split
  all_goals first
    | exact ⟨_, rfl, Or.inl (Or.inl rfl)⟩
    | exact ⟨_, rfl, Or.inl (Or.inr rfl)⟩
    | exact ⟨_, rfl, Or.inr ⟨_, _, rfl, by decide⟩⟩

/-- The teacher list handler issues no statement twice. -/
theorem GetTeachers_once (Query : Except StoreError (Rows Teacher)) :
    issuedOnce (stmts (GetTeachers Query)) := by
  simp only [GetTeachers]
  repeat' split
  all_goals (intro q hq _; simp at hq; subst hq; simp)

/-- The teacher create handler writes one well-formed response. -/
theorem CreateTeacher_shape (body : Option Teacher) (QueryRow : Except StoreError (Int × Time × Time)) :
    ∃ r, responses (CreateTeacher body QueryRow) = [r] ∧ r.wellFormed := by
  simp only [CreateTeacher]
  repeat' split
  all_goals first
    | exact ⟨_, rfl, Or.inl (Or.inl rfl)⟩
    | exact ⟨_, rfl, Or.inl (Or.inr rfl)⟩
    | exact ⟨_, rfl, Or.inr ⟨_, _, rfl, by decide⟩⟩

/-- The teacher create handler issues no statement twice. -/
theorem CreateTeacher_once (body : Option Teacher) (QueryRow : Except StoreError (Int × Time × Time)) :
    issuedOnce (stmts (CreateTeacher body QueryRow)) := by
  simp only [CreateTeacher]
  repeat' split
  all_goals (intro q hq _; simp at hq <;> subst hq <;> simp)

/-- The subject list handler writes one well-formed response. -/
theorem GetSubjects_shape (Query : Except StoreError (Rows Subject)) :
    ∃ r, responses (GetSubjects Query) = [r] ∧ r.wellFormed := by
  simp only [GetSubjects]
  repeat' split
  all_goals first
    | exact ⟨_, rfl, Or.inl (Or.inl rfl)⟩
    | exact ⟨_, rfl, Or.inl (Or.inr rfl)⟩
    | exact ⟨_, rfl, Or.inr ⟨_, _, rfl, by decide⟩⟩

/-- The subject list handler issues no statement twice. -/
theorem GetSubjects_once (Query : Except StoreError (Rows Subject)) :
    issuedOnce (stmts (GetSubjects Query)) := by
  simp only [GetSubjects]
  repeat' split
  all_goals (intro q hq _; simp at hq; subst hq; simp)

/-- The subject create handler writes one well-formed response. -/
theorem CreateSubject_shape (body : Option Subject) (QueryRow : Except StoreError (Int × Time × Time)) :
    ∃ r, responses (CreateSubject body QueryRow) = [r] ∧ r.wellFormed := by
  simp only [CreateSubject]
  repeat' split
  all_goals first
    | exact ⟨_, rfl, Or.inl (Or.inl rfl)⟩
    | exact ⟨_, rfl, Or.inl (Or.inr rfl)⟩
    | exact ⟨_, rfl, Or.inr ⟨_, _, rfl, by decide⟩⟩

/-- The subject create handler issues no statement twice. -/
theorem CreateSubject_once (body : Option Subject) (QueryRow : Except StoreError (Int × Time × Time)) :
    issuedOnce (stmts (CreateSubject body QueryRow)) := by
  simp only [CreateSubject]
  repeat' split
  all_goals (intro q hq _; simp at hq <;> subst hq <;> simp)

/-- The classroom list handler writes one well-formed response. -/
theorem GetClassrooms_shape (Query : Except StoreError (Rows Classroom)) :
    ∃ r, responses (GetClassrooms Query) = [r] ∧ r.wellFormed := by
  simp only [GetClassrooms]
  repeat' split
  all_goals first
    | exact ⟨_, rfl, Or.inl (Or.inl rfl)⟩
    | exact ⟨_, rfl, Or.inl (Or.inr rfl)⟩
    | exact ⟨_, rfl, Or.inr ⟨_, _, rfl, by decide⟩⟩

/-- The classroom list handler issues no statement twice. -/
theorem GetClassrooms_once (Query : Except StoreError (Rows Classroom)) :
    issuedOnce (stmts (GetClassrooms Query)) := by
  simp only [GetClassrooms]
  repeat' split
  all_goals (intro q hq _; simp at hq; subst hq; simp)

/-- The classroom create handler writes one well-formed response. -/
theorem CreateClassroom_shape (body : Option Classroom) (QueryRow : Except StoreError (Int × Time × Time)) :
    ∃ r, responses (CreateClassroom body QueryRow) = [r] ∧ r.wellFormed := by
  simp only [CreateClassroom]
  repeat' split
  all_goals first
    | exact ⟨_, rfl, Or.inl (Or.inl rfl)⟩
    | exact ⟨_, rfl, Or.inl (Or.inr rfl)⟩
    | exact ⟨_, rfl, Or.inr ⟨_, _, rfl, by decide⟩⟩

/-- The classroom create handler issues no statement twice. -/
theorem CreateClassroom_once (body : Option Classroom) (QueryRow : Except StoreError (Int × Time × Time)) :
    issuedOnce (stmts (CreateClassroom body QueryRow)) := by
  simp only [CreateClassroom]
  repeat' split
  all_goals (intro q hq _; simp at hq <;> subst hq <;> simp)

/-- The section list handler writes one well-formed response. -/
theorem GetSections_shape (Query : Except StoreError (Rows Section)) :
    ∃ r, responses (GetSections Query) = [r] ∧ r.wellFormed := by
  simp only [GetSections]
  repeat' split
  all_goals first
    | exact ⟨_, rfl, Or.inl (Or.inl rfl)⟩
    | exact ⟨_, rfl, Or.inl (Or.inr rfl)⟩
    | exact ⟨_, rfl, Or.inr ⟨_, _, rfl, by decide⟩⟩

/-- The section list handler issues no statement twice. -/
theorem GetSections_once (Query : Except StoreError (Rows Section)) :
    issuedOnce (stmts (GetSections Query)) := by
  simp only [GetSections]
  repeat' split
  all_goals (intro q hq _; simp at hq; subst hq; simp)

/-- The enrollment handler writes one well-formed response. -/
theorem EnrollStudent_shape (body : Option EnrollmentRequest) (QueryRow : Except StoreError (Int × Time)) :
    ∃ r, responses (EnrollStudent body QueryRow) = [r] ∧ r.wellFormed := by
  simp only [EnrollStudent]
  repeat' split
  all_goals first
    | exact ⟨_, rfl, Or.inl (Or.inl rfl)⟩
    | exact ⟨_, rfl, Or.inl (Or.inr rfl)⟩
    | exact ⟨_, rfl, Or.inr ⟨_, _, rfl, by decide⟩⟩

/-- The enrollment handler issues no statement twice. -/
theorem EnrollStudent_once (body : Option EnrollmentRequest) (QueryRow : Except StoreError (Int × Time)) :
    issuedOnce (stmts (EnrollStudent body QueryRow)) := by
  simp only [EnrollStudent]
  repeat' split
  all_goals (intro q hq _; simp at hq <;> subst hq <;> simp)

/-- The download handler writes one well-formed response. -/
theorem DownloadStudentSchedule_shape (idStr : String)
    (QueryRow : Int → Except StoreError StudentInfoRow)
    (Query : Int → Except StoreError (Rows ScheduleItem))
    (Output : String → List (List String) → Except String (List Nat)) :
    ∃ r, responses (DownloadStudentSchedule idStr QueryRow Query Output) = [r] ∧
      r.wellFormed := by
  simp only [DownloadStudentSchedule]
  repeat' split
  all_goals first
    | exact ⟨_, rfl, Or.inl (Or.inl rfl)⟩
    | exact ⟨_, rfl, Or.inl (Or.inr rfl)⟩
    | exact ⟨_, rfl, Or.inr ⟨_, _, rfl, by decide⟩⟩

/-- The download handler issues no statement twice. -/
theorem DownloadStudentSchedule_once (idStr : String)
    (QueryRow : Int → Except StoreError StudentInfoRow)
    (Query : Int → Except StoreError (Rows ScheduleItem))
    (Output : String → List (List String) → Except String (List Nat)) :
    issuedOnce (stmts (DownloadStudentSchedule idStr QueryRow Query Output)) := by
  simp only [DownloadStudentSchedule]
  repeat' split
  all_goals (intro q hq _; simp at hq)
  all_goals first
    | (subst hq; simp)
    | (rcases hq with hq | hq <;> subst hq <;> simp)
/-- The response to a failed section insert is built by `SendError`. -/
theorem sectionInsertError_wellFormed (err : StoreError) :
    (sectionInsertError err).wellFormed := by
  unfold sectionInsertError
  repeat' split
  all_goals exact Or.inr ⟨_, _, rfl, by decide⟩

/-- The section create handler writes one well-formed response. -/
theorem CreateSection_shape (body : Option CreateSectionRequest) (db : SectionDB) (st : Store) :
    ∃ r, responses (CreateSection body db st).1 = [r] ∧ r.wellFormed := by
  cases body with
  | none => exact ⟨_, rfl, Or.inr ⟨_, _, rfl, by decide⟩⟩
  | some sectionReq =>
    cases hv : validateSection sectionReq with
    | some message =>
      rw [CreateSection_rejected sectionReq db st message hv]
      exact ⟨_, rfl, Or.inr ⟨_, _, rfl, by decide⟩⟩
    | none =>
      cases hb : db.Begin with
      | some e =>
        simp only [CreateSection, hv, hb]
        exact ⟨_, rfl, Or.inr ⟨_, _, rfl, by decide⟩⟩
      | none =>
        cases hq : db.QueryRow with
        | error err =>
          simp only [CreateSection, hv, hb, createSectionTx, hq]
          exact ⟨_, rfl, sectionInsertError_wellFormed err⟩
        | ok row =>
          have hquiet := (insertDays_quiet db (scanSection row).ID sectionReq.Days 0
            (st.Begin.InsertSection row)).1
          cases hl : (insertDays db (scanSection row).ID sectionReq.Days 0
              (st.Begin.InsertSection row)).2.2 with
          | some err =>
            refine ⟨SendError StatusInternalServerError
              ("Failed to add section day: " ++ err.Error), ?_, Or.inr ⟨_, _, rfl, by decide⟩⟩
            simp [CreateSection, hv, hb, createSectionTx, hq, hl, hquiet]
          | none =>
            cases hc : db.Commit with
            | some e =>
              refine ⟨SendError StatusInternalServerError "Failed to commit transaction", ?_,
                Or.inr ⟨_, _, rfl, by decide⟩⟩
              simp [CreateSection, hv, hb, createSectionTx, hq, hl, hc, hquiet]
            | none =>
              refine ⟨SendJSON StatusCreated
                (.section { scanSection row with Days := sectionReq.Days }), ?_,
                Or.inl (Or.inr rfl)⟩
              simp [CreateSection, hv, hb, createSectionTx, hq, hl, hc, hquiet]

/-- Every statement of the day loop is a day insert. -/
theorem insertDays_stmts_dayInserts (db : SectionDB) (sectionID : Int) :
    ∀ (days : List String) (i : Nat) (st : Store) (q : Stmt),
      q ∈ stmts (insertDays db sectionID days i st).1 → q.isDayInsert = true := by
  intro days
  induction days with
  | nil => intro i st q hq; simp [insertDays] at hq
  | cons day rest ih =>
    intro i st q hq
    unfold insertDays at hq
    cases h : db.Exec i with
    | some err =>
      simp [h] at hq
      subst hq
      rfl
    | none =>
      simp [h] at hq
      rcases hq with hq | hq
      · subst hq
        rfl
      · exact ih _ _ q hq

/-- A day loop stopped by its first failure, at position `k`, has issued the
inserts of the days up to and including that position and no other. -/
theorem insertDays_stmts_upto (db : SectionDB) (sectionID : Int) :
    ∀ (days : List String) (i : Nat) (st : Store) (k : Nat) (e : StoreError),
      k < days.length → db.Exec (i + k) = some e →
      (∀ j, j < k → db.Exec (i + j) = none) →
      stmts (insertDays db sectionID days i st).1 =
        (days.take (k + 1)).map (fun day => Stmt.InsertSectionDay sectionID day) ∧
      (insertDays db sectionID days i st).2.2 = some e := by
  intro days
  induction days with
  | nil => intro i st k e hk; simp at hk
  | cons day rest ih =>
    intro i st k e hk hfail hbefore
    unfold insertDays
    cases k with
    | zero =>
      have h0 : db.Exec i = some e := by simpa using hfail
      simp [h0]
    | succ k =>
      have h0 : db.Exec i = none := by simpa using hbefore 0 (by omega)
      have hrec := ih (i + 1) (st.InsertSectionDay ⟨sectionID, day⟩) k e
        (by simpa using hk)
        (by simpa [Nat.add_assoc, Nat.add_comm 1 k] using hfail)
        (by
          intro j hj
          have := hbefore (j + 1) (by omega)
          simpa [Nat.add_assoc, Nat.add_comm 1 j] using this)
      simp [h0, hrec.1, hrec.2]

/-- The section create handler issues begin, the section insert, commit and the
deferred rollback at most once each. -/
theorem CreateSection_once (body : Option CreateSectionRequest) (db : SectionDB) (st : Store) :
    issuedOnce (stmts (CreateSection body db st).1) := by
  intro q hq hnd
  cases body with
  | none => simp [CreateSection] at hq
  | some sectionReq =>
    cases hv : validateSection sectionReq with
    | some message => simp [CreateSection, hv] at hq
    | none =>
      cases hb : db.Begin with
      | some e =>
        simp [CreateSection, hv, hb] at hq ⊢
        subst hq
        simp
      | none =>
        cases hq2 : db.QueryRow with
        | error err =>
          simp [CreateSection, hv, hb, createSectionTx, hq2] at hq ⊢
          rcases hq with hq | hq | hq <;> subst hq <;> simp
        | ok row =>
          have hloop : ∀ q2, q2 ∈ stmts (insertDays db (scanSection row).ID sectionReq.Days 0
              (st.Begin.InsertSection row)).1 → q2.isDayInsert = true :=
            insertDays_stmts_dayInserts db _ _ _ _
          have hzero : List.count q (stmts (insertDays db (scanSection row).ID
              sectionReq.Days 0 (st.Begin.InsertSection row)).1) = 0 := by
            apply List.count_eq_zero_of_not_mem
            intro hmem
            rw [hloop q hmem] at hnd
            cases hnd
          have hnot : q ∉ stmts (insertDays db (scanSection row).ID
              sectionReq.Days 0 (st.Begin.InsertSection row)).1 := by
            intro hmem
            rw [hloop q hmem] at hnd
            cases hnd
          cases hl : (insertDays db (scanSection row).ID sectionReq.Days 0
              (st.Begin.InsertSection row)).2.2 with
          | some err =>
            simp only [CreateSection, hv, hb, createSectionTx, hq2, hl] at hq ⊢
            simp [hnot] at hq
            simp only [stmts_db, stmts_append, stmts_respond, stmts_nil, List.count_cons,
              List.count_append, hzero]
            rcases hq with hq | hq | hq <;> subst hq <;> simp
          | none =>
            cases hc : db.Commit with
            | some e =>
              simp only [CreateSection, hv, hb, createSectionTx, hq2, hl, hc] at hq ⊢
              simp [hnot] at hq
              simp only [stmts_db, stmts_append, stmts_respond, stmts_nil, List.count_cons,
                List.count_append, hzero]
              rcases hq with hq | hq | hq | hq <;> subst hq <;> simp
            | none =>
              simp only [CreateSection, hv, hb, createSectionTx, hq2, hl, hc] at hq ⊢
              simp [hnot] at hq
              simp only [stmts_db, stmts_append, stmts_respond, stmts_nil, List.count_cons,
                List.count_append, hzero]
              rcases hq with hq | hq | hq | hq <;> subst hq <;> simp
/-- Every call writes one well-formed response. -/
theorem Call_shape (c : Call) : ∃ r, responses c.trace = [r] ∧ r.wellFormed := by
  cases c with
  | GetStudents Query => exact GetStudents_shape Query
  | GetStudentByID idStr QueryRow => exact GetStudentByID_shape idStr QueryRow
  | GetStudentSchedule idStr Query => exact GetStudentSchedule_shape idStr Query
  | CreateStudent body QueryRow => exact CreateStudent_shape body QueryRow
  | DownloadStudentSchedule idStr QueryRow Query Output =>
    exact DownloadStudentSchedule_shape idStr QueryRow Query Output
  | DropSection studentIDStr sectionIDStr Exec =>
    exact DropSection_shape studentIDStr sectionIDStr Exec
  | GetTeachers Query => exact GetTeachers_shape Query
  | CreateTeacher body QueryRow => exact CreateTeacher_shape body QueryRow
  | GetSubjects Query => exact GetSubjects_shape Query
  | CreateSubject body QueryRow => exact CreateSubject_shape body QueryRow
  | GetClassrooms Query => exact GetClassrooms_shape Query
  | CreateClassroom body QueryRow => exact CreateClassroom_shape body QueryRow
  | GetSections Query => exact GetSections_shape Query
  | CreateSection body db st => exact CreateSection_shape body db st
  | EnrollStudent body QueryRow => exact EnrollStudent_shape body QueryRow

/-- No call issues a statement other than a day insert twice. -/
theorem Call_once (c : Call) : issuedOnce (stmts c.trace) := by
  cases c with
  | GetStudents Query => exact GetStudents_once Query
  | GetStudentByID idStr QueryRow => exact GetStudentByID_once idStr QueryRow
  | GetStudentSchedule idStr Query => exact GetStudentSchedule_once idStr Query
  | CreateStudent body QueryRow => exact CreateStudent_once body QueryRow
  | DownloadStudentSchedule idStr QueryRow Query Output =>
    exact DownloadStudentSchedule_once idStr QueryRow Query Output
  | DropSection studentIDStr sectionIDStr Exec =>
    exact DropSection_once studentIDStr sectionIDStr Exec
  | GetTeachers Query => exact GetTeachers_once Query
  | CreateTeacher body QueryRow => exact CreateTeacher_once body QueryRow
  | GetSubjects Query => exact GetSubjects_once Query
  | CreateSubject body QueryRow => exact CreateSubject_once body QueryRow
  | GetClassrooms Query => exact GetClassrooms_once Query
  | CreateClassroom body QueryRow => exact CreateClassroom_once body QueryRow
  | GetSections Query => exact GetSections_once Query
  | CreateSection body db st => exact CreateSection_once body db st
  | EnrollStudent body QueryRow => exact EnrollStudent_once body QueryRow

/-- C21: every handler, on every request and whatever the store answers, writes
exactly one response, whose status is 200, 201, 400, 404, 409 or 500; it issues
no statement twice, the day inserts of `CreateSection` apart, which are issued
once per position of the day list; and when the day insert at position `k` is
the first to fail, the statements of `CreateSection` are begin, the section
insert, the day inserts up to position `k` and the deferred rollback: the
failed insert is not issued again and nothing but the rollback follows it. -/
theorem one_response_no_retry (c : Call) (sectionReq : CreateSectionRequest) (db : SectionDB)
    (st : Store) (row : SectionRow) (k : Nat) (e : StoreError) :
    (∃ r, responses c.trace = [r] ∧
      (r.status = 200 ∨ r.status = 201 ∨ r.status = 400 ∨ r.status = 404 ∨
        r.status = 409 ∨ r.status = 500)) ∧
    (∀ q, q ∈ stmts c.trace → q.isDayInsert = false → (stmts c.trace).count q = 1) ∧
    (validateSection sectionReq = none → db.Begin = none → db.QueryRow = .ok row →
      k < sectionReq.Days.length → db.Exec k = some e → (∀ j, j < k → db.Exec j = none) →
      stmts (Call.CreateSection (some sectionReq) db st).trace =
        Stmt.Begin ::
          Stmt.InsertSection sectionReq.SubjectID sectionReq.TeacherID sectionReq.ClassroomID
            sectionReq.SectionCode sectionReq.StartTime sectionReq.DurationMinutes
            sectionReq.MaxEnrollment ::
          ((sectionReq.Days.take (k + 1)).map (fun day => Stmt.InsertSectionDay row.id day) ++
            [Stmt.Rollback])) := by
  refine ⟨?_, Call_once c, ?_⟩
  · obtain ⟨r, hr, hshape⟩ := Call_shape c
    refine ⟨r, hr, ?_⟩
    rcases hshape with (h | h) | ⟨status, message, hrs, h | h | h | h⟩
    · simp [h]
    · simp [h]
    · subst hrs; subst h; simp [SendError]
    · subst hrs; subst h; simp [SendError]
    · subst hrs; subst h; simp [SendError]
    · subst hrs; subst h; simp [SendError]
  · intro hv hb hq hk hfail hbefore
    obtain ⟨hstmts, hl⟩ := insertDays_stmts_upto db (scanSection row).ID sectionReq.Days 0
      (st.Begin.InsertSection row) k e hk (by simpa using hfail)
      (by intro j hj; simpa using hbefore j hj)
    have hid : (scanSection row).ID = row.id := rfl
    rw [hid] at hstmts hl
    simp [Call.trace, CreateSection, hv, hb, createSectionTx, hq, hl, hstmts, scanSection]

/-- C21 at a section with three days whose second day insert fails. -/
theorem one_response_no_retry_witness :
    stmts (Call.CreateSection (some sampleSectionReq) secondDayFailsDB emptyStore).trace =
      [Stmt.Begin, Stmt.InsertSection 1 1 1 "001" "08:00:00" 50 30,
       Stmt.InsertSectionDay 7 "monday", Stmt.InsertSectionDay 7 "wednesday",
       Stmt.Rollback] :=
  (one_response_no_retry (.GetStudents (.ok { scans := [], Err := none })) sampleSectionReq
    secondDayFailsDB emptyStore sampleSectionRow 1 connectionLost).2.2
    (by decide) rfl rfl (by decide) rfl (by intro j hj; interval_cases j; rfl)

/-! ## The error envelope -/

/-- C23: `SendError status message` writes the given status, sets `Content-Type`
to "application/json" and writes the map with the single key "error" bound to
the message, which is encoded as a JSON object; and every response of any
handler whose status is not 2xx is built by `SendError`, so it has that shape. -/
theorem error_envelope (status : Nat) (message : String) (c : Call) :
    (SendError status message).status = status ∧
    (SendError status message).contentType = "application/json" ∧
    (SendError status message).payload = .stringMap [("error", message)] ∧
    (SendError status message).payload.jsonShape = .object ∧
    (∀ r, r ∈ responses c.trace → ¬(200 ≤ r.status ∧ r.status < 300) →
      ∃ text, r = SendError r.status text ∧ r.contentType = "application/json" ∧
        r.payload = .stringMap [("error", text)]) := by
  refine ⟨rfl, rfl, rfl, rfl, ?_⟩
  intro r hr hnot
  obtain ⟨r0, hr0, hshape⟩ := Call_shape c
  rw [hr0] at hr
  simp at hr
  subst hr
  rcases hshape with (h | h) | ⟨code, text, hrs, _⟩
  · exact absurd (by omega) hnot
  · exact absurd (by omega) hnot
  · subst hrs
    exact ⟨text, rfl, rfl, rfl⟩

/-- C23 at the response to a student id that does not parse. -/
theorem error_envelope_witness :
    ∃ text, SendError StatusBadRequest "Invalid student ID" =
        SendError (SendError StatusBadRequest "Invalid student ID").status text ∧
      (SendError StatusBadRequest "Invalid student ID").contentType = "application/json" ∧
      (SendError StatusBadRequest "Invalid student ID").payload = .stringMap [("error", text)] :=
  (error_envelope 400 "Invalid student ID" (.GetStudentByID "abc" (fun _ => .error errNoRows))).2.2.2.2
    (SendError StatusBadRequest "Invalid student ID") (by decide) (by decide)

/-! ## Enrolling, dropping and the schedule -/
/-- A refused enrollment is answered with one response built by `SendError`,
with status 409 or 500. -/
theorem EnrollStudent_error_status (enrollment : EnrollmentRequest) (err : StoreError) :
    (∃ message, responses (EnrollStudent (some enrollment) (.error err)) =
        [SendError StatusConflict message]) ∨
    (∃ message, responses (EnrollStudent (some enrollment) (.error err)) =
        [SendError StatusInternalServerError message]) := by
  simp only [EnrollStudent]
  repeat' split
  all_goals first
    | exact Or.inl ⟨_, rfl⟩
    | exact Or.inr ⟨_, rfl⟩

/-- A row loop whose every `Scan` succeeds appends every row. -/
theorem scanRows_ok {α : Type} (xs : List α) :
    ∀ acc : Slice α, ∃ out, scanRows (xs.map Except.ok) acc = .ok out ∧
      out.getD [] = acc.getD [] ++ xs := by
  induction xs with
  | nil => intro acc; exact ⟨acc, rfl, by simp⟩
  | cons x rest ih =>
    intro acc
    obtain ⟨out, hout, hget⟩ := ih (acc.append x)
    refine ⟨out, by simpa [scanRows] using hout, ?_⟩
    simp [hget, Slice.append]

/-- The schedule handler, run against the store for a student id that parses,
answers 200 with the sections the student is enrolled in. -/
theorem schedule_sections (en : EnrollmentStore) (view : Int → ScheduleItem) (idStr : String)
    (id : Int) (hparse : Atoi idStr = some id) :
    statuses (en.schedule view idStr) = [200] ∧
    scheduleSections (en.schedule view idStr) = en.sectionsOf id := by
  obtain ⟨out, hout, hget⟩ := scanRows_ok
    ((en.pairs.filter (fun p => p.1 = id)).map
      (fun p => ({ view p.2 with SectionID := p.2 } : ScheduleItem))) none
  have hscan : scanRows ((en.pairs.filter (fun p => p.1 = id)).map
      (fun p => (Except.ok { view p.2 with SectionID := p.2 } :
        Except StoreError ScheduleItem))) none = .ok out := by
    simpa [List.map_map, Function.comp] using hout
  constructor
  · simp [EnrollmentStore.schedule, GetStudentSchedule, hparse, EnrollmentStore.Query, hscan,
      statuses, SendJSON, StatusOK]
  · simp [EnrollmentStore.schedule, GetStudentSchedule, hparse, EnrollmentStore.Query, hscan,
      scheduleSections, SendJSON, hget, EnrollmentStore.sectionsOf, List.map_map,
      Function.comp]

/-- An accepted enrollment is answered with 201 and enters the pair in the table. -/
theorem enroll_ok (en : EnrollmentStore) (student_id section_id : Int)
    (generated : Int × Time) :
    statuses (en.enroll student_id section_id (.ok generated)).1 = [201] ∧
    (en.enroll student_id section_id (.ok generated)).2.pairs =
      if (student_id, section_id) ∈ en.pairs then en.pairs
      else en.pairs ++ [(student_id, section_id)] := by
  constructor
  · simp [EnrollmentStore.enroll, EnrollStudent, statuses, SendJSON, StatusCreated]
  · by_cases h : (student_id, section_id) ∈ en.pairs <;>
      simp [EnrollmentStore.enroll, EnrollStudent, EnrollmentStore.after,
        EnrollmentStore.exec, h]

/-- An enrollment answered with 201 was accepted by the store. -/
theorem enroll_created (en : EnrollmentStore) (student_id section_id : Int)
    (QueryRow : Except StoreError (Int × Time))
    (h : statuses (en.enroll student_id section_id QueryRow).1 = [201]) :
    ∃ generated, QueryRow = .ok generated := by
  cases QueryRow with
  | ok generated => exact ⟨generated, rfl⟩
  | error err =>
    exfalso
    have h3 := (EnrollStudent_error_status { StudentID := student_id, SectionID := section_id }
      err)
    simp only [EnrollmentStore.enroll, statuses] at h
    rcases h3 with ⟨message, h3⟩ | ⟨message, h3⟩ <;> rw [h3] at h <;>
      simp [SendError, StatusConflict, StatusInternalServerError] at h

/-- A drop whose path parameters parse removes the pair from the table, and is
answered with 200 exactly when the pair was there. -/
theorem drop_parsed (en : EnrollmentStore) (studentIDStr sectionIDStr : String)
    (student_id section_id : Int) (hs : Atoi studentIDStr = some student_id)
    (hc : Atoi sectionIDStr = some section_id) :
    (en.drop studentIDStr sectionIDStr).2.pairs =
      en.pairs.filter (fun p => p ≠ (student_id, section_id)) ∧
    (statuses (en.drop studentIDStr sectionIDStr).1 = [200] ↔
      (student_id, section_id) ∈ en.pairs) := by
  by_cases hmem : (student_id, section_id) ∈ en.pairs
  · have hcount : ¬ ((List.count (student_id, section_id) en.pairs : Nat) : Int) = 0 := by
      have := List.count_pos_iff.mpr hmem
      omega
    constructor
    · simp [EnrollmentStore.drop, DropSection, hs, hc, EnrollmentStore.Exec, hcount,
        EnrollmentStore.after, EnrollmentStore.exec]
    · simp [EnrollmentStore.drop, DropSection, hs, hc, EnrollmentStore.Exec, hcount,
        statuses, SendJSON, StatusOK, hmem]
  · have hcount : ((List.count (student_id, section_id) en.pairs : Nat) : Int) = 0 := by
      have := List.count_eq_zero_of_not_mem hmem
      omega
    constructor
    · simp [EnrollmentStore.drop, DropSection, hs, hc, EnrollmentStore.Exec, hcount,
        EnrollmentStore.after, EnrollmentStore.exec]
    · simp [EnrollmentStore.drop, DropSection, hs, hc, EnrollmentStore.Exec, hcount,
        statuses, SendError, StatusNotFound, hmem]
/-- A section is among those of a student exactly when the pair is in the table. -/
theorem mem_sectionsOf (en : EnrollmentStore) (student_id section_id : Int) :
    section_id ∈ en.sectionsOf student_id ↔ (student_id, section_id) ∈ en.pairs := by
  simp only [EnrollmentStore.sectionsOf, List.mem_map, List.mem_filter, decide_eq_true_eq]
  constructor
  · rintro ⟨⟨a, b⟩, ⟨hmem, ha⟩, hb⟩
    simp only at ha hb
    subst ha
    subst hb
    exact hmem
  · intro hmem
    exact ⟨(student_id, section_id), ⟨hmem, rfl⟩, rfl⟩

/-- Removing a pair from the table removes its section from the sections of its
student, and nothing else. -/
theorem sectionsOf_filter (pairs : List (Int × Int)) (student_id section_id : Int) :
    ((pairs.filter (fun p => p ≠ (student_id, section_id))).filter
        (fun p => p.1 = student_id)).map (fun p => p.2) =
      ((pairs.filter (fun p => p.1 = student_id)).map (fun p => p.2)).filter
        (fun x => x ≠ section_id) := by
  rw [List.filter_map, List.filter_filter, List.filter_filter]
  congr 1
  apply List.filter_congr
  rintro ⟨a, b⟩ _
  by_cases ha : a = student_id <;> by_cases hb : b = section_id <;> simp [ha, hb]

/-- The sections of a student after an accepted enrollment. -/
theorem sectionsOf_enroll (en : EnrollmentStore) (student_id section_id : Int)
    (generated : Int × Time) :
    (en.enroll student_id section_id (.ok generated)).2.sectionsOf student_id =
      if section_id ∈ en.sectionsOf student_id then en.sectionsOf student_id
      else en.sectionsOf student_id ++ [section_id] := by
  have hpairs := (enroll_ok en student_id section_id generated).2
  by_cases hmem : (student_id, section_id) ∈ en.pairs
  · have hsec := (mem_sectionsOf en student_id section_id).mpr hmem
    simp only [EnrollmentStore.sectionsOf] at hsec ⊢
    rw [hpairs]
    simp [hmem, hsec]
  · have hsec : section_id ∉ en.sectionsOf student_id :=
      fun h => hmem ((mem_sectionsOf en student_id section_id).mp h)
    simp only [EnrollmentStore.sectionsOf] at hsec ⊢
    rw [hpairs]
    simp [hmem, hsec, List.filter_append]

/-- The sections of a student after a drop whose parameters parse. -/
theorem sectionsOf_drop (en : EnrollmentStore) (studentIDStr sectionIDStr : String)
    (student_id section_id : Int) (hs : Atoi studentIDStr = some student_id)
    (hc : Atoi sectionIDStr = some section_id) :
    (en.drop studentIDStr sectionIDStr).2.sectionsOf student_id =
      (en.sectionsOf student_id).filter (fun x => x ≠ section_id) := by
  have hpairs := (drop_parsed en studentIDStr sectionIDStr student_id section_id hs hc).1
  simp only [EnrollmentStore.sectionsOf]
  rw [hpairs]
  exact sectionsOf_filter en.pairs student_id section_id

/-- Enrolling a student in distinct sections he is not yet in appends them to
his sections. -/
theorem enrollAll_sections (student_id : Int) (generated : Int × Time) :
    ∀ (cs : List Int) (en : EnrollmentStore), cs.Nodup →
      (∀ c, c ∈ cs → c ∉ en.sectionsOf student_id) →
      (en.enrollAll student_id generated cs).sectionsOf student_id =
        en.sectionsOf student_id ++ cs := by
  intro cs
  induction cs with
  | nil => intro en _ _; simp [EnrollmentStore.enrollAll]
  | cons c rest ih =>
    intro en hnodup hnew
    have hc : c ∉ en.sectionsOf student_id := hnew c (by simp)
    have hstep : (en.enroll student_id c (.ok generated)).2.sectionsOf student_id =
        en.sectionsOf student_id ++ [c] := by
      rw [sectionsOf_enroll, if_neg hc]
    have hrest : ∀ x, x ∈ rest →
        x ∉ (en.enroll student_id c (.ok generated)).2.sectionsOf student_id := by
      intro x hx hmem
      rw [hstep] at hmem
      rcases List.mem_append.mp hmem with h | h
      · exact hnew x (by simp [hx]) h
      · have hxc : x = c := by simpa using h
        subst hxc
        exact (List.nodup_cons.mp hnodup).1 hx
    simp only [EnrollmentStore.enrollAll]
    rw [ih _ (List.nodup_cons.mp hnodup).2 hrest, hstep]
    simp

/-- Dropping distinct sections a student is in shortens his sections by their
number. -/
theorem dropAll_sections (studentIDStr : String) (student_id : Int)
    (hs : Atoi studentIDStr = some student_id) :
    ∀ (dStrs : List String) (ds : List Int) (en : EnrollmentStore),
      List.Forall₂ (fun str d => Atoi str = some d) dStrs ds →
      (en.sectionsOf student_id).Nodup → ds.Nodup →
      (∀ d, d ∈ ds → d ∈ en.sectionsOf student_id) →
      ((en.dropAll studentIDStr dStrs).sectionsOf student_id).length + ds.length =
        (en.sectionsOf student_id).length := by
  intro dStrs
  induction dStrs with
  | nil =>
    intro ds en hparse _ _ _
    cases hparse
    simp [EnrollmentStore.dropAll]
  | cons dStr restStrs ih =>
    intro ds en hparse hnodup hds hin
    cases hparse with
    | cons hd hrest =>
      rename_i d rest
      have hstep := sectionsOf_drop en studentIDStr dStr student_id d hs hd
      have hdin : d ∈ en.sectionsOf student_id := hin d (by simp)
      have hlen : ((en.sectionsOf student_id).filter (fun x => x ≠ d)).length + 1 =
          (en.sectionsOf student_id).length := by
        have herase := List.Nodup.erase_eq_filter hnodup d
        have hl := List.length_erase_of_mem hdin
        have hpos : 0 < (en.sectionsOf student_id).length := List.length_pos_of_mem hdin
        have hsame : (en.sectionsOf student_id).filter (fun x => x ≠ d) =
            (en.sectionsOf student_id).filter (fun x => x != d) := by
          congr 1
          funext x
          by_cases hx : x = d <;> simp [hx]
        rw [hsame, ← herase, hl]
        omega
      have hnodup2 : ((en.drop studentIDStr dStr).2.sectionsOf student_id).Nodup := by
        rw [hstep]
        exact List.Nodup.filter _ hnodup
      have hin2 : ∀ x, x ∈ rest → x ∈ (en.drop studentIDStr dStr).2.sectionsOf student_id := by
        intro x hx
        rw [hstep]
        have hxd : x ≠ d := by
          intro h
          subst h
          exact (List.nodup_cons.mp hds).1 hx
        simp [hin x (by simp [hx]), hxd]
      have ih2 := ih rest (en.drop studentIDStr dStr).2 hrest hnodup2
        (List.nodup_cons.mp hds).2 hin2
      simp only [EnrollmentStore.dropAll, List.length_cons]
      rw [hstep] at ih2
      omega
/-- C22: over the store of enrollment pairs.  After `EnrollStudent` for student
`s` and section `c` is answered with 201, the schedule of `s` is answered with
200 and contains `c`.  After `DropSection` for `s` and `c` is answered with 200,
the schedule of `s` no longer contains `c`, its other sections are those it had
before, and every other pair of the table is kept.  Hence a student without
enrollments who is enrolled in `n` distinct sections has a schedule of `n`
items, and of `n - k` items after `k` distinct ones of them were dropped. -/
theorem enroll_drop_schedule (en : EnrollmentStore) (view : Int → ScheduleItem)
    (studentIDStr sectionIDStr : String) (student_id section_id : Int)
    (QueryRow : Except StoreError (Int × Time)) (generated : Int × Time)
    (cs ds : List Int) (dStrs : List String)
    (hs : Atoi studentIDStr = some student_id) (hc : Atoi sectionIDStr = some section_id) :
    (statuses (en.enroll student_id section_id QueryRow).1 = [201] →
      statuses ((en.enroll student_id section_id QueryRow).2.schedule view studentIDStr) =
        [200] ∧
      section_id ∈ scheduleSections
        ((en.enroll student_id section_id QueryRow).2.schedule view studentIDStr)) ∧
    (statuses (en.drop studentIDStr sectionIDStr).1 = [200] →
      statuses ((en.drop studentIDStr sectionIDStr).2.schedule view studentIDStr) = [200] ∧
      section_id ∉ scheduleSections
        ((en.drop studentIDStr sectionIDStr).2.schedule view studentIDStr) ∧
      scheduleSections ((en.drop studentIDStr sectionIDStr).2.schedule view studentIDStr) =
        (scheduleSections (en.schedule view studentIDStr)).filter (fun x => x ≠ section_id) ∧
      (∀ p, p ≠ (student_id, section_id) →
        (p ∈ (en.drop studentIDStr sectionIDStr).2.pairs ↔ p ∈ en.pairs))) ∧
    ((∀ x, (student_id, x) ∉ en.pairs) → cs.Nodup → ds.Nodup → ds ⊆ cs →
      List.Forall₂ (fun str d => Atoi str = some d) dStrs ds →
      (scheduleSections
        ((en.enrollAll student_id generated cs).schedule view studentIDStr)).length =
        cs.length ∧
      (scheduleSections
        (((en.enrollAll student_id generated cs).dropAll studentIDStr dStrs).schedule view
          studentIDStr)).length = cs.length - ds.length) := by
  refine ⟨?_, ?_, ?_⟩
  · intro hcreated
    obtain ⟨g, hg⟩ := enroll_created en student_id section_id QueryRow hcreated
    subst hg
    obtain ⟨hstatus, hsections⟩ := schedule_sections
      (en.enroll student_id section_id (.ok g)).2 view studentIDStr student_id hs
    refine ⟨hstatus, ?_⟩
    rw [hsections, sectionsOf_enroll]
    by_cases hmem : section_id ∈ en.sectionsOf student_id
    · simp [hmem]
    · simp [hmem]
  · intro _
    obtain ⟨hstatus, hsections⟩ := schedule_sections
      (en.drop studentIDStr sectionIDStr).2 view studentIDStr student_id hs
    have hbefore := (schedule_sections en view studentIDStr student_id hs).2
    have hdrop := sectionsOf_drop en studentIDStr sectionIDStr student_id section_id hs hc
    refine ⟨hstatus, ?_, ?_, ?_⟩
    · rw [hsections, hdrop]
      simp
    · rw [hsections, hdrop, hbefore]
    · intro p hp
      rw [(drop_parsed en studentIDStr sectionIDStr student_id section_id hs hc).1]
      simp [hp]
  · intro hnone hcs hds hsub hparse
    have hempty : en.sectionsOf student_id = [] := by
      apply List.eq_nil_iff_forall_not_mem.mpr
      intro x hx
      exact hnone x ((mem_sectionsOf en student_id x).mp hx)
    have hall := enrollAll_sections student_id generated cs en hcs
      (by intro c _ hmem; rw [hempty] at hmem; cases hmem)
    rw [hempty, List.nil_append] at hall
    constructor
    · rw [(schedule_sections _ view studentIDStr student_id hs).2, hall]
    · rw [(schedule_sections _ view studentIDStr student_id hs).2]
      have hlen := dropAll_sections studentIDStr student_id hs dStrs ds
        (en.enrollAll student_id generated cs) hparse (by rw [hall]; exact hcs) hds
        (by intro d hd; rw [hall]; exact hsub hd)
      rw [hall] at hlen
      omega

/-- C22 at the scenario of the integration test `MultipleEnrollmentsAndDrops`:
three sections enrolled give a schedule of three; one dropped, two; all three
dropped, none. -/
theorem enroll_drop_schedule_witness :
    ((scheduleSections
        ((noEnrollments.enrollAll 1 (5, ⟨0⟩) [11, 12, 13]).schedule sampleView "1")).length =
        [11, 12, 13].length ∧
      (scheduleSections
        (((noEnrollments.enrollAll 1 (5, ⟨0⟩) [11, 12, 13]).dropAll "1" ["12"]).schedule
          sampleView "1")).length = [11, 12, 13].length - [12].length) ∧
    (scheduleSections
      (((noEnrollments.enrollAll 1 (5, ⟨0⟩) [11, 12, 13]).dropAll "1"
        ["12", "11", "13"]).schedule sampleView "1")).length =
      [11, 12, 13].length - [12, 11, 13].length :=
  ⟨(enroll_drop_schedule noEnrollments sampleView "1" "12" 1 12 (.ok (5, ⟨0⟩)) (5, ⟨0⟩)
      [11, 12, 13] [12] ["12"] (by decide) (by decide)).2.2
      (by simp [noEnrollments]) (by decide) (by decide) (by decide)
      (List.Forall₂.cons (by decide) List.Forall₂.nil),
   ((enroll_drop_schedule noEnrollments sampleView "1" "12" 1 12 (.ok (5, ⟨0⟩)) (5, ⟨0⟩)
      [11, 12, 13] [12, 11, 13] ["12", "11", "13"] (by decide) (by decide)).2.2
      (by simp [noEnrollments]) (by decide) (by decide) (by decide)
      (List.Forall₂.cons (by decide) (List.Forall₂.cons (by decide)
        (List.Forall₂.cons (by decide) List.Forall₂.nil)))).2⟩

end University
